import Mathlib

/-!
Verification of the incremental tile-placement engine of the
progress-tiles repository (src/hat_family.py and its callers), as a
shallow embedding over the reals.

Python floats are modelled as real numbers; `round(x, 6)` is modelled as
rounding `x * 10^6` to the nearest integer (Mathlib's `round`, which
rounds half away from the tie in the upward direction; the program never
evaluates it at an exact tie in any statement below).  Exceptions are
modelled with `Except String` / paired `Option String` results: a raised
exception leaves the mutable object unchanged, which the embedding
expresses by returning the unchanged store next to the error message.
-/

namespace ProgressTiles

open Real

/-- A planar point, as in the Python `(float, float)` tuples. -/
abbrev Pt : Type := ℝ × ℝ

/-- Turn direction of a boundary-tracing move (`'L'`/`'R'` in the source). -/
inductive Turn where
  | L : Turn
  | R : Turn
deriving DecidableEq, Repr

/-- Length class of a move: `'FS'`, `'HS'`, `'HH'` in the source. -/
inductive DistClass where
  | FS : DistClass
  | HS : DistClass
  | HH : DistClass
deriving DecidableEq, Repr

/-- `Move = namedtuple('Move', ['turn', 'angle', 'd'])`. -/
structure Move where
  turn : Turn
  angle : ℕ
  d : DistClass
deriving DecidableEq, Repr

/-- `Segment = namedtuple('Segment', ['start', 'stop'])`. -/
structure Segment where
  start : Pt
  stop : Pt

/-- `OTHER_DIR` restricted to the turn directions appearing in moves. -/
def otherTurn : Turn → Turn
  | .L => .R
  | .R => .L

/-- `LEFT_HAT_MOVES` from src/hat_family.py. -/
def LEFT_HAT_MOVES : List Move :=
  [⟨.L, 60, .HS⟩, ⟨.L, 90, .HS⟩, ⟨.L, 60, .HH⟩, ⟨.R, 90, .HH⟩,
   ⟨.L, 60, .HS⟩, ⟨.L, 60, .FS⟩, ⟨.L, 90, .HS⟩, ⟨.R, 60, .HH⟩,
   ⟨.L, 90, .HH⟩, ⟨.R, 60, .HS⟩, ⟨.L, 90, .HS⟩, ⟨.L, 60, .HH⟩,
   ⟨.R, 90, .HH⟩]

/-- `RIGHT_HAT_MOVES`: same moves with the turn directions swapped. -/
def RIGHT_HAT_MOVES : List Move :=
  LEFT_HAT_MOVES.map (fun v => ⟨otherTurn v.turn, v.angle, v.d⟩)

/-- `OTHER_DIR` on the leading character of an edge name. -/
def otherChar : Char → Char
  | 'L' => 'R'
  | 'R' => 'L'
  | 'D' => 'D'
  | c => c

/-- `LEFT_EDGES` from src/hat_family.py. -/
def LEFT_EDGES : List String :=
  ["LP", "LH", "LS", "LN", "RN", "RS", "RH", "RP", "RT", "RW", "DW", "LW",
   "LT"]

/-- `OTHER_DIR[val[0]] + val[1:]` applied to an edge name. -/
def flipEdgeName (s : String) : String :=
  match s.toList with
  | [] => s
  | c :: rest => String.mk (otherChar c :: rest)

/-- `RIGHT_EDGES`: left edge names with the leading side marker flipped. -/
def RIGHT_EDGES : List String := LEFT_EDGES.map flipEdgeName

/-- A tile chirality, the keys `'L'`/`'R'` of the `MOVES`/`EDGES` dicts. -/
inductive Chirality where
  | L : Chirality
  | R : Chirality
deriving DecidableEq, Repr

/-- The `MOVES` dict. -/
def MOVES : Chirality → List Move
  | .L => LEFT_HAT_MOVES
  | .R => RIGHT_HAT_MOVES

/-- The `EDGES` dict. -/
def EDGES : Chirality → List String
  | .L => LEFT_EDGES
  | .R => RIGHT_EDGES

/-- `list.index(x)`: the position of `x`, or an error when absent, as the
Python method raises `ValueError` in that case. -/
def listIndex {α : Type} [BEq α] (l : List α) (a : α) : Except String ℕ :=
  if l.contains a then .ok (l.indexOf a) else .error "is not in list"

/-- `round(x, 6)`: round to six decimal places. -/
noncomputable def round6 (x : ℝ) : ℝ := (round (x * 1000000) : ℤ) / 1000000

/-- Both coordinates of a point rounded to six decimals. -/
noncomputable def round6Pt (p : Pt) : Pt := (round6 p.1, round6 p.2)

/-- `dist(pt1, pt2)` from src/hat_family.py. -/
noncomputable def dist (pt1 pt2 : Pt) : ℝ :=
  Real.sqrt ((pt2.2 - pt1.2) ^ 2 + (pt2.1 - pt1.1) ^ 2)

/-- `get_angle(start, end)` from src/hat_family.py: raises when the two
points (nearly) coincide, otherwise returns the facing angle. -/
noncomputable def get_angle (start stop : Pt) : Except String ℝ :=
  let y_diff : ℝ := stop.2 - start.2
  let x_diff : ℝ := stop.1 - start.1
  if y_diff * y_diff + x_diff * x_diff < 1 / 100000000 then
    .error "Cannot get angle since side length 0!"
  else if |x_diff| < 1 / 1000000 then
    (if y_diff > 0 then .ok (π / 2) else .ok (-(π / 2)))
  else if x_diff > 0 then
    .ok (Real.arctan (y_diff / x_diff))
  else
    .ok (Real.arctan (y_diff / x_diff) + π)

/-- The `angle_const` chosen for a turn direction in `set_user_points`. -/
def angleConst : Turn → ℝ
  | .L => -1
  | .R => 1

/-- The angle update of one move: `angle_const * 2 * pi * move.angle / 360`. -/
noncomputable def turnDelta (m : Move) : ℝ :=
  angleConst m.turn * (2 * π * m.angle / 360)

/-- One iteration of the tracing loop in `set_user_points`: move by the
resolved length in the facing direction, round, then turn. -/
noncomputable def traceStep (d : DistClass → ℝ) (st : Pt × ℝ) (m : Move) :
    Pt × ℝ :=
  ((round6 (st.1.1 + d m.d * Real.cos st.2),
    round6 (st.1.2 + d m.d * Real.sin st.2)),
   st.2 + turnDelta m)

/-- The list `pts` recorded by the tracing loop of `set_user_points`. -/
noncomputable def tracePts (d : DistClass → ℝ) :
    Pt × ℝ → List Move → List Pt
  | _, [] => []
  | st, m :: ms =>
    (traceStep d st m).1 :: tracePts d (traceStep d st m) ms

/-- Python `l[-s:]` for `0 ≤ s ≤ len(l)` (`l[-0:]` is the whole list). -/
def pySliceFrom {α : Type} (l : List α) (s : ℕ) : List α :=
  if s = 0 then l else l.drop (l.length - s)

/-- Python `l[:-s]` for `0 ≤ s ≤ len(l)` (`l[:-0]` is empty). -/
def pySliceTo {α : Type} (l : List α) (s : ℕ) : List α :=
  if s = 0 then [] else l.take (l.length - s)

/-- `out_list = pts[-start_pos:] + pts[:-start_pos]`. -/
def rearrange {α : Type} (l : List α) (s : ℕ) : List α :=
  pySliceFrom l s ++ pySliceTo l s

/-- `move_list = MOVES[ch][start_pos:] + MOVES[ch][:start_pos]`. -/
def rotatedMoves (ch : Chirality) (s : ℕ) : List Move :=
  (MOVES ch).drop s ++ (MOVES ch).take s

/-- The full point computation of `HatFamilyTile.set_user_points` given a
start point and start angle: trace the rotated move list, then put the
recorded points back into canonical edge order. -/
noncomputable def traceFrom (d : DistClass → ℝ) (ch : Chirality) (s : ℕ)
    (p0 : Pt) (a0 : ℝ) : List Pt :=
  rearrange (tracePts d (p0, a0) (rotatedMoves ch s)) s

/-- The immutable description of one input row for a `HatFamilyTile`:
the constructor arguments other than the store itself.  `match_edge` and
`match_id` are `none` for the first tile (the falsy `''`/`None` values of
the source). -/
structure TileSpec where
  tile_id : String
  start_edge : String
  color : String
  match_edge : Option String := none
  match_id : Option String := none
  footnote : String := ""

/-- The state of a constructed `HatFamilyTile`. -/
structure HatFamilyTile where
  chirality : Chirality
  tile_id : String
  color : String
  start_edge : String
  match_edge : Option String
  match_id : Option String
  footnote : String
  user_points : List Pt
  start_fill_color : String
  start_stroke_color : String
  done_fill_color : String
  done_stroke_color : String

/-- The state of an `AllTiles` store.  The `tiles` dict is an
insertion-ordered association list; `chiralities` and `colors` are the
configuration dicts, abstracted as total functions (every color used by a
claim is a key of both). -/
structure AllTiles where
  tiles : List (String × HatFamilyTile)
  tile_param1 : ℝ
  tile_param2 : ℝ
  chiralities : String → Chirality
  colors : String → String
  first_tile_angle : ℝ
  scaling : ℝ
  left_x : Option ℝ := none
  right_x : Option ℝ := none
  top_y : Option ℝ := none
  bottom_y : Option ℝ := none
  footnote : String := ""

/-- The `dists` dict computed in `AllTiles.__init__`. -/
noncomputable def AllTiles.dists (s : AllTiles) : DistClass → ℝ
  | .FS => s.scaling * 2 * s.tile_param1
  | .HS => s.scaling * s.tile_param1
  | .HH => s.scaling * s.tile_param2

/-- `_FIRST_TILE_W = 0`. -/
def FIRST_TILE_W : ℝ := 0

/-- `_FIRST_TILE_H = 0`. -/
def FIRST_TILE_H : ℝ := 0

/-- The start point and start angle chosen by `set_user_points`: the
configured first-tile position for an unmatched tile, and the
chirality-dependent endpoint/angle of the matched edge otherwise. -/
noncomputable def resolveStart (all_tiles : AllTiles) (chirality : Chirality)
    (match_edge match_id : Option String) : Except String (Pt × ℝ) :=
  match match_edge with
  | none =>
    .ok ((FIRST_TILE_W * all_tiles.scaling, FIRST_TILE_H * all_tiles.scaling),
         all_tiles.first_tile_angle)
  | some me =>
    match (all_tiles.tiles.lookup (match_id.getD "")) with
    | none => .error "match_id not found"
    | some match_tile =>
      match listIndex (EDGES match_tile.chirality) me with
      | .error e => .error e
      | .ok match_pos =>
        let match_end := match_tile.user_points.getD match_pos (0, 0)
        let match_start :=
          match_tile.user_points.getD (((match_pos : ℤ) - 1) % 13).toNat (0, 0)
        if chirality = match_tile.chirality then
          match get_angle match_end match_start with
          | .error e => .error e
          | .ok a => .ok (match_end, a)
        else
          match get_angle match_start match_end with
          | .error e => .error e
          | .ok a => .ok (match_start, a)

/-- `HatFamilyTile.set_user_points`: resolve the start point and angle,
then trace the rotated move list and restore canonical edge order. -/
noncomputable def set_user_points (all_tiles : AllTiles) (chirality : Chirality)
    (start_edge : String) (match_edge match_id : Option String) :
    Except String (List Pt) :=
  match resolveStart all_tiles chirality match_edge match_id with
  | .error e => .error e
  | .ok (p0, a0) =>
    match listIndex (EDGES chirality) start_edge with
    | .error e => .error e
    | .ok start_pos => .ok (traceFrom all_tiles.dists chirality start_pos p0 a0)

/-- `convert_rgba_to_hex` on the two constant calls the tile constructor
makes (`(0,0,0)` and `(0,0,0,0)`). -/
def blackHex : String := "#000000"

/-- Fully transparent black, `convert_rgba_to_hex(0, 0, 0, 0)`. -/
def transparentHex : String := "#00000000"

/-- `HatFamilyTile.__init__`: look up the chirality, compute the points
(possibly raising), and assign the display colors. -/
noncomputable def HatFamilyTile.init (all_tiles : AllTiles) (spec : TileSpec) :
    Except String HatFamilyTile :=
  match set_user_points all_tiles (all_tiles.chiralities spec.color)
      spec.start_edge spec.match_edge spec.match_id with
  | .error e => .error e
  | .ok pts =>
    .ok { chirality := all_tiles.chiralities spec.color,
          tile_id := spec.tile_id,
          color := spec.color,
          start_edge := spec.start_edge,
          match_edge := spec.match_edge,
          match_id := spec.match_id,
          footnote := spec.footnote,
          user_points := pts,
          start_fill_color := all_tiles.colors spec.color,
          start_stroke_color := blackHex,
          done_fill_color := transparentHex,
          done_stroke_color := transparentHex }

/-- `AllTiles.add_hat`: raise (returning the unchanged store and the
message) when the id is already a key of the dict, otherwise append the
tile.  The store is returned in both cases because the Python method
mutates `self.tiles` in place and the duplicate check precedes the
assignment. -/
def add_hat (s : AllTiles) (hat : HatFamilyTile) : AllTiles × Option String :=
  if (s.tiles.lookup hat.tile_id).isSome then
    (s, some ("id already exists hat.tile_id=" ++ hat.tile_id))
  else
    ({ s with tiles := s.tiles ++ [(hat.tile_id, hat)] }, none)

/-- `AllTiles.get_pt`. -/
noncomputable def get_pt (s : AllTiles) (tile_id : String) (edge : String) :
    Except String Pt :=
  match s.tiles.lookup tile_id with
  | none => .error "tile_id not found"
  | some tile =>
    match listIndex (EDGES tile.chirality) edge with
    | .error e => .error e
    | .ok pt_idx => .ok (tile.user_points.getD pt_idx (0, 0))

/-- Python `min` over a list of reals (the list is nonempty whenever the
source evaluates it; on `[]` the model returns `0` where Python raises). -/
noncomputable def pyMin (l : List ℝ) : ℝ := l.foldr min (l.getLastD 0)

/-- Python `max` over a list of reals, as `pyMin`. -/
noncomputable def pyMax (l : List ℝ) : ℝ := l.foldr max (l.getLastD 0)

/-- `HatFamilyTile.get_boundary` for sides `'L'`, `'R'`, `'B'`, `'T'`. -/
noncomputable def get_boundary (t : HatFamilyTile) : Char → ℝ
  | 'L' => pyMin (t.user_points.map Prod.fst)
  | 'R' => pyMax (t.user_points.map Prod.fst)
  | 'B' => pyMax (t.user_points.map Prod.snd)
  | 'T' => pyMin (t.user_points.map Prod.snd)
  | _ => 0

/-- `AllTiles.get_boundaries`: each crop override, defaulting to the tight
bound over all tiles; returned as `(left, bottom, right, top)`. -/
noncomputable def get_boundaries (s : AllTiles) : ℝ × ℝ × ℝ × ℝ :=
  (s.left_x.getD (pyMin (s.tiles.map (fun kv => get_boundary kv.2 'L'))),
   s.bottom_y.getD (pyMax (s.tiles.map (fun kv => get_boundary kv.2 'B'))),
   s.right_x.getD (pyMax (s.tiles.map (fun kv => get_boundary kv.2 'R'))),
   s.top_y.getD (pyMin (s.tiles.map (fun kv => get_boundary kv.2 'T'))))

/-- `AllTiles.rotate_and_rescale`. -/
noncomputable def rotate_and_rescale (s : AllTiles) (angle scaling : ℝ) :
    AllTiles :=
  { s with tiles := s.tiles.map (fun kv =>
      (kv.1, { kv.2 with user_points := kv.2.user_points.map (fun pt =>
        (scaling * (Real.cos angle * pt.1 - Real.sin angle * pt.2),
         scaling * (Real.sin angle * pt.1 + Real.cos angle * pt.2))) })) }

/-- `AllTiles.set_origin`. -/
def set_origin (s : AllTiles) (left top : ℝ) : AllTiles :=
  { s with tiles := s.tiles.map (fun kv =>
      (kv.1, { kv.2 with user_points := kv.2.user_points.map (fun pt =>
        (pt.1 - left, pt.2 - top)) })) }

/-- `AllTiles.change_coordinates`: both `get_angle` calls precede every
mutation, so a raise from either leaves the store unchanged. -/
noncomputable def change_coordinates (s : AllTiles)
    (new_segment_coords old_segment_coords : Segment) :
    AllTiles × Option String :=
  match get_angle new_segment_coords.start new_segment_coords.stop with
  | .error e => (s, some e)
  | .ok a1 =>
    match get_angle old_segment_coords.start old_segment_coords.stop with
    | .error e => (s, some e)
    | .ok a2 =>
      let s1 := set_origin s old_segment_coords.stop.1
                  old_segment_coords.stop.2
      let s2 := rotate_and_rescale s1 (a1 - a2)
                  (dist new_segment_coords.start new_segment_coords.stop /
                   dist old_segment_coords.start old_segment_coords.stop)
      (set_origin s2 (-new_segment_coords.stop.1)
         (-new_segment_coords.stop.2), none)

/-- `pt_headers(max_pts)` from src/hat_family.py. -/
def pt_headers (max_pts : ℕ) (sep : String) : String :=
  String.intercalate sep
    (((List.range max_pts).map
      (fun i => ["px_" ++ toString i, "py_" ++ toString i])).flatten)

/-- Python `max` over a list of naturals, as `pyMin`. -/
def pyMaxNat (l : List ℕ) : ℕ := l.foldr max (l.getLastD 0)

/-- One output row of `AllTiles.write_points_to_file` for the tile at
sequence position `idx`.  `fmt` stands for the `:.6f` float formatting of
the source, which the embedding does not model further.  The padding
literal `'{sep}{sep}'` is written by the source without an f-string
prefix, so it is emitted verbatim. -/
def tileRow (fmt : ℝ → String) (sep : String) (max_pts idx : ℕ)
    (t : HatFamilyTile) (img_width img_height : ℝ) : String :=
  toString idx ++ sep ++
  t.start_fill_color ++ sep ++
  t.start_stroke_color ++ sep ++
  t.done_fill_color ++ sep ++
  t.done_stroke_color ++ sep ++
  t.footnote ++ sep ++
  fmt img_width ++ sep ++
  fmt img_height ++
  String.join (t.user_points.map (fun pt => sep ++ fmt pt.1 ++ sep ++ fmt pt.2))
  ++ String.join
      (List.replicate (max_pts - t.user_points.length) "{sep}{sep}")
  ++ "\n"

/-- The header line of the output table. -/
def headerRow (max_pts : ℕ) : String :=
  "seq_id\tstart_fill_color\tstart_stroke_color\t" ++
  "done_fill_color\tdone_stroke_color\tfootnote\t" ++
  "img_width\timg_height\t" ++ pt_headers max_pts "\t"

/-- `AllTiles.write_points_to_file`: compute the bounding box, translate
every tile so its top-left corner is the origin (a persistent mutation of
the store), then serialize all rows.  Returns the mutated store and the
file contents. -/
noncomputable def write_points_to_file (s : AllTiles) (fmt : ℝ → String) :
    AllTiles × String :=
  match get_boundaries s with
  | (left, bottom, right, top) =>
    let s2 := set_origin s left top
    let img_width := right - left
    let img_height := bottom - top
    let max_pts := pyMaxNat (s2.tiles.map (fun kv => kv.2.user_points.length))
    (s2,
     headerRow max_pts ++ "\n" ++
     String.join (s2.tiles.enum.map
       (fun p => tileRow fmt "\t" max_pts p.1 p.2.2 img_width img_height)))

/-- Modelled from the spec: the per-tile shape-parameter override of
`HatFamilyTile.__init__`.  The version of src/hat_family.py in this
snapshot takes no `tile_param1`/`tile_param2` arguments, but its caller
`AllTile11Tiles.add_all_tiles` (src/turtles_and_hats.py, lines 99-104)
passes them for every tile, and §4.4 of the spec states that per-tile
shape parameters may override the store's globals at insertion time, the
store's global parameters applying absent an override.  The resolved
edge lengths follow the `dists` formula of `AllTiles.__init__`. -/
noncomputable def tileDists (all_tiles : AllTiles)
    (tile_param1 tile_param2 : Option ℝ) : DistClass → ℝ :=
  match tile_param1, tile_param2 with
  | some p1, some p2 =>
    (fun dc => match dc with
      | .FS => all_tiles.scaling * 2 * p1
      | .HS => all_tiles.scaling * p1
      | .HH => all_tiles.scaling * p2)
  | _, _ => all_tiles.dists

/-- Modelled from the spec: `set_user_points` with the per-tile parameter
override of §4.4 (see `tileDists`); identical to `set_user_points` except
that the overridden lengths are used for tracing. -/
noncomputable def set_user_points_override (all_tiles : AllTiles)
    (chirality : Chirality) (start_edge : String)
    (match_edge match_id : Option String)
    (tile_param1 tile_param2 : Option ℝ) : Except String (List Pt) :=
  match resolveStart all_tiles chirality match_edge match_id with
  | .error e => .error e
  | .ok (p0, a0) =>
    match listIndex (EDGES chirality) start_edge with
    | .error e => .error e
    | .ok start_pos =>
      .ok (traceFrom (tileDists all_tiles tile_param1 tile_param2) chirality
            start_pos p0 a0)

/-- A real number that is an integer multiple of `10^-6`; every
coordinate stored by `set_user_points` has this form. -/
def Grid (x : ℝ) : Prop := ∃ m : ℤ, x = m / 1000000

/-- A direction angle from `P` toward `Q`: its cosine and sine are the
components of the unit vector from `P` to `Q`. -/
noncomputable def IsDirection (θ : ℝ) (P Q : Pt) : Prop :=
  Real.cos θ = (Q.1 - P.1) / dist P Q ∧ Real.sin θ = (Q.2 - P.2) / dist P Q

/-- `(match_pos - 1) % 13` with Python's nonnegative remainder. -/
def prevIdx (m : ℕ) : ℕ := (((m : ℤ) - 1) % 13).toNat

/-- A simple tile record used as concrete input data. -/
def mkTile (id : String) (ch : Chirality) (pts : List Pt) : HatFamilyTile :=
  ⟨ch, id, "w", "LP", none, none, "", pts, "#66ccff", blackHex,
   transparentHex, transparentHex⟩

/-- A store with unit parameters holding the given tiles. -/
def baseStore (ts : List (String × HatFamilyTile)) : AllTiles :=
  { tiles := ts, tile_param1 := 1, tile_param2 := 1,
    chiralities := fun _ => Chirality.L, colors := fun _ => "#66ccff",
    first_tile_angle := 0, scaling := 1 }

/-- Concrete store for the duplicate-id scenario. -/
def storeDup : AllTiles := baseStore [("t1", mkTile "t1" .L [(0, 0)])]

/-- Concrete store holding a fully degenerate tile (all 13 vertices
coincide), as at the parameter extremes. -/
def storeDeg : AllTiles :=
  baseStore [("d", mkTile "d" .L (List.replicate 13 ((1 : ℝ), (1 : ℝ))))]

/-- A matched tile whose edge `LP` runs from vertex 12 at `(0, 1)` to
vertex 0 at `(0, 0)`. -/
def c2Tile : HatFamilyTile :=
  mkTile "A" .L (((0 : ℝ), (0 : ℝ)) :: (List.replicate 11 ((1 : ℝ), (1 : ℝ))
    ++ [((0 : ℝ), (1 : ℝ))]))

/-- Concrete store for the placement-rule scenario. -/
def storeC2W : AllTiles := baseStore [("A", c2Tile)]

/-- Concrete store whose two tiles have two and one vertices, so the
serializer must pad the second tile's row by one point. -/
def padStore : AllTiles :=
  baseStore [("p1", mkTile "p1" .L [(0, 0), (1, 0)]),
             ("p2", mkTile "p2" .L [(0, 1)])]

/-- A formatter standing in for the `:.6f` float conversion. -/
def fmtX : ℝ → String := fun _ => "F"

/-- The golden-fixture store of §8: `p1 = 1`, `p2 = √3`, scaling 1,
first-tile angle 0. -/
noncomputable def storeC3 : AllTiles :=
  { tiles := [], tile_param1 := 1, tile_param2 := Real.sqrt 3,
    chiralities := fun _ => Chirality.L, colors := fun _ => "#ffffff",
    first_tile_angle := 0, scaling := 1 }

/-- The vertex list traced for the golden fixture's first tile. -/
noncomputable def ptsC3 : List Pt :=
  traceFrom storeC3.dists .L 0
    (FIRST_TILE_W * storeC3.scaling, FIRST_TILE_H * storeC3.scaling)
    storeC3.first_tile_angle

/-- The rounding error committed when a tracing step adds `v` to a
coordinate that is already on the `10^-6` grid. -/
noncomputable def errOf (v : ℝ) : ℝ := round6 v - v

/-- The total turn of a move list. -/
noncomputable def turnSum : List Move → ℝ
  | [] => 0
  | m :: ms => turnDelta m + turnSum ms

/-- Sum of the exact (unrounded) x-displacements of a move list traced
from facing angle `θ`. -/
noncomputable def dispX (d : DistClass → ℝ) : ℝ → List Move → ℝ
  | _, [] => 0
  | θ, m :: ms => d m.d * Real.cos θ + dispX d (θ + turnDelta m) ms

/-- Sum of the exact y-displacements, as `dispX`. -/
noncomputable def dispY (d : DistClass → ℝ) : ℝ → List Move → ℝ
  | _, [] => 0
  | θ, m :: ms => d m.d * Real.sin θ + dispY d (θ + turnDelta m) ms

/-- Accumulated x-rounding error of a trace started on the grid. -/
noncomputable def errSumX (d : DistClass → ℝ) : ℝ → List Move → ℝ
  | _, [] => 0
  | θ, m :: ms => errOf (d m.d * Real.cos θ) + errSumX d (θ + turnDelta m) ms

/-- Accumulated y-rounding error, as `errSumX`. -/
noncomputable def errSumY (d : DistClass → ℝ) : ℝ → List Move → ℝ
  | _, [] => 0
  | θ, m :: ms => errOf (d m.d * Real.sin θ) + errSumY d (θ + turnDelta m) ms

/-- No x-increment of the trace sits exactly on a rounding tie (an odd
multiple of `5·10^-7`), the generic situation; Python's float rounding
and this embedding agree away from ties. -/
noncomputable def NoTieX (d : DistClass → ℝ) : ℝ → List Move → Prop
  | _, [] => True
  | θ, m :: ms => Int.fract (d m.d * Real.cos θ * 1000000) ≠ 1 / 2 ∧
      NoTieX d (θ + turnDelta m) ms

/-- No y-increment sits on a rounding tie, as `NoTieX`. -/
noncomputable def NoTieY (d : DistClass → ℝ) : ℝ → List Move → Prop
  | _, [] => True
  | θ, m :: ms => Int.fract (d m.d * Real.sin θ * 1000000) ≠ 1 / 2 ∧
      NoTieY d (θ + turnDelta m) ms

/-- The tracing state after executing a list of moves. -/
noncomputable def stAfter (d : DistClass → ℝ) (st : Pt × ℝ)
    (ms : List Move) : Pt × ℝ :=
  ms.foldl (traceStep d) st

/-- The length class of the move drawing canonical edge `k`. -/
def edgeClass (ch : Chirality) (k : ℕ) : DistClass :=
  ((MOVES ch).getD k ⟨.L, 60, .HS⟩).d

/-- A vertex array as produced by a (generic-position) run of
`set_user_points` with the given resolved lengths and chirality: some
grid anchor, some start angle and some starting-edge index produced it,
with no tracing increment on a rounding tie. -/
noncomputable def Placed (d : DistClass → ℝ) (ch : Chirality)
    (pts : List Pt) : Prop :=
  ∃ p0 a0 s, s < 13 ∧ Grid p0.1 ∧ Grid p0.2 ∧
    NoTieX d a0 (rotatedMoves ch s) ∧ NoTieY d a0 (rotatedMoves ch s) ∧
    pts = traceFrom d ch s p0 a0

/-- Stored vertex list of the counterexample tile `A`: the first tile of
`storeC1`, chirality `L`, starting edge `LS`, traced from `(0, 0)` at
angle `arctan(3/4)` with `p1 = 2.0038273`, `p2 = 1.4049691`. -/
noncomputable def ptsC1A : List Pt :=
  [(1202297 / 1000000, -1603061 / 1000000),
   (1 / 1000000, 1 / 1000000),
   (1123975 / 1000000, 842981 / 1000000),
   (2416006 / 1000000, 291081 / 1000000),
   (3203150 / 1000000, 2133831 / 1000000),
   (7182031 / 1000000, 2613208 / 1000000),
   (8384327 / 1000000, 1010146 / 1000000),
   (7260352 / 1000000, 167165 / 1000000),
   (7428408 / 1000000, -1227717 / 1000000),
   (5438968 / 1000000, -1467405 / 1000000),
   (4651824 / 1000000, -3310155 / 1000000),
   (3359793 / 1000000, -2758255 / 1000000),
   (3191737 / 1000000, -1363373 / 1000000)]

/-- The counterexample tile `A` as stored. -/
noncomputable def tileC1A : HatFamilyTile := mkTile "A" .L ptsC1A

/-- The counterexample store: `p1 = 2.0038273`, `p2 = 1.4049691`,
first-tile angle `arctan(3/4)`, holding the placed tile `A`. -/
noncomputable def storeC1 : AllTiles :=
  { tiles := [("A", tileC1A)],
    tile_param1 := 20038273 / 10000000,
    tile_param2 := 14049691 / 10000000,
    chiralities := fun _ => Chirality.L,
    colors := fun _ => "#66ccff",
    first_tile_angle := Real.arctan (3 / 4),
    scaling := 1 }


/-- The first-tile start angle of the counterexample store, `arctan(3/4)`
(so its cosine is `4/5` and its sine `3/5`). -/
noncomputable def aC1 : ℝ := Real.arctan (3 / 4)

/-- Stored vertex list of the witness tile for the amended edge-congruence
bound: first tile of `storeC1W`, chirality `L`, `p1 = p2 = 1`, traced from
`(0, 0)` at angle 0 with starting edge `LP`. -/
noncomputable def ptsC1W : List Pt :=
  [(1000000 / 1000000, 0 / 1000000),
   (1500000 / 1000000, -866025 / 1000000),
   (633975 / 1000000, -1366025 / 1000000),
   (-232050 / 1000000, -866025 / 1000000),
   (-732050 / 1000000, -1732050 / 1000000),
   (-2732050 / 1000000, -1732050 / 1000000),
   (-3232050 / 1000000, -866025 / 1000000),
   (-2366025 / 1000000, -366025 / 1000000),
   (-2366025 / 1000000, 633975 / 1000000),
   (-1366025 / 1000000, 633975 / 1000000),
   (-866025 / 1000000, 1500000 / 1000000),
   (0 / 1000000, 1000000 / 1000000),
   (0 / 1000000, 0 / 1000000)]

/-- The witness tile as stored. -/
noncomputable def tileC1W : HatFamilyTile := mkTile "A" .L ptsC1W

/-- The witness store: unit shape parameters, first-tile angle 0. -/
noncomputable def storeC1W : AllTiles :=
  { tiles := [("A", tileC1W)],
    tile_param1 := 1,
    tile_param2 := 1,
    chiralities := fun _ => Chirality.L,
    colors := fun _ => "#66ccff",
    first_tile_angle := 0,
    scaling := 1 }

/-- The vertex list of the counterexample's second tile `B`: inserted into
`storeC1` with a match reference to tile `A`'s edge `LS` and the same
chirality, so traced from the matched edge's end vertex facing its start
vertex. -/
noncomputable def ptsC1B : List Pt :=
  traceFrom storeC1.dists Chirality.L 2
    ((1123975 / 1000000 : ℝ), (842981 / 1000000 : ℝ))
    (Real.arctan (421490 / 561987) + π)

end ProgressTiles

namespace ProgressTiles

open Real

theorem list_map_eq_self {α : Type} (l : List α) (g : α → α)
    (hg : ∀ a, g a = a) : l.map g = l := by
  have h1 : l.map g = l.map id := List.map_congr_left (fun a _ => hg a)
  rw [h1, List.map_id]

theorem round6_eq_div (x : ℝ) (m : ℤ) (h1 : (m : ℝ) - 1 / 2 ≤ x * 1000000)
    (h2 : x * 1000000 < (m : ℝ) + 1 / 2) : round6 x = (m : ℝ) / 1000000 := by
  unfold round6
  have hr : round (x * 1000000) = m := by
    rw [round_eq, Int.floor_eq_iff]
    constructor
    · linarith
    · linarith
  rw [hr]

theorem get_angle_ok_sumsq {P Q : Pt} {θ : ℝ} (h : get_angle P Q = .ok θ) :
    1 / 100000000 ≤ (Q.2 - P.2) * (Q.2 - P.2) + (Q.1 - P.1) * (Q.1 - P.1) := by
  by_contra hc
  push_neg at hc
  unfold get_angle at h
  dsimp only at h
  rw [if_pos hc] at h
  exact absurd h (by simp)

theorem dist_pos_of_get_angle_ok {P Q : Pt} {θ : ℝ}
    (h : get_angle P Q = .ok θ) : 0 < dist P Q := by
  have hs := get_angle_ok_sumsq h
  unfold dist
  apply Real.sqrt_pos.mpr
  nlinarith [sq_nonneg (Q.2 - P.2), sq_nonneg (Q.1 - P.1)]

theorem get_angle_eq_pt_error (P : Pt) :
    get_angle P P = .error "Cannot get angle since side length 0!" := by
  unfold get_angle
  dsimp only
  rw [if_pos]
  norm_num

theorem listIndex_ok_lt {α : Type} [BEq α] [LawfulBEq α] {l : List α} {a : α}
    {n : ℕ} (h : listIndex l a = .ok n) : n < l.length := by
  unfold listIndex at h
  split_ifs at h with hc
  · have hn : n = l.indexOf a := by
      cases h
      rfl
    subst hn
    exact List.findIdx_lt_length_of_exists
      ⟨a, List.mem_of_elem_eq_true hc, by simp⟩

theorem EDGES_length (ch : Chirality) : (EDGES ch).length = 13 := by
  cases ch <;> rfl

theorem MOVES_length (ch : Chirality) : (MOVES ch).length = 13 := by
  cases ch <;> rfl

theorem tracePts_length (d : DistClass → ℝ) (st : Pt × ℝ) (ms : List Move) :
    (tracePts d st ms).length = ms.length := by
  induction ms generalizing st with
  | nil => rfl
  | cons m ms ih => simp [tracePts, ih]

theorem rotatedMoves_length (ch : Chirality) (s : ℕ) (hs : s ≤ 13) :
    (rotatedMoves ch s).length = 13 := by
  unfold rotatedMoves
  rw [List.length_append, List.length_drop, List.length_take, MOVES_length]
  omega

theorem rearrange_getD {α : Type} (l : List α) (d : α) (s j : ℕ)
    (hl : l.length = 13) (hs : s < 13) (hj : j < 13) :
    (rearrange l s).getD j d = l.getD (((j : ℤ) - s) % 13).toNat d := by
  unfold rearrange pySliceFrom pySliceTo
  by_cases hs0 : s = 0
  · subst hs0
    rw [if_pos rfl, if_pos rfl, List.append_nil]
    have hidx : (((j : ℤ) - ((0 : ℕ) : ℤ)) % 13).toNat = j := by
      push_cast
      omega
    rw [hidx]
  · rw [if_neg hs0, if_neg hs0, hl]
    rw [List.getD_eq_getElem?_getD, List.getD_eq_getElem?_getD,
      List.getElem?_append, List.length_drop, hl]
    by_cases hjs : j < s
    · rw [if_pos (by omega), List.getElem?_drop]
      have hidx : (((j : ℤ) - s) % 13).toNat = 13 - s + j := by omega
      rw [hidx]
    · rw [if_neg (by omega), List.getElem?_take_of_lt (by omega)]
      have hidx : (((j : ℤ) - s) % 13).toNat = j - (13 - (13 - s)) := by omega
      rw [hidx]

/-- C5: a matched insertion whose matched edge is degenerate — the two
points bounding the matched edge in the matched tile's vertex array
coincide — fails with the explicit zero-side-length error from
`get_angle` instead of producing any angle. -/
theorem degenerate_matched_edge_error (a : AllTiles) (ch : Chirality)
    (se me mid : String) (A : HatFamilyTile) (m : ℕ)
    (hlk : a.tiles.lookup mid = some A)
    (hm : listIndex (EDGES A.chirality) me = .ok m)
    (hdeg : A.user_points.getD m (0, 0) =
      A.user_points.getD (prevIdx m) (0, 0)) :
    set_user_points a ch se (some me) (some mid) =
      .error "Cannot get angle since side length 0!" := by
  unfold set_user_points resolveStart
  simp only [Option.getD_some, hlk, hm]
  rw [show A.user_points.getD (((m : ℤ) - 1) % 13).toNat (0, 0) =
        A.user_points.getD (prevIdx m) (0, 0) from rfl]
  rw [← hdeg]
  by_cases hch : ch = A.chirality
  · rw [if_pos hch, get_angle_eq_pt_error]
  · rw [if_neg hch, get_angle_eq_pt_error]

/-- Witness for C5: the all-degenerate tile `d` of `storeDeg`, matched on
its edge `LP`. -/
theorem degenerate_matched_edge_error_witness :
    storeDeg.tiles.lookup "d" =
      some (mkTile "d" .L (List.replicate 13 ((1 : ℝ), (1 : ℝ)))) ∧
    listIndex (EDGES Chirality.L) "LP" = .ok 0 ∧
    set_user_points storeDeg .L "LP" (some "LP") (some "d") =
      .error "Cannot get angle since side length 0!" :=
  ⟨rfl, rfl,
   degenerate_matched_edge_error storeDeg .L "LP" "LP" "d" _ 0 rfl rfl rfl⟩

/-- C4: the vertex list returned by `set_user_points` is the traced point
list put back into canonical edge order: for a starting edge of canonical
index `s`, the entry at canonical index `j` is the point recorded at
trace step `(j - s) mod 13`, whichever edge the drawing started from. -/
theorem set_user_points_canonical_indexing (a : AllTiles) (ch : Chirality)
    (se : String) (me mid : Option String) (s j : ℕ) (pts : List Pt)
    (hs : listIndex (EDGES ch) se = .ok s)
    (hok : set_user_points a ch se me mid = .ok pts) (hj : j < 13) :
    ∃ p0 a0, resolveStart a ch me mid = .ok (p0, a0) ∧
      pts.getD j (0, 0) =
        (tracePts a.dists (p0, a0) (rotatedMoves ch s)).getD
          (((j : ℤ) - s) % 13).toNat (0, 0) := by
  have hslt : s < 13 := by
    have := listIndex_ok_lt hs
    rwa [EDGES_length] at this
  unfold set_user_points at hok
  cases hra : resolveStart a ch me mid with
  | error e =>
    rw [hra] at hok
    exact absurd hok (by simp)
  | ok pa =>
    obtain ⟨p0, a0⟩ := pa
    rw [hra, hs] at hok
    dsimp only at hok
    refine ⟨p0, a0, rfl, ?_⟩
    have hpts : pts = traceFrom a.dists ch s p0 a0 := by
      cases hok
      rfl
    rw [hpts]
    unfold traceFrom
    exact rearrange_getD _ (0, 0) s j
      (by rw [tracePts_length, rotatedMoves_length ch s (le_of_lt hslt)])
      hslt hj

/-- Witness for C4: the first tile of an empty store drawn starting at
edge `LS` (canonical index 2), checked at canonical index 0. -/
theorem set_user_points_canonical_indexing_witness :
    listIndex (EDGES Chirality.L) "LS" = .ok 2 ∧
    (∃ p0 a0, resolveStart (baseStore []) .L none none = .ok (p0, a0) ∧
      (traceFrom (baseStore []).dists .L 2
          (FIRST_TILE_W * (baseStore []).scaling,
           FIRST_TILE_H * (baseStore []).scaling)
          (baseStore []).first_tile_angle).getD 0 (0, 0) =
        (tracePts (baseStore []).dists (p0, a0) (rotatedMoves .L 2)).getD
          (((0 : ℤ) - 2) % 13).toNat (0, 0)) :=
  ⟨rfl, set_user_points_canonical_indexing (baseStore []) .L "LS" none none
    2 0 _ rfl rfl (by norm_num)⟩

/-- C6: inserting a tile whose id is already a key of the store fails with
the duplicate-id error and leaves the store's tile mapping exactly as it
was: no entry is replaced and none is added. -/
theorem add_hat_duplicate_id (s : AllTiles) (hat : HatFamilyTile)
    (h : (s.tiles.lookup hat.tile_id).isSome) :
    (add_hat s hat).2 =
      some ("id already exists hat.tile_id=" ++ hat.tile_id) ∧
    (add_hat s hat).1.tiles = s.tiles := by
  unfold add_hat
  rw [if_pos h]
  exact ⟨rfl, rfl⟩

/-- Witness for C6 at a concrete store already holding id `t1`. -/
theorem add_hat_duplicate_id_witness :
    (storeDup.tiles.lookup "t1").isSome = true ∧
    ((add_hat storeDup (mkTile "t1" .L [(2, 2)])).2 =
       some ("id already exists hat.tile_id=" ++ "t1") ∧
     (add_hat storeDup (mkTile "t1" .L [(2, 2)])).1.tiles = storeDup.tiles) :=
  ⟨rfl, add_hat_duplicate_id storeDup (mkTile "t1" .L [(2, 2)]) rfl⟩

/-- C7: re-aligning a store on two identical segments is a no-op: the
store (in particular every vertex of every tile) is returned unchanged,
whether the `get_angle` calls succeed (zero rotation, unit scale) or
raise (mutation never starts). -/
theorem change_coordinates_same_segment (s : AllTiles) (seg : Segment) :
    (change_coordinates s seg seg).1 = s := by
  unfold change_coordinates
  cases h : get_angle seg.start seg.stop with
  | error e => rfl
  | ok a =>
    have hd : dist seg.start seg.stop ≠ 0 :=
      ne_of_gt (dist_pos_of_get_angle_ok h)
    have hdiv : dist seg.start seg.stop / dist seg.start seg.stop = 1 :=
      div_self hd
    obtain ⟨ts, q1, q2, qch, qco, qfa, qsc, qlx, qrx, qty, qby, qfn⟩ := s
    unfold set_origin rotate_and_rescale
    simp only [sub_self, hdiv, Real.cos_zero, Real.sin_zero, AllTiles.mk.injEq,
      and_true, true_and]
    rw [List.map_map, List.map_map]
    apply list_map_eq_self
    intro kv
    simp only [Function.comp_apply, List.map_map]
    have hpts : kv.2.user_points.map
        ((fun pt : Pt => (pt.1 - -seg.stop.1, pt.2 - -seg.stop.2)) ∘
          (fun pt : Pt =>
            (1 * (1 * pt.1 - 0 * pt.2), 1 * (0 * pt.1 + 1 * pt.2))) ∘
          (fun pt : Pt => (pt.1 - seg.stop.1, pt.2 - seg.stop.2))) =
        kv.2.user_points := by
      apply list_map_eq_self
      intro pt
      simp only [Function.comp_apply]
      rw [Prod.ext_iff]
      exact ⟨by ring, by ring⟩
    rw [hpts]

theorem grid_diff_zero {x1 x2 : ℝ} (h1 : Grid x1) (h2 : Grid x2)
    (h : |x2 - x1| < 1 / 1000000) : x2 - x1 = 0 := by
  obtain ⟨m1, hm1⟩ := h1
  obtain ⟨m2, hm2⟩ := h2
  subst hm1 hm2
  have hcast : (m2 : ℝ) / 1000000 - (m1 : ℝ) / 1000000 =
      ((m2 - m1 : ℤ) : ℝ) / 1000000 := by
    push_cast
    ring
  rw [hcast] at h ⊢
  rw [abs_div, show |(1000000 : ℝ)| = 1000000 by norm_num] at h
  have habs : |((m2 - m1 : ℤ) : ℝ)| < 1 := by linarith
  have hint : |m2 - m1| < 1 := by exact_mod_cast habs
  rw [abs_lt] at hint
  have hz : m2 - m1 = 0 := by omega
  rw [hz]
  norm_num

theorem dist_sq {P Q : Pt} : dist P Q ^ 2 = (Q.2 - P.2) ^ 2 + (Q.1 - P.1) ^ 2 := by
  unfold dist
  rw [Real.sq_sqrt (by positivity)]

theorem get_angle_direction {P Q : Pt} {θ : ℝ} (hgP : Grid P.1)
    (hgQ : Grid Q.1) (h : get_angle P Q = .ok θ) :
    Real.cos θ = (Q.1 - P.1) / dist P Q ∧
    Real.sin θ = (Q.2 - P.2) / dist P Q := by
  have hss := get_angle_ok_sumsq h
  have hDpos : 0 < dist P Q := dist_pos_of_get_angle_ok h
  have hD2 : dist P Q ^ 2 = (Q.2 - P.2) ^ 2 + (Q.1 - P.1) ^ 2 := dist_sq
  unfold get_angle at h
  dsimp only at h
  rw [if_neg (not_lt.mpr hss)] at h
  by_cases hx : |Q.1 - P.1| < 1 / 1000000
  · have hx0 : Q.1 - P.1 = 0 := grid_diff_zero hgP hgQ hx
    rw [if_pos hx] at h
    have hy2 : (Q.2 - P.2) ^ 2 = dist P Q ^ 2 := by rw [hD2, hx0]; ring
    by_cases hy : Q.2 - P.2 > 0
    · rw [if_pos hy] at h
      cases h
      have hyD : Q.2 - P.2 = dist P Q := by
        nlinarith
      rw [Real.cos_pi_div_two, Real.sin_pi_div_two, hx0, hyD]
      constructor
      · rw [zero_div]
      · rw [div_self (ne_of_gt hDpos)]
    · rw [if_neg hy] at h
      cases h
      have hyD : Q.2 - P.2 = -dist P Q := by
        push_neg at hy
        nlinarith
      rw [Real.cos_neg, Real.sin_neg, Real.cos_pi_div_two,
        Real.sin_pi_div_two, hx0, hyD]
      constructor
      · rw [zero_div]
      · rw [neg_div, div_self (ne_of_gt hDpos)]
  · rw [if_neg hx] at h
    have hxne : Q.1 - P.1 ≠ 0 := by
      intro h0
      rw [h0] at hx
      simp at hx
    have hDne : dist P Q ≠ 0 := ne_of_gt hDpos
    by_cases hxp : Q.1 - P.1 > 0
    · rw [if_pos hxp] at h
      cases h
      have hsq : 1 + ((Q.2 - P.2) / (Q.1 - P.1)) ^ 2 =
          (dist P Q / (Q.1 - P.1)) ^ 2 := by
        rw [div_pow, div_pow, hD2]
        field_simp
        ring
      have hsqrt : Real.sqrt (1 + ((Q.2 - P.2) / (Q.1 - P.1)) ^ 2) =
          dist P Q / (Q.1 - P.1) := by
        rw [hsq]
        exact Real.sqrt_sq (le_of_lt (div_pos hDpos hxp))
      rw [Real.cos_arctan, Real.sin_arctan, hsqrt]
      constructor
      · rw [one_div_div]
      · rw [div_div_div_cancel_right₀]
        exact hxne
    · rw [if_neg hxp] at h
      cases h
      have hxn : Q.1 - P.1 < 0 := lt_of_le_of_ne (not_lt.mp hxp) hxne
      have hsq : 1 + ((Q.2 - P.2) / (Q.1 - P.1)) ^ 2 =
          (dist P Q / -(Q.1 - P.1)) ^ 2 := by
        rw [div_pow, div_pow, hD2, neg_sq]
        field_simp
        ring
      have hsqrt : Real.sqrt (1 + ((Q.2 - P.2) / (Q.1 - P.1)) ^ 2) =
          dist P Q / -(Q.1 - P.1) := by
        rw [hsq]
        exact Real.sqrt_sq (le_of_lt (div_pos hDpos (by linarith)))
      rw [Real.cos_add_pi, Real.sin_add_pi, Real.cos_arctan, Real.sin_arctan,
        hsqrt]
      constructor
      · rw [one_div_div, neg_div, neg_neg]
      · have hstep : (Q.2 - P.2) / (Q.1 - P.1) /
            (dist P Q / -(Q.1 - P.1)) = -((Q.2 - P.2) / dist P Q) := by
          field_simp
          ring
        rw [hstep, neg_neg]

/-- C2: a matched insertion anchors at the matched edge's end vertex (the
vertex at the matched edge's canonical index) facing toward the previous
vertex (index − 1 computed cyclically mod 13) when the chiralities agree,
and anchors at the previous (start) vertex facing toward the end vertex
when they differ; the traced boundary starts at exactly this anchor and
facing direction. -/
theorem matched_placement_rule (a : AllTiles) (ch : Chirality)
    (se me mid : String) (A : HatFamilyTile) (m s : ℕ) (pts : List Pt)
    (hlk : a.tiles.lookup mid = some A)
    (hm : listIndex (EDGES A.chirality) me = .ok m)
    (hse : listIndex (EDGES ch) se = .ok s)
    (hgE : Grid ((A.user_points.getD m (0, 0)).1))
    (hgS : Grid ((A.user_points.getD (prevIdx m) (0, 0)).1))
    (hok : set_user_points a ch se (some me) (some mid) = .ok pts) :
    ∃ θ,
      (ch = A.chirality →
        pts = traceFrom a.dists ch s (A.user_points.getD m (0, 0)) θ ∧
        IsDirection θ (A.user_points.getD m (0, 0))
          (A.user_points.getD (prevIdx m) (0, 0))) ∧
      (ch ≠ A.chirality →
        pts = traceFrom a.dists ch s (A.user_points.getD (prevIdx m) (0, 0))
          θ ∧
        IsDirection θ (A.user_points.getD (prevIdx m) (0, 0))
          (A.user_points.getD m (0, 0))) := by
  by_cases hch : ch = A.chirality
  · cases hga : get_angle (A.user_points.getD m (0, 0))
        (A.user_points.getD (prevIdx m) (0, 0)) with
    | error e =>
      have hres : resolveStart a ch (some me) (some mid) = .error e := by
        unfold resolveStart
        simp only [Option.getD_some, hlk, hm, if_pos hch]
        exact hga ▸ rfl
      unfold set_user_points at hok
      rw [hres] at hok
      exact absurd hok (by simp)
    | ok θ =>
      have hres : resolveStart a ch (some me) (some mid) =
          .ok (A.user_points.getD m (0, 0), θ) := by
        unfold resolveStart
        simp only [Option.getD_some, hlk, hm, if_pos hch]
        exact hga ▸ rfl
      unfold set_user_points at hok
      rw [hres, hse] at hok
      dsimp only at hok
      refine ⟨θ, fun _ => ⟨?_, ?_⟩, fun hne => absurd hch hne⟩
      · cases hok
        rfl
      · exact ⟨(get_angle_direction hgE hgS hga).1,
          (get_angle_direction hgE hgS hga).2⟩
  · cases hga : get_angle (A.user_points.getD (prevIdx m) (0, 0))
        (A.user_points.getD m (0, 0)) with
    | error e =>
      have hres : resolveStart a ch (some me) (some mid) = .error e := by
        unfold resolveStart
        simp only [Option.getD_some, hlk, hm, if_neg hch]
        exact hga ▸ rfl
      unfold set_user_points at hok
      rw [hres] at hok
      exact absurd hok (by simp)
    | ok θ =>
      have hres : resolveStart a ch (some me) (some mid) =
          .ok (A.user_points.getD (prevIdx m) (0, 0), θ) := by
        unfold resolveStart
        simp only [Option.getD_some, hlk, hm, if_neg hch]
        exact hga ▸ rfl
      unfold set_user_points at hok
      rw [hres, hse] at hok
      dsimp only at hok
      refine ⟨θ, fun heq => absurd heq hch, fun _ => ⟨?_, ?_⟩⟩
      · cases hok
        rfl
      · exact ⟨(get_angle_direction hgS hgE hga).1,
          (get_angle_direction hgS hgE hga).2⟩

/-- Witness for C2: tile `A` of `storeC2W`, matched on its edge `LP` by a
same-chirality tile, anchors at `(0, 0)` facing straight toward `(0, 1)`. -/
theorem matched_placement_rule_witness :
    storeC2W.tiles.lookup "A" = some c2Tile ∧
    listIndex (EDGES c2Tile.chirality) "LP" = .ok 0 ∧
    listIndex (EDGES Chirality.L) "LP" = .ok 0 ∧
    Grid ((c2Tile.user_points.getD 0 (0, 0)).1) ∧
    Grid ((c2Tile.user_points.getD (prevIdx 0) (0, 0)).1) ∧
    set_user_points storeC2W .L "LP" (some "LP") (some "A") =
      .ok (traceFrom storeC2W.dists .L 0 ((0 : ℝ), (0 : ℝ)) (π / 2)) ∧
    (∃ θ,
      (Chirality.L = c2Tile.chirality →
        traceFrom storeC2W.dists .L 0 ((0 : ℝ), (0 : ℝ)) (π / 2) =
          traceFrom storeC2W.dists .L 0 (c2Tile.user_points.getD 0 (0, 0))
            θ ∧
        IsDirection θ (c2Tile.user_points.getD 0 (0, 0))
          (c2Tile.user_points.getD (prevIdx 0) (0, 0))) ∧
      (Chirality.L ≠ c2Tile.chirality →
        traceFrom storeC2W.dists .L 0 ((0 : ℝ), (0 : ℝ)) (π / 2) =
          traceFrom storeC2W.dists .L 0
            (c2Tile.user_points.getD (prevIdx 0) (0, 0)) θ ∧
        IsDirection θ (c2Tile.user_points.getD (prevIdx 0) (0, 0))
          (c2Tile.user_points.getD 0 (0, 0)))) := by
  have htile : storeC2W.tiles.lookup "A" = some c2Tile := rfl
  have hm : listIndex (EDGES c2Tile.chirality) "LP" = .ok 0 := rfl
  have hE : c2Tile.user_points.getD 0 (0, 0) = ((0 : ℝ), (0 : ℝ)) := rfl
  have hS : c2Tile.user_points.getD (prevIdx 0) (0, 0) =
      ((0 : ℝ), (1 : ℝ)) := rfl
  have hga : get_angle ((0 : ℝ), (0 : ℝ)) ((0 : ℝ), (1 : ℝ)) =
      .ok (π / 2) := by
    unfold get_angle
    dsimp only
    rw [if_neg (by norm_num), if_pos (by norm_num), if_pos (by norm_num)]
  have hres : resolveStart storeC2W .L (some "LP") (some "A") =
      .ok (((0 : ℝ), (0 : ℝ)), π / 2) := by
    unfold resolveStart
    simp only [Option.getD_some, htile, hm]
    rw [if_pos (show Chirality.L = c2Tile.chirality from rfl)]
    rw [show get_angle (c2Tile.user_points.getD 0 (0, 0))
        (c2Tile.user_points.getD ((((0 : ℕ) : ℤ) - 1) % 13).toNat (0, 0)) =
        Except.ok (π / 2) from hga]
    rfl
  have hok : set_user_points storeC2W .L "LP" (some "LP") (some "A") =
      .ok (traceFrom storeC2W.dists .L 0 ((0 : ℝ), (0 : ℝ)) (π / 2)) := by
    unfold set_user_points
    rw [hres]
    rfl
  refine ⟨htile, hm, rfl, ⟨0, by rw [hE]; norm_num⟩,
    ⟨0, by rw [hS]; norm_num⟩, hok, ?_⟩
  have hres2 := matched_placement_rule storeC2W .L "LP" "LP" "A" c2Tile 0 0
    (traceFrom storeC2W.dists .L 0 ((0 : ℝ), (0 : ℝ)) (π / 2)) htile hm rfl
    ⟨0, by rw [hE]; norm_num⟩ ⟨0, by rw [hS]; norm_num⟩ hok
  obtain ⟨θ, h1, h2⟩ := hres2
  exact ⟨θ, fun hc => by
    obtain ⟨ha, hb⟩ := h1 hc
    rw [hE] at ha
    exact ⟨ha, hb⟩,
    fun hc => absurd rfl hc⟩

theorem sqrt3_lb : (1.732050807568877 : ℝ) < Real.sqrt 3 :=
  (Real.lt_sqrt (by norm_num)).mpr (by norm_num)

theorem sqrt3_ub : Real.sqrt 3 < 1.7320508075688773 :=
  (Real.sqrt_lt' (by norm_num)).mpr (by norm_num)

theorem rearrange_zero {α : Type} (l : List α) : rearrange l 0 = l := by
  unfold rearrange pySliceFrom pySliceTo
  rw [if_pos rfl, if_pos rfl, List.append_nil]

theorem rotatedMoves_zero (ch : Chirality) : rotatedMoves ch 0 = MOVES ch := by
  unfold rotatedMoves
  rw [List.drop_zero, List.take_zero, List.append_nil]

theorem tracePts_cons (d : DistClass → ℝ) (st : Pt × ℝ) (m : Move)
    (ms : List Move) : tracePts d st (m :: ms) =
      (traceStep d st m).1 :: tracePts d (traceStep d st m) ms := rfl

theorem traceStep_eval (d : DistClass → ℝ) (px py a : ℝ) (m : Move)
    (qx qy b : ℝ) (hx : round6 (px + d m.d * Real.cos a) = qx)
    (hy : round6 (py + d m.d * Real.sin a) = qy)
    (hb : a + turnDelta m = b) :
    traceStep d ((px, py), a) m = ((qx, qy), b) := by
  unfold traceStep
  dsimp only
  rw [hx, hy, hb]

theorem storeC3_dists_HS : storeC3.dists DistClass.HS = 1 := by
  show storeC3.scaling * storeC3.tile_param1 = 1
  norm_num [storeC3]

theorem ptsC3_first_two :
    ptsC3.getD 0 (0, 0) = ((1 : ℝ), (0 : ℝ)) ∧
    ptsC3.getD 1 (0, 0) = ((1.5 : ℝ), (-0.866025 : ℝ)) := by
  have hx1 : round6 ((0 : ℝ) + storeC3.dists DistClass.HS * Real.cos 0) =
      (1 : ℝ) := by
    rw [storeC3_dists_HS, Real.cos_zero]
    rw [round6_eq_div ((0 : ℝ) + 1 * 1) 1000000 (by norm_num) (by norm_num)]
    norm_num
  have hy1 : round6 ((0 : ℝ) + storeC3.dists DistClass.HS * Real.sin 0) =
      (0 : ℝ) := by
    rw [storeC3_dists_HS, Real.sin_zero]
    rw [round6_eq_div ((0 : ℝ) + 1 * 0) 0 (by norm_num) (by norm_num)]
    norm_num
  have hb1 : (0 : ℝ) + turnDelta ⟨.L, 60, .HS⟩ = -(π / 3) := by
    unfold turnDelta angleConst
    push_cast
    ring
  have hstep1 : traceStep storeC3.dists (((0 : ℝ), (0 : ℝ)), (0 : ℝ))
      ⟨.L, 60, .HS⟩ = ((((1 : ℝ), (0 : ℝ))), -(π / 3)) :=
    traceStep_eval _ 0 0 0 _ 1 0 (-(π / 3)) hx1 hy1 hb1
  have hx2 : round6 ((1 : ℝ) +
      storeC3.dists DistClass.HS * Real.cos (-(π / 3))) = (1.5 : ℝ) := by
    rw [storeC3_dists_HS, Real.cos_neg, Real.cos_pi_div_three]
    rw [round6_eq_div ((1 : ℝ) + 1 * (1 / 2)) 1500000 (by norm_num)
      (by norm_num)]
    norm_num
  have hy2 : round6 ((0 : ℝ) +
      storeC3.dists DistClass.HS * Real.sin (-(π / 3))) =
      (-0.866025 : ℝ) := by
    rw [storeC3_dists_HS, Real.sin_neg, Real.sin_pi_div_three]
    rw [round6_eq_div ((0 : ℝ) + 1 * -(Real.sqrt 3 / 2)) (-866025)
      (by nlinarith [sqrt3_ub]) (by nlinarith [sqrt3_lb])]
    norm_num
  have hstep2 : traceStep storeC3.dists (((1 : ℝ), (0 : ℝ)), -(π / 3))
      ⟨.L, 90, .HS⟩ =
      ((((1.5 : ℝ), (-0.866025 : ℝ))), -(π / 3) + turnDelta ⟨.L, 90, .HS⟩) :=
    traceStep_eval _ 1 0 (-(π / 3)) _ 1.5 (-0.866025) _ hx2 hy2 rfl
  have hanchor : ((FIRST_TILE_W * storeC3.scaling,
      FIRST_TILE_H * storeC3.scaling) : Pt) = ((0 : ℝ), (0 : ℝ)) := by
    rw [Prod.ext_iff]
    constructor <;> norm_num [FIRST_TILE_W, FIRST_TILE_H, storeC3]
  have hpts : ptsC3 = tracePts storeC3.dists (((0 : ℝ), (0 : ℝ)), (0 : ℝ))
      LEFT_HAT_MOVES := by
    unfold ptsC3 traceFrom
    rw [rearrange_zero, rotatedMoves_zero, hanchor]
    rw [show storeC3.first_tile_angle = (0 : ℝ) from rfl]
    rfl
  rw [hpts]
  rw [show LEFT_HAT_MOVES = ⟨.L, 60, .HS⟩ :: ⟨.L, 90, .HS⟩ ::
    LEFT_HAT_MOVES.drop 2 from rfl]
  rw [tracePts_cons, hstep1]
  rw [tracePts_cons, hstep2]
  exact ⟨rfl, rfl⟩

/-- C3 (counterexample): for the golden fixture — first tile, chirality
L, `p1 = 1`, `p2 = √3`, scaling 1, anchor `(0, 0)`, start angle 0,
starting edge `LP` — the traced vertex 1 is not `(1.5, 0.866025)`: the
source's left turn subtracts from the facing angle (screen coordinates,
y growing downward), so the y-coordinate comes out negative. -/
theorem first_tile_fixture_vertex1_not_positive :
    set_user_points storeC3 .L "LP" none none = .ok ptsC3 ∧
    ptsC3.getD 1 (0, 0) ≠ ((1.5 : ℝ), (0.866025 : ℝ)) := by
  constructor
  · rfl
  · rw [ptsC3_first_two.2]
    intro hcontra
    rw [Prod.ext_iff] at hcontra
    have : (-0.866025 : ℝ) = (0.866025 : ℝ) := hcontra.2
    norm_num at this

/-- C3 (amended): the golden fixture produces vertex 0 at `(1, 0)` and
vertex 1 at `(1.5, -0.866025)` (that is, `(1.5, -√3/2)` rounded to six
decimals): a half-side move along angle 0, then a 60° left turn — which
decreases the facing angle — and another half-side move. -/
theorem first_tile_fixture_vertices :
    set_user_points storeC3 .L "LP" none none = .ok ptsC3 ∧
    ptsC3.getD 0 (0, 0) = ((1 : ℝ), (0 : ℝ)) ∧
    ptsC3.getD 1 (0, 0) = ((1.5 : ℝ), (-0.866025 : ℝ)) :=
  ⟨rfl, ptsC3_first_two.1, ptsC3_first_two.2⟩

/-- C10: serialization mutates the store: after `write_points_to_file`
the stored vertex lists of all tiles are the old ones translated by
`(-left, -top)`, where `left` is the crop override `left_x` (defaulting
to the tight minimum over all x-coordinates) and `top` is the crop
override `top_y` (defaulting to the tight minimum over all
y-coordinates); the returned store keeps this translation. -/
theorem write_points_to_file_mutates (s : AllTiles) (fmt : ℝ → String) :
    (write_points_to_file s fmt).1.tiles =
      s.tiles.map (fun kv => (kv.1,
        { kv.2 with user_points := kv.2.user_points.map (fun pt =>
          (pt.1 - s.left_x.getD
             (pyMin (s.tiles.map (fun kv2 => get_boundary kv2.2 'L'))),
           pt.2 - s.top_y.getD
             (pyMin (s.tiles.map (fun kv2 => get_boundary kv2.2 'T'))))) })) :=
  rfl

/-- C9 (code evaluated at the failing input): for a store whose second
tile has one vertex and whose first has two, the serialized output ends
with the twelve characters `{sep}{sep}` followed by a newline — the
source writes the padding string `'{sep}{sep}'` without an f-string
prefix — and not with the two empty tab-separated fields the format
promises. -/
theorem write_padding_emits_brace_literal :
    (write_points_to_file padStore fmtX).2 =
      "seq_id\tstart_fill_color\tstart_stroke_color\tdone_fill_color\t" ++
      "done_stroke_color\tfootnote\timg_width\timg_height\t" ++
      "px_0\tpy_0\tpx_1\tpy_1\n" ++
      "0\t#66ccff\t#000000\t#00000000\t#00000000\t\tF\tF\tF\tF\tF\tF\n" ++
      "1\t#66ccff\t#000000\t#00000000\t#00000000\t\tF\tF\tF\tF{sep}{sep}\n" ∧
      "1\t#66ccff\t#000000\t#00000000\t#00000000\t\tF\tF\tF\tF{sep}{sep}\n" ≠
      "1\t#66ccff\t#000000\t#00000000\t#00000000\t\tF\tF\tF\tF\t\t\n" :=
  ⟨rfl, by decide⟩

/-- C8 (modelled from the spec, see `tileDists`): an insertion carrying
per-tile shape parameters is traced with edge lengths resolved from the
overriding parameters, and an insertion without them is traced with the
lengths resolved from the store's global `tile_param1`/`tile_param2`. -/
theorem per_tile_parameter_override (a : AllTiles) (ch : Chirality)
    (se : String) (me mid : Option String) (q1 q2 : ℝ) (p0 : Pt) (a0 : ℝ)
    (s : ℕ) (hra : resolveStart a ch me mid = .ok (p0, a0))
    (hs : listIndex (EDGES ch) se = .ok s) :
    set_user_points_override a ch se me mid (some q1) (some q2) =
      .ok (traceFrom (fun dc => match dc with
        | .FS => a.scaling * 2 * q1
        | .HS => a.scaling * q1
        | .HH => a.scaling * q2) ch s p0 a0) ∧
    set_user_points_override a ch se me mid none none =
      .ok (traceFrom (fun dc => match dc with
        | .FS => a.scaling * 2 * a.tile_param1
        | .HS => a.scaling * a.tile_param1
        | .HH => a.scaling * a.tile_param2) ch s p0 a0) := by
  unfold set_user_points_override tileDists
  rw [hra, hs]
  constructor
  · rfl
  · dsimp only
    have hda : a.dists = (fun dc => match dc with
        | DistClass.FS => a.scaling * 2 * a.tile_param1
        | DistClass.HS => a.scaling * a.tile_param1
        | DistClass.HH => a.scaling * a.tile_param2) := by
      funext dc
      cases dc <;> rfl
    rw [hda]

/-- Witness for C8: the first tile of an empty store with overriding
parameters `5`, `7`. -/
theorem per_tile_parameter_override_witness :
    resolveStart (baseStore []) .L none none =
      .ok ((FIRST_TILE_W * (baseStore []).scaling,
            FIRST_TILE_H * (baseStore []).scaling),
           (baseStore []).first_tile_angle) ∧
    listIndex (EDGES Chirality.L) "LP" = .ok 0 ∧
    (set_user_points_override (baseStore []) .L "LP" none none
        (some 5) (some 7) =
      .ok (traceFrom (fun dc => match dc with
        | .FS => (baseStore []).scaling * 2 * 5
        | .HS => (baseStore []).scaling * 5
        | .HH => (baseStore []).scaling * 7) .L 0
          (FIRST_TILE_W * (baseStore []).scaling,
           FIRST_TILE_H * (baseStore []).scaling)
          (baseStore []).first_tile_angle) ∧
     set_user_points_override (baseStore []) .L "LP" none none none none =
      .ok (traceFrom (fun dc => match dc with
        | .FS => (baseStore []).scaling * 2 * (baseStore []).tile_param1
        | .HS => (baseStore []).scaling * (baseStore []).tile_param1
        | .HH => (baseStore []).scaling * (baseStore []).tile_param2) .L 0
          (FIRST_TILE_W * (baseStore []).scaling,
           FIRST_TILE_H * (baseStore []).scaling)
          (baseStore []).first_tile_angle)) :=
  ⟨rfl, rfl,
   per_tile_parameter_override (baseStore []) .L "LP" none none 5 7 _ _ 0
     rfl rfl⟩

theorem Grid_round6 (x : ℝ) : Grid (round6 x) := ⟨round (x * 1000000), rfl⟩

theorem Grid_add {x y : ℝ} (hx : Grid x) (hy : Grid y) : Grid (x + y) := by
  obtain ⟨m, hm⟩ := hx
  obtain ⟨n, hn⟩ := hy
  exact ⟨m + n, by rw [hm, hn]; push_cast; ring⟩

theorem Grid_sub {x y : ℝ} (hx : Grid x) (hy : Grid y) : Grid (x - y) := by
  obtain ⟨m, hm⟩ := hx
  obtain ⟨n, hn⟩ := hy
  exact ⟨m - n, by rw [hm, hn]; push_cast; ring⟩

theorem abs_errOf (v : ℝ) : |errOf v| ≤ 1 / 2000000 := by
  unfold errOf round6
  have h := abs_sub_round (v * 1000000)
  rw [show (round (v * 1000000) : ℝ) / 1000000 - v =
    ((round (v * 1000000) : ℝ) - v * 1000000) / 1000000 by ring]
  rw [abs_div, show |(1000000 : ℝ)| = 1000000 by norm_num, abs_sub_comm]
  linarith

theorem round6_grid_add {g : ℝ} (v : ℝ) (hg : Grid g) :
    round6 (g + v) = g + round6 v := by
  obtain ⟨k, hk⟩ := hg
  subst hk
  unfold round6
  rw [show ((k : ℝ) / 1000000 + v) * 1000000 = v * 1000000 + k by ring,
    round_add_int]
  push_cast
  ring

theorem fract_half : Int.fract ((1 : ℝ) / 2) = 1 / 2 :=
  Int.fract_eq_self.mpr ⟨by norm_num, by norm_num⟩

theorem round_neg_of_fract_ne {x : ℝ} (h : Int.fract x ≠ 1 / 2) :
    round (-x) = -round x := by
  rw [round_eq, round_eq]
  have h1 : ((⌊x + 1 / 2⌋ : ℤ) : ℝ) ≤ x + 1 / 2 := Int.floor_le _
  have h2 : x + 1 / 2 < (⌊x + 1 / 2⌋ : ℤ) + 1 := Int.lt_floor_add_one _
  have hne : ((⌊x + 1 / 2⌋ : ℤ) : ℝ) ≠ x + 1 / 2 := by
    intro heq
    apply h
    have hx : x = ((⌊x + 1 / 2⌋ - 1 : ℤ) : ℝ) + 1 / 2 := by
      push_cast
      linarith
    rw [hx, Int.fract_int_add, fract_half]
  have hlt : ((⌊x + 1 / 2⌋ : ℤ) : ℝ) < x + 1 / 2 := lt_of_le_of_ne h1 hne
  have hgoal : ⌊-x + 1 / 2⌋ = -⌊x + 1 / 2⌋ := by
    rw [Int.floor_eq_iff]
    constructor
    · push_cast
      linarith
    · push_cast
      linarith
  rw [hgoal]

theorem errOf_neg {v : ℝ} (h : Int.fract (v * 1000000) ≠ 1 / 2) :
    errOf (-v) = -errOf v := by
  unfold errOf round6
  rw [show -v * 1000000 = -(v * 1000000) by ring, round_neg_of_fract_ne h]
  push_cast
  ring

theorem stAfter_nil (d : DistClass → ℝ) (st : Pt × ℝ) :
    stAfter d st [] = st := rfl

theorem stAfter_cons (d : DistClass → ℝ) (st : Pt × ℝ) (m : Move)
    (ms : List Move) :
    stAfter d st (m :: ms) = stAfter d (traceStep d st m) ms := rfl

theorem stAfter_append (d : DistClass → ℝ) (st : Pt × ℝ)
    (l1 l2 : List Move) :
    stAfter d st (l1 ++ l2) = stAfter d (stAfter d st l1) l2 :=
  List.foldl_append _ _ _ _

theorem stAfter_angle (d : DistClass → ℝ) (st : Pt × ℝ) (ms : List Move) :
    (stAfter d st ms).2 = st.2 + turnSum ms := by
  induction ms generalizing st with
  | nil => rw [stAfter_nil, turnSum, add_zero]
  | cons m ms ih =>
    rw [stAfter_cons, ih, turnSum]
    show st.2 + turnDelta m + turnSum ms = _
    ring

theorem stAfter_decompose (d : DistClass → ℝ) (st : Pt × ℝ)
    (ms : List Move) (hgx : Grid st.1.1) (hgy : Grid st.1.2) :
    (stAfter d st ms).1.1 = st.1.1 + dispX d st.2 ms + errSumX d st.2 ms ∧
    (stAfter d st ms).1.2 = st.1.2 + dispY d st.2 ms + errSumY d st.2 ms := by
  induction ms generalizing st with
  | nil =>
    rw [stAfter_nil, dispX, dispY, errSumX, errSumY]
    constructor <;> ring
  | cons m ms ih =>
    rw [stAfter_cons, dispX, dispY, errSumX, errSumY]
    have hx : (traceStep d st m).1.1 =
        st.1.1 + (d m.d * Real.cos st.2 + errOf (d m.d * Real.cos st.2)) := by
      show round6 (st.1.1 + d m.d * Real.cos st.2) = _
      rw [round6_grid_add _ hgx]
      unfold errOf
      ring
    have hy : (traceStep d st m).1.2 =
        st.1.2 + (d m.d * Real.sin st.2 + errOf (d m.d * Real.sin st.2)) := by
      show round6 (st.1.2 + d m.d * Real.sin st.2) = _
      rw [round6_grid_add _ hgy]
      unfold errOf
      ring
    have hgx2 : Grid (traceStep d st m).1.1 := Grid_round6 _
    have hgy2 : Grid (traceStep d st m).1.2 := Grid_round6 _
    obtain ⟨ihx, ihy⟩ := ih (traceStep d st m) hgx2 hgy2
    have hang : (traceStep d st m).2 = st.2 + turnDelta m := rfl
    constructor
    · rw [ihx, hx, hang]
      ring
    · rw [ihy, hy, hang]
      ring

theorem tracePts_getD_eq_stAfter (d : DistClass → ℝ) (st : Pt × ℝ)
    (ms : List Move) (k : ℕ) (hk : k < ms.length) :
    (tracePts d st ms).getD k (0, 0) = (stAfter d st (ms.take (k + 1))).1 := by
  induction ms generalizing st k with
  | nil => simp at hk
  | cons m ms ih =>
    rw [tracePts_cons]
    cases k with
    | zero =>
      rw [List.take_succ_cons, List.take_zero]
      rfl
    | succ k =>
      rw [List.take_succ_cons, stAfter_cons]
      rw [show ((traceStep d st m).1 :: tracePts d (traceStep d st m)
        ms).getD (k + 1) (0, 0) =
        (tracePts d (traceStep d st m) ms).getD k (0, 0) from rfl]
      exact ih _ _ (by simpa using hk)

theorem dispX_LEFT (d : DistClass → ℝ) (θ : ℝ) :
    dispX d θ LEFT_HAT_MOVES =
      d .HS * Real.cos θ + d .HS * Real.cos (θ - 2 * π / 6) +
      d .HH * Real.cos (θ - 5 * π / 6) + d .HH * Real.cos (θ - 7 * π / 6) +
      d .HS * Real.cos (θ - 4 * π / 6) + d .FS * Real.cos (θ - 6 * π / 6) +
      d .HS * Real.cos (θ - 8 * π / 6) + d .HH * Real.cos (θ - 11 * π / 6) +
      d .HH * Real.cos (θ - 9 * π / 6) + d .HS * Real.cos (θ - 12 * π / 6) +
      d .HS * Real.cos (θ - 10 * π / 6) + d .HH * Real.cos (θ - 13 * π / 6) +
      d .HH * Real.cos (θ - 15 * π / 6) := by
  simp only [LEFT_HAT_MOVES, dispX, turnDelta, angleConst]
  push_cast
  ring_nf

theorem dispY_LEFT (d : DistClass → ℝ) (θ : ℝ) :
    dispY d θ LEFT_HAT_MOVES =
      d .HS * Real.sin θ +
      d .HS * Real.sin (θ - 2 * π / 6) +
      d .HH * Real.sin (θ - 5 * π / 6) +
      d .HH * Real.sin (θ - 7 * π / 6) +
      d .HS * Real.sin (θ - 4 * π / 6) +
      d .FS * Real.sin (θ - 6 * π / 6) +
      d .HS * Real.sin (θ - 8 * π / 6) +
      d .HH * Real.sin (θ - 11 * π / 6) +
      d .HH * Real.sin (θ - 9 * π / 6) +
      d .HS * Real.sin (θ - 12 * π / 6) +
      d .HS * Real.sin (θ - 10 * π / 6) +
      d .HH * Real.sin (θ - 13 * π / 6) +
      d .HH * Real.sin (θ - 15 * π / 6) := by
  simp only [LEFT_HAT_MOVES, dispY, turnDelta, angleConst]
  push_cast
  ring_nf

theorem dispX_RIGHT (d : DistClass → ℝ) (θ : ℝ) :
    dispX d θ RIGHT_HAT_MOVES =
      d .HS * Real.cos θ +
      d .HS * Real.cos (θ + 2 * π / 6) +
      d .HH * Real.cos (θ + 5 * π / 6) +
      d .HH * Real.cos (θ + 7 * π / 6) +
      d .HS * Real.cos (θ + 4 * π / 6) +
      d .FS * Real.cos (θ + 6 * π / 6) +
      d .HS * Real.cos (θ + 8 * π / 6) +
      d .HH * Real.cos (θ + 11 * π / 6) +
      d .HH * Real.cos (θ + 9 * π / 6) +
      d .HS * Real.cos (θ + 12 * π / 6) +
      d .HS * Real.cos (θ + 10 * π / 6) +
      d .HH * Real.cos (θ + 13 * π / 6) +
      d .HH * Real.cos (θ + 15 * π / 6) := by
  simp only [RIGHT_HAT_MOVES, LEFT_HAT_MOVES, List.map_cons, List.map_nil, otherTurn, dispX, turnDelta, angleConst]
  push_cast
  ring_nf

theorem dispY_RIGHT (d : DistClass → ℝ) (θ : ℝ) :
    dispY d θ RIGHT_HAT_MOVES =
      d .HS * Real.sin θ +
      d .HS * Real.sin (θ + 2 * π / 6) +
      d .HH * Real.sin (θ + 5 * π / 6) +
      d .HH * Real.sin (θ + 7 * π / 6) +
      d .HS * Real.sin (θ + 4 * π / 6) +
      d .FS * Real.sin (θ + 6 * π / 6) +
      d .HS * Real.sin (θ + 8 * π / 6) +
      d .HH * Real.sin (θ + 11 * π / 6) +
      d .HH * Real.sin (θ + 9 * π / 6) +
      d .HS * Real.sin (θ + 12 * π / 6) +
      d .HS * Real.sin (θ + 10 * π / 6) +
      d .HH * Real.sin (θ + 13 * π / 6) +
      d .HH * Real.sin (θ + 15 * π / 6) := by
  simp only [RIGHT_HAT_MOVES, LEFT_HAT_MOVES, List.map_cons, List.map_nil, otherTurn, dispY, turnDelta, angleConst]
  push_cast
  ring_nf

theorem errSumX_LEFT (d : DistClass → ℝ) (θ : ℝ) :
    errSumX d θ LEFT_HAT_MOVES =
      errOf (d .HS * Real.cos θ) +
      errOf (d .HS * Real.cos (θ - 2 * π / 6)) +
      errOf (d .HH * Real.cos (θ - 5 * π / 6)) +
      errOf (d .HH * Real.cos (θ - 7 * π / 6)) +
      errOf (d .HS * Real.cos (θ - 4 * π / 6)) +
      errOf (d .FS * Real.cos (θ - 6 * π / 6)) +
      errOf (d .HS * Real.cos (θ - 8 * π / 6)) +
      errOf (d .HH * Real.cos (θ - 11 * π / 6)) +
      errOf (d .HH * Real.cos (θ - 9 * π / 6)) +
      errOf (d .HS * Real.cos (θ - 12 * π / 6)) +
      errOf (d .HS * Real.cos (θ - 10 * π / 6)) +
      errOf (d .HH * Real.cos (θ - 13 * π / 6)) +
      errOf (d .HH * Real.cos (θ - 15 * π / 6)) := by
  simp only [LEFT_HAT_MOVES, errSumX, turnDelta, angleConst]
  push_cast
  ring_nf

theorem errSumY_LEFT (d : DistClass → ℝ) (θ : ℝ) :
    errSumY d θ LEFT_HAT_MOVES =
      errOf (d .HS * Real.sin θ) +
      errOf (d .HS * Real.sin (θ - 2 * π / 6)) +
      errOf (d .HH * Real.sin (θ - 5 * π / 6)) +
      errOf (d .HH * Real.sin (θ - 7 * π / 6)) +
      errOf (d .HS * Real.sin (θ - 4 * π / 6)) +
      errOf (d .FS * Real.sin (θ - 6 * π / 6)) +
      errOf (d .HS * Real.sin (θ - 8 * π / 6)) +
      errOf (d .HH * Real.sin (θ - 11 * π / 6)) +
      errOf (d .HH * Real.sin (θ - 9 * π / 6)) +
      errOf (d .HS * Real.sin (θ - 12 * π / 6)) +
      errOf (d .HS * Real.sin (θ - 10 * π / 6)) +
      errOf (d .HH * Real.sin (θ - 13 * π / 6)) +
      errOf (d .HH * Real.sin (θ - 15 * π / 6)) := by
  simp only [LEFT_HAT_MOVES, errSumY, turnDelta, angleConst]
  push_cast
  ring_nf

theorem errSumX_RIGHT (d : DistClass → ℝ) (θ : ℝ) :
    errSumX d θ RIGHT_HAT_MOVES =
      errOf (d .HS * Real.cos θ) +
      errOf (d .HS * Real.cos (θ + 2 * π / 6)) +
      errOf (d .HH * Real.cos (θ + 5 * π / 6)) +
      errOf (d .HH * Real.cos (θ + 7 * π / 6)) +
      errOf (d .HS * Real.cos (θ + 4 * π / 6)) +
      errOf (d .FS * Real.cos (θ + 6 * π / 6)) +
      errOf (d .HS * Real.cos (θ + 8 * π / 6)) +
      errOf (d .HH * Real.cos (θ + 11 * π / 6)) +
      errOf (d .HH * Real.cos (θ + 9 * π / 6)) +
      errOf (d .HS * Real.cos (θ + 12 * π / 6)) +
      errOf (d .HS * Real.cos (θ + 10 * π / 6)) +
      errOf (d .HH * Real.cos (θ + 13 * π / 6)) +
      errOf (d .HH * Real.cos (θ + 15 * π / 6)) := by
  simp only [RIGHT_HAT_MOVES, LEFT_HAT_MOVES, List.map_cons, List.map_nil, otherTurn, errSumX, turnDelta, angleConst]
  push_cast
  ring_nf

theorem errSumY_RIGHT (d : DistClass → ℝ) (θ : ℝ) :
    errSumY d θ RIGHT_HAT_MOVES =
      errOf (d .HS * Real.sin θ) +
      errOf (d .HS * Real.sin (θ + 2 * π / 6)) +
      errOf (d .HH * Real.sin (θ + 5 * π / 6)) +
      errOf (d .HH * Real.sin (θ + 7 * π / 6)) +
      errOf (d .HS * Real.sin (θ + 4 * π / 6)) +
      errOf (d .FS * Real.sin (θ + 6 * π / 6)) +
      errOf (d .HS * Real.sin (θ + 8 * π / 6)) +
      errOf (d .HH * Real.sin (θ + 11 * π / 6)) +
      errOf (d .HH * Real.sin (θ + 9 * π / 6)) +
      errOf (d .HS * Real.sin (θ + 12 * π / 6)) +
      errOf (d .HS * Real.sin (θ + 10 * π / 6)) +
      errOf (d .HH * Real.sin (θ + 13 * π / 6)) +
      errOf (d .HH * Real.sin (θ + 15 * π / 6)) := by
  simp only [RIGHT_HAT_MOVES, LEFT_HAT_MOVES, List.map_cons, List.map_nil, otherTurn, errSumY, turnDelta, angleConst]
  push_cast
  ring_nf

theorem NoTieX_LEFT_iff (d : DistClass → ℝ) (θ : ℝ) :
    NoTieX d θ LEFT_HAT_MOVES ↔
      (Int.fract (d .HS * Real.cos θ * 1000000) ≠ 1 / 2 ∧
      Int.fract (d .HS * Real.cos (θ - 2 * π / 6) * 1000000) ≠ 1 / 2 ∧
      Int.fract (d .HH * Real.cos (θ - 5 * π / 6) * 1000000) ≠ 1 / 2 ∧
      Int.fract (d .HH * Real.cos (θ - 7 * π / 6) * 1000000) ≠ 1 / 2 ∧
      Int.fract (d .HS * Real.cos (θ - 4 * π / 6) * 1000000) ≠ 1 / 2 ∧
      Int.fract (d .FS * Real.cos (θ - 6 * π / 6) * 1000000) ≠ 1 / 2 ∧
      Int.fract (d .HS * Real.cos (θ - 8 * π / 6) * 1000000) ≠ 1 / 2 ∧
      Int.fract (d .HH * Real.cos (θ - 11 * π / 6) * 1000000) ≠ 1 / 2 ∧
      Int.fract (d .HH * Real.cos (θ - 9 * π / 6) * 1000000) ≠ 1 / 2 ∧
      Int.fract (d .HS * Real.cos (θ - 12 * π / 6) * 1000000) ≠ 1 / 2 ∧
      Int.fract (d .HS * Real.cos (θ - 10 * π / 6) * 1000000) ≠ 1 / 2 ∧
      Int.fract (d .HH * Real.cos (θ - 13 * π / 6) * 1000000) ≠ 1 / 2 ∧
      Int.fract (d .HH * Real.cos (θ - 15 * π / 6) * 1000000) ≠ 1 / 2) := by
  simp only [LEFT_HAT_MOVES, NoTieX, turnDelta, angleConst, and_true]
  push_cast
  ring_nf

theorem NoTieY_LEFT_iff (d : DistClass → ℝ) (θ : ℝ) :
    NoTieY d θ LEFT_HAT_MOVES ↔
      (Int.fract (d .HS * Real.sin θ * 1000000) ≠ 1 / 2 ∧
      Int.fract (d .HS * Real.sin (θ - 2 * π / 6) * 1000000) ≠ 1 / 2 ∧
      Int.fract (d .HH * Real.sin (θ - 5 * π / 6) * 1000000) ≠ 1 / 2 ∧
      Int.fract (d .HH * Real.sin (θ - 7 * π / 6) * 1000000) ≠ 1 / 2 ∧
      Int.fract (d .HS * Real.sin (θ - 4 * π / 6) * 1000000) ≠ 1 / 2 ∧
      Int.fract (d .FS * Real.sin (θ - 6 * π / 6) * 1000000) ≠ 1 / 2 ∧
      Int.fract (d .HS * Real.sin (θ - 8 * π / 6) * 1000000) ≠ 1 / 2 ∧
      Int.fract (d .HH * Real.sin (θ - 11 * π / 6) * 1000000) ≠ 1 / 2 ∧
      Int.fract (d .HH * Real.sin (θ - 9 * π / 6) * 1000000) ≠ 1 / 2 ∧
      Int.fract (d .HS * Real.sin (θ - 12 * π / 6) * 1000000) ≠ 1 / 2 ∧
      Int.fract (d .HS * Real.sin (θ - 10 * π / 6) * 1000000) ≠ 1 / 2 ∧
      Int.fract (d .HH * Real.sin (θ - 13 * π / 6) * 1000000) ≠ 1 / 2 ∧
      Int.fract (d .HH * Real.sin (θ - 15 * π / 6) * 1000000) ≠ 1 / 2) := by
  simp only [LEFT_HAT_MOVES, NoTieY, turnDelta, angleConst, and_true]
  push_cast
  ring_nf

theorem NoTieX_RIGHT_iff (d : DistClass → ℝ) (θ : ℝ) :
    NoTieX d θ RIGHT_HAT_MOVES ↔
      (Int.fract (d .HS * Real.cos θ * 1000000) ≠ 1 / 2 ∧
      Int.fract (d .HS * Real.cos (θ + 2 * π / 6) * 1000000) ≠ 1 / 2 ∧
      Int.fract (d .HH * Real.cos (θ + 5 * π / 6) * 1000000) ≠ 1 / 2 ∧
      Int.fract (d .HH * Real.cos (θ + 7 * π / 6) * 1000000) ≠ 1 / 2 ∧
      Int.fract (d .HS * Real.cos (θ + 4 * π / 6) * 1000000) ≠ 1 / 2 ∧
      Int.fract (d .FS * Real.cos (θ + 6 * π / 6) * 1000000) ≠ 1 / 2 ∧
      Int.fract (d .HS * Real.cos (θ + 8 * π / 6) * 1000000) ≠ 1 / 2 ∧
      Int.fract (d .HH * Real.cos (θ + 11 * π / 6) * 1000000) ≠ 1 / 2 ∧
      Int.fract (d .HH * Real.cos (θ + 9 * π / 6) * 1000000) ≠ 1 / 2 ∧
      Int.fract (d .HS * Real.cos (θ + 12 * π / 6) * 1000000) ≠ 1 / 2 ∧
      Int.fract (d .HS * Real.cos (θ + 10 * π / 6) * 1000000) ≠ 1 / 2 ∧
      Int.fract (d .HH * Real.cos (θ + 13 * π / 6) * 1000000) ≠ 1 / 2 ∧
      Int.fract (d .HH * Real.cos (θ + 15 * π / 6) * 1000000) ≠ 1 / 2) := by
  simp only [RIGHT_HAT_MOVES, LEFT_HAT_MOVES, List.map_cons, List.map_nil, otherTurn, NoTieX, turnDelta, angleConst, and_true]
  push_cast
  ring_nf

theorem NoTieY_RIGHT_iff (d : DistClass → ℝ) (θ : ℝ) :
    NoTieY d θ RIGHT_HAT_MOVES ↔
      (Int.fract (d .HS * Real.sin θ * 1000000) ≠ 1 / 2 ∧
      Int.fract (d .HS * Real.sin (θ + 2 * π / 6) * 1000000) ≠ 1 / 2 ∧
      Int.fract (d .HH * Real.sin (θ + 5 * π / 6) * 1000000) ≠ 1 / 2 ∧
      Int.fract (d .HH * Real.sin (θ + 7 * π / 6) * 1000000) ≠ 1 / 2 ∧
      Int.fract (d .HS * Real.sin (θ + 4 * π / 6) * 1000000) ≠ 1 / 2 ∧
      Int.fract (d .FS * Real.sin (θ + 6 * π / 6) * 1000000) ≠ 1 / 2 ∧
      Int.fract (d .HS * Real.sin (θ + 8 * π / 6) * 1000000) ≠ 1 / 2 ∧
      Int.fract (d .HH * Real.sin (θ + 11 * π / 6) * 1000000) ≠ 1 / 2 ∧
      Int.fract (d .HH * Real.sin (θ + 9 * π / 6) * 1000000) ≠ 1 / 2 ∧
      Int.fract (d .HS * Real.sin (θ + 12 * π / 6) * 1000000) ≠ 1 / 2 ∧
      Int.fract (d .HS * Real.sin (θ + 10 * π / 6) * 1000000) ≠ 1 / 2 ∧
      Int.fract (d .HH * Real.sin (θ + 13 * π / 6) * 1000000) ≠ 1 / 2 ∧
      Int.fract (d .HH * Real.sin (θ + 15 * π / 6) * 1000000) ≠ 1 / 2) := by
  simp only [RIGHT_HAT_MOVES, LEFT_HAT_MOVES, List.map_cons, List.map_nil, otherTurn, NoTieY, turnDelta, angleConst, and_true]
  push_cast
  ring_nf

theorem dispX_LEFT_zero (d : DistClass → ℝ) (θ : ℝ)
    (hd : d .FS = 2 * d .HS) :
    dispX d θ LEFT_HAT_MOVES = 0 := by
  rw [dispX_LEFT]
  rw [show θ - 8 * π / 6 = θ - 2 * π / 6 - π by ring, Real.cos_sub_pi]
  rw [show θ - 11 * π / 6 = θ - 5 * π / 6 - π by ring, Real.cos_sub_pi]
  rw [show θ - 13 * π / 6 = θ - 7 * π / 6 - π by ring, Real.cos_sub_pi]
  rw [show θ - 10 * π / 6 = θ - 4 * π / 6 - π by ring, Real.cos_sub_pi]
  rw [show θ - 15 * π / 6 = θ - 9 * π / 6 - π by ring, Real.cos_sub_pi]
  rw [show θ - 12 * π / 6 = θ - 2 * π by ring, Real.cos_sub_two_pi]
  rw [show θ - 6 * π / 6 = θ - π by ring, Real.cos_sub_pi]
  rw [hd]
  ring

theorem errSumX_LEFT_bound (d : DistClass → ℝ) (θ : ℝ)
    (hd : d .FS = 2 * d .HS)
    (ht : NoTieX d θ LEFT_HAT_MOVES) :
    |errSumX d θ LEFT_HAT_MOVES| ≤
      3 / 2000000 := by
  obtain ⟨t1, t2, t3, t4, t5, t6, t7, t8, t9, t10, t11, t12, t13⟩ :=
    (NoTieX_LEFT_iff d θ).mp ht
  rw [errSumX_LEFT]
  rw [show d .HS * Real.cos (θ - 8 * π / 6) = -(d .HS * Real.cos (θ - 2 * π / 6)) by
    rw [show θ - 8 * π / 6 = θ - 2 * π / 6 - π by ring, Real.cos_sub_pi]
    ring]
  rw [errOf_neg t2]
  rw [show d .HH * Real.cos (θ - 11 * π / 6) = -(d .HH * Real.cos (θ - 5 * π / 6)) by
    rw [show θ - 11 * π / 6 = θ - 5 * π / 6 - π by ring, Real.cos_sub_pi]
    ring]
  rw [errOf_neg t3]
  rw [show d .HH * Real.cos (θ - 13 * π / 6) = -(d .HH * Real.cos (θ - 7 * π / 6)) by
    rw [show θ - 13 * π / 6 = θ - 7 * π / 6 - π by ring, Real.cos_sub_pi]
    ring]
  rw [errOf_neg t4]
  rw [show d .HS * Real.cos (θ - 10 * π / 6) = -(d .HS * Real.cos (θ - 4 * π / 6)) by
    rw [show θ - 10 * π / 6 = θ - 4 * π / 6 - π by ring, Real.cos_sub_pi]
    ring]
  rw [errOf_neg t5]
  rw [show d .HH * Real.cos (θ - 15 * π / 6) = -(d .HH * Real.cos (θ - 9 * π / 6)) by
    rw [show θ - 15 * π / 6 = θ - 9 * π / 6 - π by ring, Real.cos_sub_pi]
    ring]
  rw [errOf_neg t9]
  rw [show d .HS * Real.cos (θ - 12 * π / 6) = d .HS * Real.cos θ by
    rw [show θ - 12 * π / 6 = θ - 2 * π by ring, Real.cos_sub_two_pi]]
  rw [show d .FS * Real.cos (θ - 6 * π / 6) =
      -(2 * (d .HS * Real.cos θ)) by
    rw [show θ - 6 * π / 6 = θ - π by ring, Real.cos_sub_pi, hd]
    ring]
  rw [abs_le]
  have h1 := abs_le.mp (abs_errOf (d .HS * Real.cos θ))
  have h2 := abs_le.mp (abs_errOf (-(2 * (d .HS * Real.cos θ))))
  constructor <;> linarith [h1.1, h1.2, h2.1, h2.2]

theorem dispY_LEFT_zero (d : DistClass → ℝ) (θ : ℝ)
    (hd : d .FS = 2 * d .HS) :
    dispY d θ LEFT_HAT_MOVES = 0 := by
  rw [dispY_LEFT]
  rw [show θ - 8 * π / 6 = θ - 2 * π / 6 - π by ring, Real.sin_sub_pi]
  rw [show θ - 11 * π / 6 = θ - 5 * π / 6 - π by ring, Real.sin_sub_pi]
  rw [show θ - 13 * π / 6 = θ - 7 * π / 6 - π by ring, Real.sin_sub_pi]
  rw [show θ - 10 * π / 6 = θ - 4 * π / 6 - π by ring, Real.sin_sub_pi]
  rw [show θ - 15 * π / 6 = θ - 9 * π / 6 - π by ring, Real.sin_sub_pi]
  rw [show θ - 12 * π / 6 = θ - 2 * π by ring, Real.sin_sub_two_pi]
  rw [show θ - 6 * π / 6 = θ - π by ring, Real.sin_sub_pi]
  rw [hd]
  ring

theorem errSumY_LEFT_bound (d : DistClass → ℝ) (θ : ℝ)
    (hd : d .FS = 2 * d .HS)
    (ht : NoTieY d θ LEFT_HAT_MOVES) :
    |errSumY d θ LEFT_HAT_MOVES| ≤
      3 / 2000000 := by
  obtain ⟨t1, t2, t3, t4, t5, t6, t7, t8, t9, t10, t11, t12, t13⟩ :=
    (NoTieY_LEFT_iff d θ).mp ht
  rw [errSumY_LEFT]
  rw [show d .HS * Real.sin (θ - 8 * π / 6) = -(d .HS * Real.sin (θ - 2 * π / 6)) by
    rw [show θ - 8 * π / 6 = θ - 2 * π / 6 - π by ring, Real.sin_sub_pi]
    ring]
  rw [errOf_neg t2]
  rw [show d .HH * Real.sin (θ - 11 * π / 6) = -(d .HH * Real.sin (θ - 5 * π / 6)) by
    rw [show θ - 11 * π / 6 = θ - 5 * π / 6 - π by ring, Real.sin_sub_pi]
    ring]
  rw [errOf_neg t3]
  rw [show d .HH * Real.sin (θ - 13 * π / 6) = -(d .HH * Real.sin (θ - 7 * π / 6)) by
    rw [show θ - 13 * π / 6 = θ - 7 * π / 6 - π by ring, Real.sin_sub_pi]
    ring]
  rw [errOf_neg t4]
  rw [show d .HS * Real.sin (θ - 10 * π / 6) = -(d .HS * Real.sin (θ - 4 * π / 6)) by
    rw [show θ - 10 * π / 6 = θ - 4 * π / 6 - π by ring, Real.sin_sub_pi]
    ring]
  rw [errOf_neg t5]
  rw [show d .HH * Real.sin (θ - 15 * π / 6) = -(d .HH * Real.sin (θ - 9 * π / 6)) by
    rw [show θ - 15 * π / 6 = θ - 9 * π / 6 - π by ring, Real.sin_sub_pi]
    ring]
  rw [errOf_neg t9]
  rw [show d .HS * Real.sin (θ - 12 * π / 6) = d .HS * Real.sin θ by
    rw [show θ - 12 * π / 6 = θ - 2 * π by ring, Real.sin_sub_two_pi]]
  rw [show d .FS * Real.sin (θ - 6 * π / 6) =
      -(2 * (d .HS * Real.sin θ)) by
    rw [show θ - 6 * π / 6 = θ - π by ring, Real.sin_sub_pi, hd]
    ring]
  rw [abs_le]
  have h1 := abs_le.mp (abs_errOf (d .HS * Real.sin θ))
  have h2 := abs_le.mp (abs_errOf (-(2 * (d .HS * Real.sin θ))))
  constructor <;> linarith [h1.1, h1.2, h2.1, h2.2]

theorem dispX_RIGHT_zero (d : DistClass → ℝ) (θ : ℝ)
    (hd : d .FS = 2 * d .HS) :
    dispX d θ RIGHT_HAT_MOVES = 0 := by
  rw [dispX_RIGHT]
  rw [show θ + 8 * π / 6 = θ + 2 * π / 6 + π by ring, Real.cos_add_pi]
  rw [show θ + 11 * π / 6 = θ + 5 * π / 6 + π by ring, Real.cos_add_pi]
  rw [show θ + 13 * π / 6 = θ + 7 * π / 6 + π by ring, Real.cos_add_pi]
  rw [show θ + 10 * π / 6 = θ + 4 * π / 6 + π by ring, Real.cos_add_pi]
  rw [show θ + 15 * π / 6 = θ + 9 * π / 6 + π by ring, Real.cos_add_pi]
  rw [show θ + 12 * π / 6 = θ + 2 * π by ring, Real.cos_add_two_pi]
  rw [show θ + 6 * π / 6 = θ + π by ring, Real.cos_add_pi]
  rw [hd]
  ring

theorem errSumX_RIGHT_bound (d : DistClass → ℝ) (θ : ℝ)
    (hd : d .FS = 2 * d .HS)
    (ht : NoTieX d θ RIGHT_HAT_MOVES) :
    |errSumX d θ RIGHT_HAT_MOVES| ≤
      3 / 2000000 := by
  obtain ⟨t1, t2, t3, t4, t5, t6, t7, t8, t9, t10, t11, t12, t13⟩ :=
    (NoTieX_RIGHT_iff d θ).mp ht
  rw [errSumX_RIGHT]
  rw [show d .HS * Real.cos (θ + 8 * π / 6) = -(d .HS * Real.cos (θ + 2 * π / 6)) by
    rw [show θ + 8 * π / 6 = θ + 2 * π / 6 + π by ring, Real.cos_add_pi]
    ring]
  rw [errOf_neg t2]
  rw [show d .HH * Real.cos (θ + 11 * π / 6) = -(d .HH * Real.cos (θ + 5 * π / 6)) by
    rw [show θ + 11 * π / 6 = θ + 5 * π / 6 + π by ring, Real.cos_add_pi]
    ring]
  rw [errOf_neg t3]
  rw [show d .HH * Real.cos (θ + 13 * π / 6) = -(d .HH * Real.cos (θ + 7 * π / 6)) by
    rw [show θ + 13 * π / 6 = θ + 7 * π / 6 + π by ring, Real.cos_add_pi]
    ring]
  rw [errOf_neg t4]
  rw [show d .HS * Real.cos (θ + 10 * π / 6) = -(d .HS * Real.cos (θ + 4 * π / 6)) by
    rw [show θ + 10 * π / 6 = θ + 4 * π / 6 + π by ring, Real.cos_add_pi]
    ring]
  rw [errOf_neg t5]
  rw [show d .HH * Real.cos (θ + 15 * π / 6) = -(d .HH * Real.cos (θ + 9 * π / 6)) by
    rw [show θ + 15 * π / 6 = θ + 9 * π / 6 + π by ring, Real.cos_add_pi]
    ring]
  rw [errOf_neg t9]
  rw [show d .HS * Real.cos (θ + 12 * π / 6) = d .HS * Real.cos θ by
    rw [show θ + 12 * π / 6 = θ + 2 * π by ring, Real.cos_add_two_pi]]
  rw [show d .FS * Real.cos (θ + 6 * π / 6) =
      -(2 * (d .HS * Real.cos θ)) by
    rw [show θ + 6 * π / 6 = θ + π by ring, Real.cos_add_pi, hd]
    ring]
  rw [abs_le]
  have h1 := abs_le.mp (abs_errOf (d .HS * Real.cos θ))
  have h2 := abs_le.mp (abs_errOf (-(2 * (d .HS * Real.cos θ))))
  constructor <;> linarith [h1.1, h1.2, h2.1, h2.2]

theorem dispY_RIGHT_zero (d : DistClass → ℝ) (θ : ℝ)
    (hd : d .FS = 2 * d .HS) :
    dispY d θ RIGHT_HAT_MOVES = 0 := by
  rw [dispY_RIGHT]
  rw [show θ + 8 * π / 6 = θ + 2 * π / 6 + π by ring, Real.sin_add_pi]
  rw [show θ + 11 * π / 6 = θ + 5 * π / 6 + π by ring, Real.sin_add_pi]
  rw [show θ + 13 * π / 6 = θ + 7 * π / 6 + π by ring, Real.sin_add_pi]
  rw [show θ + 10 * π / 6 = θ + 4 * π / 6 + π by ring, Real.sin_add_pi]
  rw [show θ + 15 * π / 6 = θ + 9 * π / 6 + π by ring, Real.sin_add_pi]
  rw [show θ + 12 * π / 6 = θ + 2 * π by ring, Real.sin_add_two_pi]
  rw [show θ + 6 * π / 6 = θ + π by ring, Real.sin_add_pi]
  rw [hd]
  ring

theorem errSumY_RIGHT_bound (d : DistClass → ℝ) (θ : ℝ)
    (hd : d .FS = 2 * d .HS)
    (ht : NoTieY d θ RIGHT_HAT_MOVES) :
    |errSumY d θ RIGHT_HAT_MOVES| ≤
      3 / 2000000 := by
  obtain ⟨t1, t2, t3, t4, t5, t6, t7, t8, t9, t10, t11, t12, t13⟩ :=
    (NoTieY_RIGHT_iff d θ).mp ht
  rw [errSumY_RIGHT]
  rw [show d .HS * Real.sin (θ + 8 * π / 6) = -(d .HS * Real.sin (θ + 2 * π / 6)) by
    rw [show θ + 8 * π / 6 = θ + 2 * π / 6 + π by ring, Real.sin_add_pi]
    ring]
  rw [errOf_neg t2]
  rw [show d .HH * Real.sin (θ + 11 * π / 6) = -(d .HH * Real.sin (θ + 5 * π / 6)) by
    rw [show θ + 11 * π / 6 = θ + 5 * π / 6 + π by ring, Real.sin_add_pi]
    ring]
  rw [errOf_neg t3]
  rw [show d .HH * Real.sin (θ + 13 * π / 6) = -(d .HH * Real.sin (θ + 7 * π / 6)) by
    rw [show θ + 13 * π / 6 = θ + 7 * π / 6 + π by ring, Real.sin_add_pi]
    ring]
  rw [errOf_neg t4]
  rw [show d .HS * Real.sin (θ + 10 * π / 6) = -(d .HS * Real.sin (θ + 4 * π / 6)) by
    rw [show θ + 10 * π / 6 = θ + 4 * π / 6 + π by ring, Real.sin_add_pi]
    ring]
  rw [errOf_neg t5]
  rw [show d .HH * Real.sin (θ + 15 * π / 6) = -(d .HH * Real.sin (θ + 9 * π / 6)) by
    rw [show θ + 15 * π / 6 = θ + 9 * π / 6 + π by ring, Real.sin_add_pi]
    ring]
  rw [errOf_neg t9]
  rw [show d .HS * Real.sin (θ + 12 * π / 6) = d .HS * Real.sin θ by
    rw [show θ + 12 * π / 6 = θ + 2 * π by ring, Real.sin_add_two_pi]]
  rw [show d .FS * Real.sin (θ + 6 * π / 6) =
      -(2 * (d .HS * Real.sin θ)) by
    rw [show θ + 6 * π / 6 = θ + π by ring, Real.sin_add_pi, hd]
    ring]
  rw [abs_le]
  have h1 := abs_le.mp (abs_errOf (d .HS * Real.sin θ))
  have h2 := abs_le.mp (abs_errOf (-(2 * (d .HS * Real.sin θ))))
  constructor <;> linarith [h1.1, h1.2, h2.1, h2.2]

theorem turnSum_append (l1 l2 : List Move) :
    turnSum (l1 ++ l2) = turnSum l1 + turnSum l2 := by
  induction l1 with
  | nil => rw [List.nil_append, turnSum, zero_add]
  | cons m ms ih => rw [List.cons_append, turnSum, turnSum, ih, add_assoc]

theorem dispX_append (d : DistClass → ℝ) (θ : ℝ) (l1 l2 : List Move) :
    dispX d θ (l1 ++ l2) = dispX d θ l1 + dispX d (θ + turnSum l1) l2 := by
  induction l1 generalizing θ with
  | nil => rw [List.nil_append, dispX, turnSum, add_zero, zero_add]
  | cons m ms ih =>
    rw [List.cons_append, dispX, dispX, ih, turnSum]
    rw [show θ + turnDelta m + turnSum ms = θ + (turnDelta m + turnSum ms) by
      ring]
    ring

theorem dispY_append (d : DistClass → ℝ) (θ : ℝ) (l1 l2 : List Move) :
    dispY d θ (l1 ++ l2) = dispY d θ l1 + dispY d (θ + turnSum l1) l2 := by
  induction l1 generalizing θ with
  | nil => rw [List.nil_append, dispY, turnSum, add_zero, zero_add]
  | cons m ms ih =>
    rw [List.cons_append, dispY, dispY, ih, turnSum]
    rw [show θ + turnDelta m + turnSum ms = θ + (turnDelta m + turnSum ms) by
      ring]
    ring

theorem errSumX_append (d : DistClass → ℝ) (θ : ℝ) (l1 l2 : List Move) :
    errSumX d θ (l1 ++ l2) = errSumX d θ l1 + errSumX d (θ + turnSum l1) l2 := by
  induction l1 generalizing θ with
  | nil => rw [List.nil_append, errSumX, turnSum, add_zero, zero_add]
  | cons m ms ih =>
    rw [List.cons_append, errSumX, errSumX, ih, turnSum]
    rw [show θ + turnDelta m + turnSum ms = θ + (turnDelta m + turnSum ms) by
      ring]
    ring

theorem errSumY_append (d : DistClass → ℝ) (θ : ℝ) (l1 l2 : List Move) :
    errSumY d θ (l1 ++ l2) = errSumY d θ l1 + errSumY d (θ + turnSum l1) l2 := by
  induction l1 generalizing θ with
  | nil => rw [List.nil_append, errSumY, turnSum, add_zero, zero_add]
  | cons m ms ih =>
    rw [List.cons_append, errSumY, errSumY, ih, turnSum]
    rw [show θ + turnDelta m + turnSum ms = θ + (turnDelta m + turnSum ms) by
      ring]
    ring

theorem NoTieX_cons (d : DistClass → ℝ) (θ : ℝ) (m : Move) (ms : List Move) :
    NoTieX d θ (m :: ms) ↔
      (Int.fract (d m.d * Real.cos θ * 1000000) ≠ 1 / 2 ∧
        NoTieX d (θ + turnDelta m) ms) := Iff.rfl

theorem NoTieY_cons (d : DistClass → ℝ) (θ : ℝ) (m : Move) (ms : List Move) :
    NoTieY d θ (m :: ms) ↔
      (Int.fract (d m.d * Real.sin θ * 1000000) ≠ 1 / 2 ∧
        NoTieY d (θ + turnDelta m) ms) := Iff.rfl

theorem NoTieX_append (d : DistClass → ℝ) (θ : ℝ) (l1 l2 : List Move) :
    NoTieX d θ (l1 ++ l2) ↔ (NoTieX d θ l1 ∧ NoTieX d (θ + turnSum l1) l2) := by
  induction l1 generalizing θ with
  | nil =>
    rw [List.nil_append, turnSum, add_zero]
    exact ⟨fun h => ⟨trivial, h⟩, fun h => h.2⟩
  | cons m ms ih =>
    rw [List.cons_append, NoTieX_cons, NoTieX_cons, ih, turnSum]
    rw [show θ + turnDelta m + turnSum ms = θ + (turnDelta m + turnSum ms) by
      ring]
    tauto

theorem NoTieY_append (d : DistClass → ℝ) (θ : ℝ) (l1 l2 : List Move) :
    NoTieY d θ (l1 ++ l2) ↔ (NoTieY d θ l1 ∧ NoTieY d (θ + turnSum l1) l2) := by
  induction l1 generalizing θ with
  | nil =>
    rw [List.nil_append, turnSum, add_zero]
    exact ⟨fun h => ⟨trivial, h⟩, fun h => h.2⟩
  | cons m ms ih =>
    rw [List.cons_append, NoTieY_cons, NoTieY_cons, ih, turnSum]
    rw [show θ + turnDelta m + turnSum ms = θ + (turnDelta m + turnSum ms) by
      ring]
    tauto

theorem dispX_sub_two_pi (d : DistClass → ℝ) (θ : ℝ) (l : List Move) :
    dispX d (θ + -(2 * π)) l = dispX d θ l := by
  induction l generalizing θ with
  | nil => rfl
  | cons m ms ih =>
    rw [dispX, dispX]
    have harg : Real.cos (θ + -(2 * π)) = Real.cos θ := by
      rw [show θ + -(2 * π) = θ - 2 * π by ring, Real.cos_sub_two_pi]
    rw [harg]
    rw [show θ + -(2 * π) + turnDelta m = θ + turnDelta m + -(2 * π) by ring, ih]

theorem dispX_add_two_pi (d : DistClass → ℝ) (θ : ℝ) (l : List Move) :
    dispX d (θ + 2 * π) l = dispX d θ l := by
  induction l generalizing θ with
  | nil => rfl
  | cons m ms ih =>
    rw [dispX, dispX]
    have harg : Real.cos (θ + 2 * π) = Real.cos θ := by
      rw [show θ + 2 * π = θ + 2 * π by ring, Real.cos_add_two_pi]
    rw [harg]
    rw [show θ + 2 * π + turnDelta m = θ + turnDelta m + 2 * π by ring, ih]

theorem dispY_sub_two_pi (d : DistClass → ℝ) (θ : ℝ) (l : List Move) :
    dispY d (θ + -(2 * π)) l = dispY d θ l := by
  induction l generalizing θ with
  | nil => rfl
  | cons m ms ih =>
    rw [dispY, dispY]
    have harg : Real.sin (θ + -(2 * π)) = Real.sin θ := by
      rw [show θ + -(2 * π) = θ - 2 * π by ring, Real.sin_sub_two_pi]
    rw [harg]
    rw [show θ + -(2 * π) + turnDelta m = θ + turnDelta m + -(2 * π) by ring, ih]

theorem dispY_add_two_pi (d : DistClass → ℝ) (θ : ℝ) (l : List Move) :
    dispY d (θ + 2 * π) l = dispY d θ l := by
  induction l generalizing θ with
  | nil => rfl
  | cons m ms ih =>
    rw [dispY, dispY]
    have harg : Real.sin (θ + 2 * π) = Real.sin θ := by
      rw [show θ + 2 * π = θ + 2 * π by ring, Real.sin_add_two_pi]
    rw [harg]
    rw [show θ + 2 * π + turnDelta m = θ + turnDelta m + 2 * π by ring, ih]

theorem errSumX_sub_two_pi (d : DistClass → ℝ) (θ : ℝ) (l : List Move) :
    errSumX d (θ + -(2 * π)) l = errSumX d θ l := by
  induction l generalizing θ with
  | nil => rfl
  | cons m ms ih =>
    rw [errSumX, errSumX]
    have harg : Real.cos (θ + -(2 * π)) = Real.cos θ := by
      rw [show θ + -(2 * π) = θ - 2 * π by ring, Real.cos_sub_two_pi]
    rw [harg]
    rw [show θ + -(2 * π) + turnDelta m = θ + turnDelta m + -(2 * π) by ring, ih]

theorem errSumX_add_two_pi (d : DistClass → ℝ) (θ : ℝ) (l : List Move) :
    errSumX d (θ + 2 * π) l = errSumX d θ l := by
  induction l generalizing θ with
  | nil => rfl
  | cons m ms ih =>
    rw [errSumX, errSumX]
    have harg : Real.cos (θ + 2 * π) = Real.cos θ := by
      rw [show θ + 2 * π = θ + 2 * π by ring, Real.cos_add_two_pi]
    rw [harg]
    rw [show θ + 2 * π + turnDelta m = θ + turnDelta m + 2 * π by ring, ih]

theorem errSumY_sub_two_pi (d : DistClass → ℝ) (θ : ℝ) (l : List Move) :
    errSumY d (θ + -(2 * π)) l = errSumY d θ l := by
  induction l generalizing θ with
  | nil => rfl
  | cons m ms ih =>
    rw [errSumY, errSumY]
    have harg : Real.sin (θ + -(2 * π)) = Real.sin θ := by
      rw [show θ + -(2 * π) = θ - 2 * π by ring, Real.sin_sub_two_pi]
    rw [harg]
    rw [show θ + -(2 * π) + turnDelta m = θ + turnDelta m + -(2 * π) by ring, ih]

theorem errSumY_add_two_pi (d : DistClass → ℝ) (θ : ℝ) (l : List Move) :
    errSumY d (θ + 2 * π) l = errSumY d θ l := by
  induction l generalizing θ with
  | nil => rfl
  | cons m ms ih =>
    rw [errSumY, errSumY]
    have harg : Real.sin (θ + 2 * π) = Real.sin θ := by
      rw [show θ + 2 * π = θ + 2 * π by ring, Real.sin_add_two_pi]
    rw [harg]
    rw [show θ + 2 * π + turnDelta m = θ + turnDelta m + 2 * π by ring, ih]

theorem NoTieX_sub_two_pi (d : DistClass → ℝ) (θ : ℝ) (l : List Move) :
    NoTieX d (θ + -(2 * π)) l ↔ NoTieX d θ l := by
  induction l generalizing θ with
  | nil => exact Iff.rfl
  | cons m ms ih =>
    unfold NoTieX
    have harg : Real.cos (θ + -(2 * π)) = Real.cos θ := by
      rw [show θ + -(2 * π) = θ - 2 * π by ring, Real.cos_sub_two_pi]
    rw [harg]
    rw [show θ + -(2 * π) + turnDelta m = θ + turnDelta m + -(2 * π) by ring, ih]

theorem NoTieX_add_two_pi (d : DistClass → ℝ) (θ : ℝ) (l : List Move) :
    NoTieX d (θ + 2 * π) l ↔ NoTieX d θ l := by
  induction l generalizing θ with
  | nil => exact Iff.rfl
  | cons m ms ih =>
    unfold NoTieX
    have harg : Real.cos (θ + 2 * π) = Real.cos θ := by
      rw [show θ + 2 * π = θ + 2 * π by ring, Real.cos_add_two_pi]
    rw [harg]
    rw [show θ + 2 * π + turnDelta m = θ + turnDelta m + 2 * π by ring, ih]

theorem NoTieY_sub_two_pi (d : DistClass → ℝ) (θ : ℝ) (l : List Move) :
    NoTieY d (θ + -(2 * π)) l ↔ NoTieY d θ l := by
  induction l generalizing θ with
  | nil => exact Iff.rfl
  | cons m ms ih =>
    unfold NoTieY
    have harg : Real.sin (θ + -(2 * π)) = Real.sin θ := by
      rw [show θ + -(2 * π) = θ - 2 * π by ring, Real.sin_sub_two_pi]
    rw [harg]
    rw [show θ + -(2 * π) + turnDelta m = θ + turnDelta m + -(2 * π) by ring, ih]

theorem NoTieY_add_two_pi (d : DistClass → ℝ) (θ : ℝ) (l : List Move) :
    NoTieY d (θ + 2 * π) l ↔ NoTieY d θ l := by
  induction l generalizing θ with
  | nil => exact Iff.rfl
  | cons m ms ih =>
    unfold NoTieY
    have harg : Real.sin (θ + 2 * π) = Real.sin θ := by
      rw [show θ + 2 * π = θ + 2 * π by ring, Real.sin_add_two_pi]
    rw [harg]
    rw [show θ + 2 * π + turnDelta m = θ + turnDelta m + 2 * π by ring, ih]

theorem turnSum_LEFT : turnSum LEFT_HAT_MOVES = -(2 * π) := by
  simp only [LEFT_HAT_MOVES, turnSum, turnDelta, angleConst]
  push_cast
  ring

theorem turnSum_RIGHT : turnSum RIGHT_HAT_MOVES = 2 * π := by
  simp only [RIGHT_HAT_MOVES, LEFT_HAT_MOVES, List.map_cons, List.map_nil,
    otherTurn, turnSum, turnDelta, angleConst]
  push_cast
  ring

theorem turnSum_MOVES (ch : Chirality) :
    turnSum (MOVES ch) = -(2 * π) ∨ turnSum (MOVES ch) = 2 * π := by
  cases ch
  · exact Or.inl turnSum_LEFT
  · exact Or.inr turnSum_RIGHT

theorem dispX_rot (d : DistClass → ℝ) (ch : Chirality) (s : ℕ) (θ : ℝ) :
    dispX d θ (rotatedMoves ch s) =
      dispX d (θ + turnSum ((MOVES ch).drop s)) (MOVES ch) := by
  unfold rotatedMoves
  rw [dispX_append]
  have hfull : dispX d (θ + turnSum ((MOVES ch).drop s)) (MOVES ch) =
      dispX d (θ + turnSum ((MOVES ch).drop s))
        ((MOVES ch).take s ++ (MOVES ch).drop s) := by
    rw [List.take_append_drop]
  rw [hfull, dispX_append]
  have hts : turnSum ((MOVES ch).drop s) + turnSum ((MOVES ch).take s) =
      turnSum (MOVES ch) := by
    rw [add_comm, ← turnSum_append, List.take_append_drop]
  rcases turnSum_MOVES ch with h | h
  · rw [show θ + turnSum ((MOVES ch).drop s) + turnSum ((MOVES ch).take s) =
        θ + -(2 * π) from by rw [add_assoc, hts, h]]
    rw [dispX_sub_two_pi]
    ring
  · rw [show θ + turnSum ((MOVES ch).drop s) + turnSum ((MOVES ch).take s) =
        θ + 2 * π from by rw [add_assoc, hts, h]]
    rw [dispX_add_two_pi]
    ring

theorem dispY_rot (d : DistClass → ℝ) (ch : Chirality) (s : ℕ) (θ : ℝ) :
    dispY d θ (rotatedMoves ch s) =
      dispY d (θ + turnSum ((MOVES ch).drop s)) (MOVES ch) := by
  unfold rotatedMoves
  rw [dispY_append]
  have hfull : dispY d (θ + turnSum ((MOVES ch).drop s)) (MOVES ch) =
      dispY d (θ + turnSum ((MOVES ch).drop s))
        ((MOVES ch).take s ++ (MOVES ch).drop s) := by
    rw [List.take_append_drop]
  rw [hfull, dispY_append]
  have hts : turnSum ((MOVES ch).drop s) + turnSum ((MOVES ch).take s) =
      turnSum (MOVES ch) := by
    rw [add_comm, ← turnSum_append, List.take_append_drop]
  rcases turnSum_MOVES ch with h | h
  · rw [show θ + turnSum ((MOVES ch).drop s) + turnSum ((MOVES ch).take s) =
        θ + -(2 * π) from by rw [add_assoc, hts, h]]
    rw [dispY_sub_two_pi]
    ring
  · rw [show θ + turnSum ((MOVES ch).drop s) + turnSum ((MOVES ch).take s) =
        θ + 2 * π from by rw [add_assoc, hts, h]]
    rw [dispY_add_two_pi]
    ring

theorem errSumX_rot (d : DistClass → ℝ) (ch : Chirality) (s : ℕ) (θ : ℝ) :
    errSumX d θ (rotatedMoves ch s) =
      errSumX d (θ + turnSum ((MOVES ch).drop s)) (MOVES ch) := by
  unfold rotatedMoves
  rw [errSumX_append]
  have hfull : errSumX d (θ + turnSum ((MOVES ch).drop s)) (MOVES ch) =
      errSumX d (θ + turnSum ((MOVES ch).drop s))
        ((MOVES ch).take s ++ (MOVES ch).drop s) := by
    rw [List.take_append_drop]
  rw [hfull, errSumX_append]
  have hts : turnSum ((MOVES ch).drop s) + turnSum ((MOVES ch).take s) =
      turnSum (MOVES ch) := by
    rw [add_comm, ← turnSum_append, List.take_append_drop]
  rcases turnSum_MOVES ch with h | h
  · rw [show θ + turnSum ((MOVES ch).drop s) + turnSum ((MOVES ch).take s) =
        θ + -(2 * π) from by rw [add_assoc, hts, h]]
    rw [errSumX_sub_two_pi]
    ring
  · rw [show θ + turnSum ((MOVES ch).drop s) + turnSum ((MOVES ch).take s) =
        θ + 2 * π from by rw [add_assoc, hts, h]]
    rw [errSumX_add_two_pi]
    ring

theorem errSumY_rot (d : DistClass → ℝ) (ch : Chirality) (s : ℕ) (θ : ℝ) :
    errSumY d θ (rotatedMoves ch s) =
      errSumY d (θ + turnSum ((MOVES ch).drop s)) (MOVES ch) := by
  unfold rotatedMoves
  rw [errSumY_append]
  have hfull : errSumY d (θ + turnSum ((MOVES ch).drop s)) (MOVES ch) =
      errSumY d (θ + turnSum ((MOVES ch).drop s))
        ((MOVES ch).take s ++ (MOVES ch).drop s) := by
    rw [List.take_append_drop]
  rw [hfull, errSumY_append]
  have hts : turnSum ((MOVES ch).drop s) + turnSum ((MOVES ch).take s) =
      turnSum (MOVES ch) := by
    rw [add_comm, ← turnSum_append, List.take_append_drop]
  rcases turnSum_MOVES ch with h | h
  · rw [show θ + turnSum ((MOVES ch).drop s) + turnSum ((MOVES ch).take s) =
        θ + -(2 * π) from by rw [add_assoc, hts, h]]
    rw [errSumY_sub_two_pi]
    ring
  · rw [show θ + turnSum ((MOVES ch).drop s) + turnSum ((MOVES ch).take s) =
        θ + 2 * π from by rw [add_assoc, hts, h]]
    rw [errSumY_add_two_pi]
    ring

theorem NoTieX_rot (d : DistClass → ℝ) (ch : Chirality) (s : ℕ) (θ : ℝ) :
    NoTieX d θ (rotatedMoves ch s) ↔
      NoTieX d (θ + turnSum ((MOVES ch).drop s)) (MOVES ch) := by
  unfold rotatedMoves
  rw [NoTieX_append]
  have hfull : NoTieX d (θ + turnSum ((MOVES ch).drop s)) (MOVES ch) ↔
      NoTieX d (θ + turnSum ((MOVES ch).drop s))
        ((MOVES ch).take s ++ (MOVES ch).drop s) := by
    rw [List.take_append_drop]
  rw [hfull, NoTieX_append]
  have hts : turnSum ((MOVES ch).drop s) + turnSum ((MOVES ch).take s) =
      turnSum (MOVES ch) := by
    rw [add_comm, ← turnSum_append, List.take_append_drop]
  rcases turnSum_MOVES ch with h | h
  · rw [show θ + turnSum ((MOVES ch).drop s) + turnSum ((MOVES ch).take s) =
        θ + -(2 * π) from by rw [add_assoc, hts, h]]
    rw [NoTieX_sub_two_pi]
    tauto
  · rw [show θ + turnSum ((MOVES ch).drop s) + turnSum ((MOVES ch).take s) =
        θ + 2 * π from by rw [add_assoc, hts, h]]
    rw [NoTieX_add_two_pi]
    tauto

theorem NoTieY_rot (d : DistClass → ℝ) (ch : Chirality) (s : ℕ) (θ : ℝ) :
    NoTieY d θ (rotatedMoves ch s) ↔
      NoTieY d (θ + turnSum ((MOVES ch).drop s)) (MOVES ch) := by
  unfold rotatedMoves
  rw [NoTieY_append]
  have hfull : NoTieY d (θ + turnSum ((MOVES ch).drop s)) (MOVES ch) ↔
      NoTieY d (θ + turnSum ((MOVES ch).drop s))
        ((MOVES ch).take s ++ (MOVES ch).drop s) := by
    rw [List.take_append_drop]
  rw [hfull, NoTieY_append]
  have hts : turnSum ((MOVES ch).drop s) + turnSum ((MOVES ch).take s) =
      turnSum (MOVES ch) := by
    rw [add_comm, ← turnSum_append, List.take_append_drop]
  rcases turnSum_MOVES ch with h | h
  · rw [show θ + turnSum ((MOVES ch).drop s) + turnSum ((MOVES ch).take s) =
        θ + -(2 * π) from by rw [add_assoc, hts, h]]
    rw [NoTieY_sub_two_pi]
    tauto
  · rw [show θ + turnSum ((MOVES ch).drop s) + turnSum ((MOVES ch).take s) =
        θ + 2 * π from by rw [add_assoc, hts, h]]
    rw [NoTieY_add_two_pi]
    tauto

theorem dispX_rot_zero (d : DistClass → ℝ) (ch : Chirality) (s : ℕ)
    (θ : ℝ) (hd : d .FS = 2 * d .HS) : dispX d θ (rotatedMoves ch s) = 0 := by
  rw [dispX_rot]
  cases ch
  · exact dispX_LEFT_zero _ _ hd
  · exact dispX_RIGHT_zero _ _ hd

theorem dispY_rot_zero (d : DistClass → ℝ) (ch : Chirality) (s : ℕ)
    (θ : ℝ) (hd : d .FS = 2 * d .HS) : dispY d θ (rotatedMoves ch s) = 0 := by
  rw [dispY_rot]
  cases ch
  · exact dispY_LEFT_zero _ _ hd
  · exact dispY_RIGHT_zero _ _ hd

theorem errSumX_rot_bound (d : DistClass → ℝ) (ch : Chirality) (s : ℕ)
    (θ : ℝ) (hd : d .FS = 2 * d .HS)
    (ht : NoTieX d θ (rotatedMoves ch s)) :
    |errSumX d θ (rotatedMoves ch s)| ≤ 3 / 2000000 := by
  rw [errSumX_rot]
  have ht2 := (NoTieX_rot d ch s θ).mp ht
  cases ch
  · exact errSumX_LEFT_bound _ _ hd ht2
  · exact errSumX_RIGHT_bound _ _ hd ht2

theorem errSumY_rot_bound (d : DistClass → ℝ) (ch : Chirality) (s : ℕ)
    (θ : ℝ) (hd : d .FS = 2 * d .HS)
    (ht : NoTieY d θ (rotatedMoves ch s)) :
    |errSumY d θ (rotatedMoves ch s)| ≤ 3 / 2000000 := by
  rw [errSumY_rot]
  have ht2 := (NoTieY_rot d ch s θ).mp ht
  cases ch
  · exact errSumY_LEFT_bound _ _ hd ht2
  · exact errSumY_RIGHT_bound _ _ hd ht2

theorem tracePts_mem_grid (d : DistClass → ℝ) (st : Pt × ℝ) (ms : List Move)
    (p : Pt) (hp : p ∈ tracePts d st ms) : Grid p.1 ∧ Grid p.2 := by
  induction ms generalizing st with
  | nil => simp [tracePts] at hp
  | cons m ms ih =>
    rw [tracePts_cons] at hp
    rcases List.mem_cons.mp hp with h1 | h2
    · subst h1
      exact ⟨Grid_round6 _, Grid_round6 _⟩
    · exact ih _ h2


theorem abs_le_of_sq_le_sq {x B : ℝ} (h : x ^ 2 ≤ B ^ 2) (hB : 0 ≤ B) :
    |x| ≤ B := by
  rw [← Real.sqrt_sq_eq_abs]
  calc Real.sqrt (x ^ 2) ≤ Real.sqrt (B ^ 2) := Real.sqrt_le_sqrt h
  _ = B := Real.sqrt_sq hB

theorem dist_perturb (P Q : Pt) (vx vy dv B : ℝ) (hd : 0 ≤ dv)
    (hv : vx ^ 2 + vy ^ 2 = dv ^ 2) (hB : 0 ≤ B)
    (hsq : (Q.1 - P.1 - vx) ^ 2 + (Q.2 - P.2 - vy) ^ 2 ≤ B ^ 2) :
    |dist P Q - dv| ≤ B := by
  have hz : dist P Q = Complex.abs ⟨Q.1 - P.1, Q.2 - P.2⟩ := by
    rw [Complex.abs_apply, Complex.normSq_mk]
    unfold dist
    congr 1
    ring
  have hw : dv = Complex.abs ⟨vx, vy⟩ := by
    rw [Complex.abs_apply, Complex.normSq_mk]
    rw [show vx * vx + vy * vy = dv ^ 2 by rw [← hv]; ring]
    exact (Real.sqrt_sq hd).symm
  have hsub : ((⟨Q.1 - P.1, Q.2 - P.2⟩ : ℂ) - ⟨vx, vy⟩) =
      ⟨Q.1 - P.1 - vx, Q.2 - P.2 - vy⟩ := by
    apply Complex.ext <;> simp
  have habs : Complex.abs ((⟨Q.1 - P.1, Q.2 - P.2⟩ : ℂ) - ⟨vx, vy⟩) ≤ B := by
    rw [hsub, Complex.abs_apply, Complex.normSq_mk]
    rw [show (Q.1 - P.1 - vx) * (Q.1 - P.1 - vx) +
        (Q.2 - P.2 - vy) * (Q.2 - P.2 - vy) =
        (Q.1 - P.1 - vx) ^ 2 + (Q.2 - P.2 - vy) ^ 2 by ring]
    calc Real.sqrt ((Q.1 - P.1 - vx) ^ 2 + (Q.2 - P.2 - vy) ^ 2) ≤
        Real.sqrt (B ^ 2) := Real.sqrt_le_sqrt hsq
    _ = B := Real.sqrt_sq hB
  calc |dist P Q - dv| =
      |Complex.abs ⟨Q.1 - P.1, Q.2 - P.2⟩ - Complex.abs ⟨vx, vy⟩| := by
        rw [hz, hw]
  _ ≤ Complex.abs ((⟨Q.1 - P.1, Q.2 - P.2⟩ : ℂ) - ⟨vx, vy⟩) :=
      Complex.abs.abs_abv_sub_le_abv_sub _ _
  _ ≤ B := habs

theorem dist_swap (P Q : Pt) : dist P Q = dist Q P := by
  unfold dist
  congr 1
  ring

theorem grid_abs_le_one {z : ℝ} (hz : Grid z) (h : |z| ≤ 3 / 2000000) :
    |z| ≤ 1 / 1000000 := by
  obtain ⟨m, hm⟩ := hz
  subst hm
  rw [abs_div, show |(1000000 : ℝ)| = 1000000 by norm_num] at h ⊢
  have hm32 : |(m : ℝ)| ≤ 3 / 2 := by
    rw [div_le_div_iff (by norm_num) (by norm_num)] at h
    linarith
  have hcast : ((|m| : ℤ) : ℝ) ≤ 3 / 2 := by rwa [Int.cast_abs]
  have hint : |m| ≤ 1 := by
    by_contra hcon
    push_neg at hcon
    have h2 : ((2 : ℤ) : ℝ) ≤ ((|m| : ℤ) : ℝ) := by exact_mod_cast hcon
    norm_num at h2
    linarith
  have hone : |(m : ℝ)| ≤ 1 := by
    rw [← Int.cast_abs]
    exact_mod_cast hint
  rw [div_le_div_iff (by norm_num) (by norm_num)]
  linarith

theorem grid_abs_le_two {z : ℝ} (hz : Grid z) (h : |z| < 3 / 1000000) :
    |z| ≤ 2 / 1000000 := by
  obtain ⟨m, hm⟩ := hz
  subst hm
  rw [abs_div, show |(1000000 : ℝ)| = 1000000 by norm_num] at h ⊢
  have hm3 : |(m : ℝ)| < 3 := by
    rw [div_lt_div_iff (by norm_num) (by norm_num)] at h
    linarith
  have hcast : ((|m| : ℤ) : ℝ) < 3 := by rwa [Int.cast_abs]
  have hint : |m| ≤ 2 := by
    by_contra hcon
    push_neg at hcon
    have h2 : ((3 : ℤ) : ℝ) ≤ ((|m| : ℤ) : ℝ) := by exact_mod_cast hcon
    norm_num at h2
    linarith
  have htwo : |(m : ℝ)| ≤ 2 := by
    rw [← Int.cast_abs]
    exact_mod_cast hint
  rw [div_le_div_iff (by norm_num) (by norm_num)]
  linarith

theorem round6_abs_le (v : ℝ) : |round6 v| ≤ |v| + 1 / 2000000 := by
  have h := abs_errOf v
  have herr : round6 v = v + errOf v := by
    unfold errOf
    ring
  calc |round6 v| = |v + errOf v| := by rw [herr]
  _ ≤ |v| + |errOf v| := abs_add _ _
  _ ≤ |v| + 1 / 2000000 := by linarith

theorem stAfter_grid (d : DistClass → ℝ) (st : Pt × ℝ) (l : List Move)
    (hx : Grid st.1.1) (hy : Grid st.1.2) :
    Grid (stAfter d st l).1.1 ∧ Grid (stAfter d st l).1.2 := by
  induction l generalizing st with
  | nil => exact ⟨hx, hy⟩
  | cons m ms ih =>
    rw [stAfter_cons]
    exact ih _ (Grid_round6 _) (Grid_round6 _)

theorem stAfter_take_succ (d : DistClass → ℝ) (st : Pt × ℝ) (l : List Move)
    (j : ℕ) (hj : j < l.length) :
    stAfter d st (l.take (j + 1)) =
      traceStep d (stAfter d st (l.take j)) (l.getD j ⟨.L, 60, .HS⟩) := by
  rw [List.take_succ, List.getElem?_eq_getElem hj, stAfter_append]
  rw [List.getD_eq_getElem?_getD, List.getElem?_eq_getElem hj, Option.getD_some]
  rfl

theorem rotatedMoves_getD (ch : Chirality) (s j : ℕ) (df : Move)
    (hs : s < 13) (hj : j < 13) :
    (rotatedMoves ch s).getD j df = (MOVES ch).getD ((j + s) % 13) df := by
  unfold rotatedMoves
  rw [List.getD_eq_getElem?_getD, List.getD_eq_getElem?_getD,
    List.getElem?_append, List.length_drop, MOVES_length]
  by_cases hjs : j < 13 - s
  · rw [if_pos hjs, List.getElem?_drop]
    rw [show (j + s) % 13 = s + j by omega]
  · rw [if_neg hjs, List.getElem?_take_of_lt (by omega)]
    rw [show (j + s) % 13 = j - (13 - s) by omega]

theorem stAfter_closure (d : DistClass → ℝ) (ch : Chirality) (s : ℕ)
    (st : Pt × ℝ) (hd : d .FS = 2 * d .HS) (hgx : Grid st.1.1)
    (hgy : Grid st.1.2) (hntx : NoTieX d st.2 (rotatedMoves ch s))
    (hnty : NoTieY d st.2 (rotatedMoves ch s)) :
    |(stAfter d st (rotatedMoves ch s)).1.1 - st.1.1| ≤ 1 / 1000000 ∧
    |(stAfter d st (rotatedMoves ch s)).1.2 - st.1.2| ≤ 1 / 1000000 := by
  obtain ⟨hx, hy⟩ := stAfter_decompose d st (rotatedMoves ch s) hgx hgy
  rw [dispX_rot_zero d ch s st.2 hd] at hx
  rw [dispY_rot_zero d ch s st.2 hd] at hy
  have hbx := errSumX_rot_bound d ch s st.2 hd hntx
  have hby := errSumY_rot_bound d ch s st.2 hd hnty
  obtain ⟨hgx2, hgy2⟩ := stAfter_grid d st (rotatedMoves ch s) hgx hgy
  constructor
  · apply grid_abs_le_one (Grid_sub hgx2 hgx)
    rw [hx, show st.1.1 + 0 + errSumX d st.2 (rotatedMoves ch s) - st.1.1 =
      errSumX d st.2 (rotatedMoves ch s) by ring]
    exact hbx
  · apply grid_abs_le_one (Grid_sub hgy2 hgy)
    rw [hy, show st.1.2 + 0 + errSumY d st.2 (rotatedMoves ch s) - st.1.2 =
      errSumY d st.2 (rotatedMoves ch s) by ring]
    exact hby

theorem traceFrom_getD_grid (d : DistClass → ℝ) (ch : Chirality) (sA k : ℕ)
    (p0 : Pt) (a0 : ℝ) (hsA : sA < 13) (hk : k < 13) :
    Grid ((traceFrom d ch sA p0 a0).getD k (0, 0)).1 ∧
    Grid ((traceFrom d ch sA p0 a0).getD k (0, 0)).2 := by
  unfold traceFrom
  have hlen : (tracePts d (p0, a0) (rotatedMoves ch sA)).length = 13 := by
    rw [tracePts_length, rotatedMoves_length ch sA (le_of_lt hsA)]
  rw [rearrange_getD _ _ _ _ hlen hsA hk]
  have hjlt : ((((k : ℤ) - sA) % 13)).toNat <
      (tracePts d (p0, a0) (rotatedMoves ch sA)).length := by omega
  rw [List.getD_eq_getElem?_getD, List.getElem?_eq_getElem hjlt,
    Option.getD_some]
  exact tracePts_mem_grid _ _ _ _ (List.getElem_mem hjlt)


theorem traceStep_x (d : DistClass → ℝ) (st : Pt × ℝ) (m : Move) :
    (traceStep d st m).1.1 = round6 (st.1.1 + d m.d * Real.cos st.2) := rfl

theorem traceStep_y (d : DistClass → ℝ) (st : Pt × ℝ) (m : Move) :
    (traceStep d st m).1.2 = round6 (st.1.2 + d m.d * Real.sin st.2) := rfl

theorem trace_edge_approx (d : DistClass → ℝ) (ch : Chirality) (sA : ℕ)
    (p0 : Pt) (a0 : ℝ) (m : ℕ) (hsA : sA < 13) (hm : m < 13)
    (hd : d .FS = 2 * d .HS) (hgx : Grid p0.1) (hgy : Grid p0.2)
    (hntx : NoTieX d a0 (rotatedMoves ch sA))
    (hnty : NoTieY d a0 (rotatedMoves ch sA)) :
    ∃ φ,
      |((traceFrom d ch sA p0 a0).getD m (0, 0)).1 -
        ((traceFrom d ch sA p0 a0).getD (prevIdx m) (0, 0)).1 -
        d (edgeClass ch m) * Real.cos φ| ≤ 3 / 2000000 ∧
      |((traceFrom d ch sA p0 a0).getD m (0, 0)).2 -
        ((traceFrom d ch sA p0 a0).getD (prevIdx m) (0, 0)).2 -
        d (edgeClass ch m) * Real.sin φ| ≤ 3 / 2000000 := by
  have hlen : (tracePts d (p0, a0) (rotatedMoves ch sA)).length = 13 := by
    rw [tracePts_length, rotatedMoves_length ch sA (le_of_lt hsA)]
  have hrlen : (rotatedMoves ch sA).length = 13 :=
    rotatedMoves_length ch sA (le_of_lt hsA)
  have hprev : prevIdx m < 13 := by simp only [prevIdx]; omega
  unfold traceFrom
  rw [rearrange_getD _ _ _ _ hlen hsA hm, rearrange_getD _ _ _ _ hlen hsA hprev]
  set jE := ((((m : ℤ) - sA) % 13)).toNat with hjE
  set jS := ((((prevIdx m : ℤ) - sA) % 13)).toNat with hjS
  have hjE13 : jE < 13 := by omega
  have hjS13 : jS < 13 := by simp only [prevIdx] at hjS; omega
  rw [tracePts_getD_eq_stAfter d _ _ jE (by omega),
    tracePts_getD_eq_stAfter d _ _ jS (by omega)]
  have hmv : (rotatedMoves ch sA).getD jE ⟨.L, 60, .HS⟩ =
      (MOVES ch).getD m ⟨.L, 60, .HS⟩ := by
    rw [rotatedMoves_getD ch sA jE _ hsA hjE13]
    rw [show (jE + sA) % 13 = m by omega]
  by_cases hseam : jE = 0
  · have hjS12 : jS = 12 := by simp only [prevIdx] at hjS; omega
    rw [hseam, hjS12]
    rw [show (12 : ℕ) + 1 = 13 from rfl]
    rw [show (rotatedMoves ch sA).take 13 = rotatedMoves ch sA by
      rw [show (13 : ℕ) = (rotatedMoves ch sA).length from
        (rotatedMoves_length ch sA (le_of_lt hsA)).symm, List.take_length]]
    rw [stAfter_take_succ d _ _ 0 (by omega), List.take_zero, stAfter_nil]
    rw [hseam] at hmv
    rw [hmv]
    have hcl := stAfter_closure d ch sA (p0, a0) hd hgx hgy hntx hnty
    refine ⟨a0, ?_, ?_⟩
    · rw [show (traceStep d (p0, a0)
          ((MOVES ch).getD m ⟨.L, 60, .HS⟩)).1.1 =
          round6 (p0.1 + d (edgeClass ch m) * Real.cos a0) from rfl]
      rw [round6_grid_add _ hgx]
      have herr := abs_errOf (d (edgeClass ch m) * Real.cos a0)
      unfold errOf at herr
      rw [show p0.1 + round6 (d (edgeClass ch m) * Real.cos a0) -
          (stAfter d (p0, a0) (rotatedMoves ch sA)).1.1 -
          d (edgeClass ch m) * Real.cos a0 =
          (round6 (d (edgeClass ch m) * Real.cos a0) -
            d (edgeClass ch m) * Real.cos a0) -
          ((stAfter d (p0, a0) (rotatedMoves ch sA)).1.1 - p0.1) by ring]
      have h1 := hcl.1
      calc |(round6 (d (edgeClass ch m) * Real.cos a0) -
            d (edgeClass ch m) * Real.cos a0) -
          ((stAfter d (p0, a0) (rotatedMoves ch sA)).1.1 - p0.1)| ≤
          |round6 (d (edgeClass ch m) * Real.cos a0) -
            d (edgeClass ch m) * Real.cos a0| +
          |(stAfter d (p0, a0) (rotatedMoves ch sA)).1.1 - p0.1| :=
        abs_sub _ _
      _ ≤ 3 / 2000000 := by linarith
    · rw [show (traceStep d (p0, a0)
          ((MOVES ch).getD m ⟨.L, 60, .HS⟩)).1.2 =
          round6 (p0.2 + d (edgeClass ch m) * Real.sin a0) from rfl]
      rw [round6_grid_add _ hgy]
      have herr := abs_errOf (d (edgeClass ch m) * Real.sin a0)
      unfold errOf at herr
      rw [show p0.2 + round6 (d (edgeClass ch m) * Real.sin a0) -
          (stAfter d (p0, a0) (rotatedMoves ch sA)).1.2 -
          d (edgeClass ch m) * Real.sin a0 =
          (round6 (d (edgeClass ch m) * Real.sin a0) -
            d (edgeClass ch m) * Real.sin a0) -
          ((stAfter d (p0, a0) (rotatedMoves ch sA)).1.2 - p0.2) by ring]
      have h2 := hcl.2
      calc |(round6 (d (edgeClass ch m) * Real.sin a0) -
            d (edgeClass ch m) * Real.sin a0) -
          ((stAfter d (p0, a0) (rotatedMoves ch sA)).1.2 - p0.2)| ≤
          |round6 (d (edgeClass ch m) * Real.sin a0) -
            d (edgeClass ch m) * Real.sin a0| +
          |(stAfter d (p0, a0) (rotatedMoves ch sA)).1.2 - p0.2| :=
        abs_sub _ _
      _ ≤ 3 / 2000000 := by linarith
  · have hjSE : jS = jE - 1 := by simp only [prevIdx] at hjS; omega
    rw [hjSE, show jE - 1 + 1 = jE by omega]
    rw [stAfter_take_succ d _ _ jE (by omega), hmv]
    set stS := stAfter d (p0, a0) ((rotatedMoves ch sA).take jE) with hstS
    obtain ⟨hgSx, hgSy⟩ := stAfter_grid d (p0, a0)
      ((rotatedMoves ch sA).take jE) hgx hgy
    rw [← hstS] at hgSx hgSy
    refine ⟨stS.2, ?_, ?_⟩
    · rw [show (traceStep d stS ((MOVES ch).getD m ⟨.L, 60, .HS⟩)).1.1 =
          round6 (stS.1.1 + d (edgeClass ch m) * Real.cos stS.2) from rfl]
      rw [round6_grid_add _ hgSx]
      have herr := abs_errOf (d (edgeClass ch m) * Real.cos stS.2)
      unfold errOf at herr
      rw [show stS.1.1 + round6 (d (edgeClass ch m) * Real.cos stS.2) -
          stS.1.1 - d (edgeClass ch m) * Real.cos stS.2 =
          round6 (d (edgeClass ch m) * Real.cos stS.2) -
            d (edgeClass ch m) * Real.cos stS.2 by ring]
      linarith
    · rw [show (traceStep d stS ((MOVES ch).getD m ⟨.L, 60, .HS⟩)).1.2 =
          round6 (stS.1.2 + d (edgeClass ch m) * Real.sin stS.2) from rfl]
      rw [round6_grid_add _ hgSy]
      have herr := abs_errOf (d (edgeClass ch m) * Real.sin stS.2)
      unfold errOf at herr
      rw [show stS.1.2 + round6 (d (edgeClass ch m) * Real.sin stS.2) -
          stS.1.2 - d (edgeClass ch m) * Real.sin stS.2 =
          round6 (d (edgeClass ch m) * Real.sin stS.2) -
            d (edgeClass ch m) * Real.sin stS.2 by ring]
      linarith


theorem placed_edge_dist (d : DistClass → ℝ) (ch : Chirality) (sA : ℕ)
    (p0 : Pt) (a0 : ℝ) (m : ℕ) (hsA : sA < 13) (hm : m < 13)
    (hd : d .FS = 2 * d .HS) (hgx : Grid p0.1) (hgy : Grid p0.2)
    (hntx : NoTieX d a0 (rotatedMoves ch sA))
    (hnty : NoTieY d a0 (rotatedMoves ch sA))
    (hd0 : 0 ≤ d (edgeClass ch m)) :
    |dist ((traceFrom d ch sA p0 a0).getD (prevIdx m) (0, 0))
        ((traceFrom d ch sA p0 a0).getD m (0, 0)) -
      d (edgeClass ch m)| ≤ 21214 / 10000000000 := by
  obtain ⟨φ, hX, hY⟩ :=
    trace_edge_approx d ch sA p0 a0 m hsA hm hd hgx hgy hntx hnty
  apply dist_perturb _ _ (d (edgeClass ch m) * Real.cos φ)
    (d (edgeClass ch m) * Real.sin φ) _ _ hd0
  · have hpy := Real.sin_sq_add_cos_sq φ
    nlinarith [hpy]
  · norm_num
  · have h1 : (((traceFrom d ch sA p0 a0).getD m (0, 0)).1 -
        ((traceFrom d ch sA p0 a0).getD (prevIdx m) (0, 0)).1 -
        d (edgeClass ch m) * Real.cos φ) ^ 2 ≤ (3 / 2000000) ^ 2 := by
      have hp := abs_le.mp hX
      nlinarith [hp.1, hp.2]
    have h2 : (((traceFrom d ch sA p0 a0).getD m (0, 0)).2 -
        ((traceFrom d ch sA p0 a0).getD (prevIdx m) (0, 0)).2 -
        d (edgeClass ch m) * Real.sin φ) ^ 2 ≤ (3 / 2000000) ^ 2 := by
      have hp := abs_le.mp hY
      nlinarith [hp.1, hp.2]
    have hnum : (3 / 2000000 : ℝ) ^ 2 + (3 / 2000000) ^ 2 ≤
        (21214 / 10000000000) ^ 2 := by norm_num
    linarith

theorem first_step_bound (d : DistClass → ℝ) (chB : Chirality) (sB : ℕ)
    (P T : Pt) (θ dA : ℝ) (hs13 : sB < 13)
    (hgP1 : Grid P.1) (hgT1 : Grid T.1) (hgT2 : Grid T.2)
    (hga : get_angle P T = .ok θ)
    (hdB : d (edgeClass chB sB) = dA)
    (hdist : |dist P T - dA| ≤ 21214 / 10000000000) :
    |((traceFrom d chB sB P θ).getD sB (0, 0)).1 - T.1| ≤ 2 / 1000000 ∧
    |((traceFrom d chB sB P θ).getD sB (0, 0)).2 - T.2| ≤ 2 / 1000000 := by
  have hlen : (tracePts d (P, θ) (rotatedMoves chB sB)).length = 13 := by
    rw [tracePts_length, rotatedMoves_length chB sB (le_of_lt hs13)]
  have hrlen : (rotatedMoves chB sB).length = 13 :=
    rotatedMoves_length chB sB (le_of_lt hs13)
  unfold traceFrom
  rw [rearrange_getD _ _ _ _ hlen hs13 hs13]
  rw [show ((((sB : ℤ) - sB) % 13)).toNat = 0 by omega]
  rw [tracePts_getD_eq_stAfter d _ _ 0 (by omega)]
  rw [stAfter_take_succ d _ _ 0 (by omega), List.take_zero, stAfter_nil]
  rw [rotatedMoves_getD chB sB 0 _ hs13 (by norm_num)]
  rw [show (0 + sB) % 13 = sB by omega]
  obtain ⟨hcos, hsin⟩ := get_angle_direction hgP1 hgT1 hga
  have hDpos := dist_pos_of_get_angle_ok hga
  have hDsq : dist P T ^ 2 = (T.2 - P.2) ^ 2 + (T.1 - P.1) ^ 2 := dist_sq
  have hxabs : |T.1 - P.1| ≤ dist P T :=
    abs_le_of_sq_le_sq (by nlinarith [sq_nonneg (T.2 - P.2)])
      (le_of_lt hDpos)
  have hyabs : |T.2 - P.2| ≤ dist P T :=
    abs_le_of_sq_le_sq (by nlinarith [sq_nonneg (T.1 - P.1)])
      (le_of_lt hDpos)
  have hdsym : |dA - dist P T| ≤ 21214 / 10000000000 := by
    rw [abs_sub_comm]
    exact hdist
  constructor
  · rw [show (traceStep d (P, θ) ((MOVES chB).getD sB ⟨.L, 60, .HS⟩)).1.1 =
        round6 (P.1 + d (edgeClass chB sB) * Real.cos θ) from rfl]
    rw [hdB]
    have hw1eq : P.1 + dA * Real.cos θ =
        T.1 + (dA - dist P T) * ((T.1 - P.1) / dist P T) := by
      rw [hcos]
      field_simp
      ring
    rw [hw1eq, round6_grid_add _ hgT1]
    rw [show T.1 + round6 ((dA - dist P T) * ((T.1 - P.1) / dist P T)) -
        T.1 = round6 ((dA - dist P T) * ((T.1 - P.1) / dist P T)) by ring]
    apply grid_abs_le_two (Grid_round6 _)
    have hq : |(dA - dist P T) * ((T.1 - P.1) / dist P T)| ≤
        21214 / 10000000000 := by
      rw [abs_mul]
      have h2 : |(T.1 - P.1) / dist P T| ≤ 1 := by
        rw [abs_div, abs_of_pos hDpos, div_le_one hDpos]
        exact hxabs
      calc |dA - dist P T| * |(T.1 - P.1) / dist P T| ≤
          |dA - dist P T| * 1 :=
        mul_le_mul_of_nonneg_left h2 (abs_nonneg _)
      _ = |dA - dist P T| := mul_one _
      _ ≤ 21214 / 10000000000 := hdsym
    calc |round6 ((dA - dist P T) * ((T.1 - P.1) / dist P T))| ≤
        |(dA - dist P T) * ((T.1 - P.1) / dist P T)| + 1 / 2000000 :=
      round6_abs_le _
    _ < 3 / 1000000 := by linarith
  · rw [show (traceStep d (P, θ) ((MOVES chB).getD sB ⟨.L, 60, .HS⟩)).1.2 =
        round6 (P.2 + d (edgeClass chB sB) * Real.sin θ) from rfl]
    rw [hdB]
    have hw2eq : P.2 + dA * Real.sin θ =
        T.2 + (dA - dist P T) * ((T.2 - P.2) / dist P T) := by
      rw [hsin]
      field_simp
      ring
    rw [hw2eq, round6_grid_add _ hgT2]
    rw [show T.2 + round6 ((dA - dist P T) * ((T.2 - P.2) / dist P T)) -
        T.2 = round6 ((dA - dist P T) * ((T.2 - P.2) / dist P T)) by ring]
    apply grid_abs_le_two (Grid_round6 _)
    have hq : |(dA - dist P T) * ((T.2 - P.2) / dist P T)| ≤
        21214 / 10000000000 := by
      rw [abs_mul]
      have h2 : |(T.2 - P.2) / dist P T| ≤ 1 := by
        rw [abs_div, abs_of_pos hDpos, div_le_one hDpos]
        exact hyabs
      calc |dA - dist P T| * |(T.2 - P.2) / dist P T| ≤
          |dA - dist P T| * 1 :=
        mul_le_mul_of_nonneg_left h2 (abs_nonneg _)
      _ = |dA - dist P T| := mul_one _
      _ ≤ 21214 / 10000000000 := hdsym
    calc |round6 ((dA - dist P T) * ((T.2 - P.2) / dist P T))| ≤
        |(dA - dist P T) * ((T.2 - P.2) / dist P T)| + 1 / 2000000 :=
      round6_abs_le _
    _ < 3 / 1000000 := by linarith

theorem last_point_bound (d : DistClass → ℝ) (chB : Chirality) (sB : ℕ)
    (P : Pt) (θ : ℝ) (hs13 : sB < 13) (hd : d .FS = 2 * d .HS)
    (hgP1 : Grid P.1) (hgP2 : Grid P.2)
    (hntx : NoTieX d θ (rotatedMoves chB sB))
    (hnty : NoTieY d θ (rotatedMoves chB sB)) :
    |((traceFrom d chB sB P θ).getD (prevIdx sB) (0, 0)).1 - P.1| ≤
      2 / 1000000 ∧
    |((traceFrom d chB sB P θ).getD (prevIdx sB) (0, 0)).2 - P.2| ≤
      2 / 1000000 := by
  have hlen : (tracePts d (P, θ) (rotatedMoves chB sB)).length = 13 := by
    rw [tracePts_length, rotatedMoves_length chB sB (le_of_lt hs13)]
  have hrlen : (rotatedMoves chB sB).length = 13 :=
    rotatedMoves_length chB sB (le_of_lt hs13)
  have hprev : prevIdx sB < 13 := by simp only [prevIdx]; omega
  unfold traceFrom
  rw [rearrange_getD _ _ _ _ hlen hs13 hprev]
  rw [show ((((prevIdx sB : ℤ) - sB) % 13)).toNat = 12 by
    simp only [prevIdx]; omega]
  rw [tracePts_getD_eq_stAfter d _ _ 12 (by omega)]
  rw [show (12 : ℕ) + 1 = 13 from rfl]
  rw [show (rotatedMoves chB sB).take 13 = rotatedMoves chB sB by
    rw [show (13 : ℕ) = (rotatedMoves chB sB).length from hrlen.symm,
      List.take_length]]
  have hcl := stAfter_closure d chB sB (P, θ) hd hgP1 hgP2 hntx hnty
  exact ⟨le_trans hcl.1 (by norm_num), le_trans hcl.2 (by norm_num)⟩


/-- C1 (amended): edge congruence holds with tolerance 2e-6 rather than
1e-6.  For every tile `B` inserted into a store with a match reference to
an already-placed tile `A` (same store, same shape parameters, the
matched edge's resolved length nonnegative and equal to the resolved
length of `B`'s starting edge, and no tracing increment of either tile on
a rounding tie), the two endpoint coordinates of the matched edge in
`A`'s vertex array equal, within 2e-6 in each coordinate, the two
endpoint coordinates of `B`'s starting edge in `B`'s vertex array — in
reversed order when `A` and `B` have the same chirality, and in the same
order when their chiralities differ.  The bound 2e-6 is attained (see the
companion counterexample), so the spec's 1e-6 is too tight. -/
theorem edge_congruence_within_two_millionths
    (a : AllTiles) (chB : Chirality) (se me mid : String)
    (A : HatFamilyTile) (m sB : ℕ) (ptsB : List Pt)
    (hlk : a.tiles.lookup mid = some A)
    (hpl : Placed a.dists A.chirality A.user_points)
    (hm : listIndex (EDGES A.chirality) me = .ok m)
    (hse : listIndex (EDGES chB) se = .ok sB)
    (hd0 : 0 ≤ a.dists (edgeClass A.chirality m))
    (hlen : a.dists (edgeClass chB sB) = a.dists (edgeClass A.chirality m))
    (hnt : ∀ p0 θ, resolveStart a chB (some me) (some mid) = .ok (p0, θ) →
      NoTieX a.dists θ (rotatedMoves chB sB) ∧
      NoTieY a.dists θ (rotatedMoves chB sB))
    (hok : set_user_points a chB se (some me) (some mid) = .ok ptsB) :
    (chB = A.chirality →
      |(ptsB.getD sB (0, 0)).1 -
        (A.user_points.getD (prevIdx m) (0, 0)).1| ≤ 2 / 1000000 ∧
      |(ptsB.getD sB (0, 0)).2 -
        (A.user_points.getD (prevIdx m) (0, 0)).2| ≤ 2 / 1000000 ∧
      |(ptsB.getD (prevIdx sB) (0, 0)).1 -
        (A.user_points.getD m (0, 0)).1| ≤ 2 / 1000000 ∧
      |(ptsB.getD (prevIdx sB) (0, 0)).2 -
        (A.user_points.getD m (0, 0)).2| ≤ 2 / 1000000) ∧
    (chB ≠ A.chirality →
      |(ptsB.getD (prevIdx sB) (0, 0)).1 -
        (A.user_points.getD (prevIdx m) (0, 0)).1| ≤ 2 / 1000000 ∧
      |(ptsB.getD (prevIdx sB) (0, 0)).2 -
        (A.user_points.getD (prevIdx m) (0, 0)).2| ≤ 2 / 1000000 ∧
      |(ptsB.getD sB (0, 0)).1 -
        (A.user_points.getD m (0, 0)).1| ≤ 2 / 1000000 ∧
      |(ptsB.getD sB (0, 0)).2 -
        (A.user_points.getD m (0, 0)).2| ≤ 2 / 1000000) := by
  have hm13 : m < 13 := by
    have h := listIndex_ok_lt hm
    rwa [EDGES_length] at h
  have hs13 : sB < 13 := by
    have h := listIndex_ok_lt hse
    rwa [EDGES_length] at h
  obtain ⟨p0A, a0A, sA, hsA13, hgAx, hgAy, hntAx, hntAy, hAeq⟩ := hpl
  have hdFS : a.dists .FS = 2 * a.dists .HS := by
    show a.scaling * 2 * a.tile_param1 = 2 * (a.scaling * a.tile_param1)
    ring
  have hgE := traceFrom_getD_grid a.dists A.chirality sA m p0A a0A hsA13 hm13
  have hgS := traceFrom_getD_grid a.dists A.chirality sA (prevIdx m) p0A a0A
    hsA13 (by simp only [prevIdx]; omega)
  rw [← hAeq] at hgE hgS
  have hdist := placed_edge_dist a.dists A.chirality sA p0A a0A m hsA13 hm13
    hdFS hgAx hgAy hntAx hntAy hd0
  rw [← hAeq] at hdist
  by_cases hch : chB = A.chirality
  · cases hga : get_angle (A.user_points.getD m (0, 0))
        (A.user_points.getD (prevIdx m) (0, 0)) with
    | error e =>
      have hres : resolveStart a chB (some me) (some mid) = .error e := by
        unfold resolveStart
        simp only [Option.getD_some, hlk, hm, if_pos hch]
        exact hga ▸ rfl
      unfold set_user_points at hok
      rw [hres] at hok
      exact absurd hok (by simp)
    | ok θ =>
      have hres : resolveStart a chB (some me) (some mid) =
          .ok (A.user_points.getD m (0, 0), θ) := by
        unfold resolveStart
        simp only [Option.getD_some, hlk, hm, if_pos hch]
        exact hga ▸ rfl
      unfold set_user_points at hok
      rw [hres, hse] at hok
      dsimp only at hok
      have hpts : ptsB = traceFrom a.dists chB sB
          (A.user_points.getD m (0, 0)) θ := by
        cases hok
        rfl
      obtain ⟨hntBx, hntBy⟩ := hnt _ _ hres
      have hdistES : |dist (A.user_points.getD m (0, 0))
          (A.user_points.getD (prevIdx m) (0, 0)) -
          a.dists (edgeClass A.chirality m)| ≤ 21214 / 10000000000 := by
        rw [dist_swap]
        exact hdist
      have hfs := first_step_bound a.dists chB sB
        (A.user_points.getD m (0, 0))
        (A.user_points.getD (prevIdx m) (0, 0)) θ
        (a.dists (edgeClass A.chirality m)) hs13 hgE.1 hgS.1 hgS.2 hga hlen
        hdistES
      have hlp := last_point_bound a.dists chB sB
        (A.user_points.getD m (0, 0)) θ hs13 hdFS hgE.1 hgE.2 hntBx hntBy
      rw [← hpts] at hfs hlp
      exact ⟨fun _ => ⟨hfs.1, hfs.2, hlp.1, hlp.2⟩, fun hne => absurd hch hne⟩
  · cases hga : get_angle (A.user_points.getD (prevIdx m) (0, 0))
        (A.user_points.getD m (0, 0)) with
    | error e =>
      have hres : resolveStart a chB (some me) (some mid) = .error e := by
        unfold resolveStart
        simp only [Option.getD_some, hlk, hm, if_neg hch]
        exact hga ▸ rfl
      unfold set_user_points at hok
      rw [hres] at hok
      exact absurd hok (by simp)
    | ok θ =>
      have hres : resolveStart a chB (some me) (some mid) =
          .ok (A.user_points.getD (prevIdx m) (0, 0), θ) := by
        unfold resolveStart
        simp only [Option.getD_some, hlk, hm, if_neg hch]
        exact hga ▸ rfl
      unfold set_user_points at hok
      rw [hres, hse] at hok
      dsimp only at hok
      have hpts : ptsB = traceFrom a.dists chB sB
          (A.user_points.getD (prevIdx m) (0, 0)) θ := by
        cases hok
        rfl
      obtain ⟨hntBx, hntBy⟩ := hnt _ _ hres
      have hfs := first_step_bound a.dists chB sB
        (A.user_points.getD (prevIdx m) (0, 0))
        (A.user_points.getD m (0, 0)) θ
        (a.dists (edgeClass A.chirality m)) hs13 hgS.1 hgE.1 hgE.2 hga hlen
        hdist
      have hlp := last_point_bound a.dists chB sB
        (A.user_points.getD (prevIdx m) (0, 0)) θ hs13 hdFS hgS.1 hgS.2
        hntBx hntBy
      rw [← hpts] at hfs hlp
      exact ⟨fun heq => absurd heq hch,
        fun _ => ⟨hlp.1, hlp.2, hfs.1, hfs.2⟩⟩


theorem fract_ne_half_lt {x : ℝ} (M : ℤ) (h1 : (M : ℝ) ≤ x)
    (h2 : x < (M : ℝ) + 1 / 2) : Int.fract x ≠ 1 / 2 := by
  have hfl : ⌊x⌋ = M := by
    rw [Int.floor_eq_iff]
    exact ⟨h1, by push_cast; linarith⟩
  have hfr : Int.fract x = x - (M : ℝ) := by
    rw [← hfl]
    exact (Int.self_sub_floor x).symm
  rw [hfr]
  intro hc
  have hx : x = (M : ℝ) + 1 / 2 := by linarith
  linarith

theorem fract_ne_half_gt {x : ℝ} (M : ℤ) (h1 : (M : ℝ) + 1 / 2 < x)
    (h2 : x < (M : ℝ) + 1) : Int.fract x ≠ 1 / 2 := by
  have hfl : ⌊x⌋ = M := by
    rw [Int.floor_eq_iff]
    exact ⟨by linarith, by push_cast; linarith⟩
  have hfr : Int.fract x = x - (M : ℝ) := by
    rw [← hfl]
    exact (Int.self_sub_floor x).symm
  rw [hfr]
  intro hc
  have hx : x = (M : ℝ) + 1 / 2 := by linarith
  linarith

theorem cos_aC1 : Real.cos aC1 = 4 / 5 := by
  unfold aC1
  rw [Real.cos_arctan]
  rw [show (1 : ℝ) + (3 / 4) ^ 2 = (5 / 4) ^ 2 by norm_num]
  rw [Real.sqrt_sq (by norm_num : (0 : ℝ) ≤ 5 / 4)]
  norm_num

theorem sin_aC1 : Real.sin aC1 = 3 / 5 := by
  unfold aC1
  rw [Real.sin_arctan]
  rw [show (1 : ℝ) + (3 / 4) ^ 2 = (5 / 4) ^ 2 by norm_num]
  rw [Real.sqrt_sq (by norm_num : (0 : ℝ) ≤ 5 / 4)]
  norm_num

theorem cosu2 : Real.cos (2 * π / 6) = 1 / 2 := by
  rw [show (2 : ℝ) * π / 6 = π / 3 by ring, Real.cos_pi_div_three]
  all_goals norm_num

theorem sinu2 : Real.sin (2 * π / 6) = Real.sqrt 3 / 2 := by
  rw [show (2 : ℝ) * π / 6 = π / 3 by ring, Real.sin_pi_div_three]
  all_goals norm_num

theorem cosu3 : Real.cos (3 * π / 6) = 0 := by
  rw [show (3 : ℝ) * π / 6 = π / 2 by ring, Real.cos_pi_div_two]
  all_goals norm_num

theorem sinu3 : Real.sin (3 * π / 6) = 1 := by
  rw [show (3 : ℝ) * π / 6 = π / 2 by ring, Real.sin_pi_div_two]
  all_goals norm_num

theorem cosu4 : Real.cos (4 * π / 6) = -(1 / 2) := by
  rw [show (4 : ℝ) * π / 6 = π - π / 3 by ring, Real.cos_pi_sub, Real.cos_pi_div_three]
  all_goals norm_num

theorem sinu4 : Real.sin (4 * π / 6) = Real.sqrt 3 / 2 := by
  rw [show (4 : ℝ) * π / 6 = π - π / 3 by ring, Real.sin_pi_sub, Real.sin_pi_div_three]
  all_goals norm_num

theorem cosu5 : Real.cos (5 * π / 6) = -(Real.sqrt 3 / 2) := by
  rw [show (5 : ℝ) * π / 6 = π - π / 6 by ring, Real.cos_pi_sub, Real.cos_pi_div_six]
  all_goals norm_num

theorem sinu5 : Real.sin (5 * π / 6) = 1 / 2 := by
  rw [show (5 : ℝ) * π / 6 = π - π / 6 by ring, Real.sin_pi_sub, Real.sin_pi_div_six]
  all_goals norm_num

theorem cosu6 : Real.cos (6 * π / 6) = -1 := by
  rw [show (6 : ℝ) * π / 6 = π by ring, Real.cos_pi]
  all_goals norm_num

theorem sinu6 : Real.sin (6 * π / 6) = 0 := by
  rw [show (6 : ℝ) * π / 6 = π by ring, Real.sin_pi]
  all_goals norm_num

theorem cosu7 : Real.cos (7 * π / 6) = -(Real.sqrt 3 / 2) := by
  rw [show (7 : ℝ) * π / 6 = π / 6 + π by ring, Real.cos_add_pi, Real.cos_pi_div_six]
  all_goals norm_num

theorem sinu7 : Real.sin (7 * π / 6) = -(1 / 2) := by
  rw [show (7 : ℝ) * π / 6 = π / 6 + π by ring, Real.sin_add_pi, Real.sin_pi_div_six]
  all_goals norm_num

theorem cosu8 : Real.cos (8 * π / 6) = -(1 / 2) := by
  rw [show (8 : ℝ) * π / 6 = π / 3 + π by ring, Real.cos_add_pi, Real.cos_pi_div_three]
  all_goals norm_num

theorem sinu8 : Real.sin (8 * π / 6) = -(Real.sqrt 3 / 2) := by
  rw [show (8 : ℝ) * π / 6 = π / 3 + π by ring, Real.sin_add_pi, Real.sin_pi_div_three]
  all_goals norm_num

theorem cosu9 : Real.cos (9 * π / 6) = 0 := by
  rw [show (9 : ℝ) * π / 6 = π / 2 + π by ring, Real.cos_add_pi, Real.cos_pi_div_two]
  all_goals norm_num

theorem sinu9 : Real.sin (9 * π / 6) = -1 := by
  rw [show (9 : ℝ) * π / 6 = π / 2 + π by ring, Real.sin_add_pi, Real.sin_pi_div_two]
  all_goals norm_num

theorem cosu10 : Real.cos (10 * π / 6) = 1 / 2 := by
  rw [show (10 : ℝ) * π / 6 = π - π / 3 + π by ring, Real.cos_add_pi, Real.cos_pi_sub, Real.cos_pi_div_three]
  all_goals norm_num

theorem sinu10 : Real.sin (10 * π / 6) = -(Real.sqrt 3 / 2) := by
  rw [show (10 : ℝ) * π / 6 = π - π / 3 + π by ring, Real.sin_add_pi, Real.sin_pi_sub, Real.sin_pi_div_three]
  all_goals norm_num

theorem cosu11 : Real.cos (11 * π / 6) = Real.sqrt 3 / 2 := by
  rw [show (11 : ℝ) * π / 6 = -(π / 6) + 2 * π by ring, Real.cos_add_two_pi, Real.cos_neg, Real.cos_pi_div_six]
  all_goals norm_num

theorem sinu11 : Real.sin (11 * π / 6) = -(1 / 2) := by
  rw [show (11 : ℝ) * π / 6 = -(π / 6) + 2 * π by ring, Real.sin_add_two_pi, Real.sin_neg, Real.sin_pi_div_six]
  all_goals norm_num

theorem cosu12 : Real.cos (12 * π / 6) = 1 := by
  rw [show (12 : ℝ) * π / 6 = 2 * π by ring, Real.cos_two_pi]
  all_goals norm_num

theorem sinu12 : Real.sin (12 * π / 6) = 0 := by
  rw [show (12 : ℝ) * π / 6 = 2 * π by ring, Real.sin_two_pi]
  all_goals norm_num

theorem cosu13 : Real.cos (13 * π / 6) = Real.sqrt 3 / 2 := by
  rw [show (13 : ℝ) * π / 6 = π / 6 + 2 * π by ring, Real.cos_add_two_pi, Real.cos_pi_div_six]
  all_goals norm_num

theorem sinu13 : Real.sin (13 * π / 6) = 1 / 2 := by
  rw [show (13 : ℝ) * π / 6 = π / 6 + 2 * π by ring, Real.sin_add_two_pi, Real.sin_pi_div_six]
  all_goals norm_num

theorem cosu15 : Real.cos (15 * π / 6) = 0 := by
  rw [show (15 : ℝ) * π / 6 = π / 2 + 2 * π by ring, Real.cos_add_two_pi, Real.cos_pi_div_two]
  all_goals norm_num

theorem sinu15 : Real.sin (15 * π / 6) = 1 := by
  rw [show (15 : ℝ) * π / 6 = π / 2 + 2 * π by ring, Real.sin_add_two_pi, Real.sin_pi_div_two]
  all_goals norm_num


theorem storeC1_dists_HS : storeC1.dists DistClass.HS = 20038273 / 10000000 := by
  show storeC1.scaling * storeC1.tile_param1 = 20038273 / 10000000
  norm_num [storeC1]

theorem storeC1_dists_FS : storeC1.dists DistClass.FS = 20038273 / 5000000 := by
  show storeC1.scaling * 2 * storeC1.tile_param1 = 20038273 / 5000000
  norm_num [storeC1]

theorem storeC1_dists_HH : storeC1.dists DistClass.HH = 14049691 / 10000000 := by
  show storeC1.scaling * storeC1.tile_param2 = 14049691 / 10000000
  norm_num [storeC1]

theorem storeC1W_dists_HS : storeC1W.dists DistClass.HS = 1 := by
  show storeC1W.scaling * storeC1W.tile_param1 = 1
  norm_num [storeC1W]

theorem storeC1W_dists_FS : storeC1W.dists DistClass.FS = 2 := by
  show storeC1W.scaling * 2 * storeC1W.tile_param1 = 2
  norm_num [storeC1W]

theorem storeC1W_dists_HH : storeC1W.dists DistClass.HH = 1 := by
  show storeC1W.scaling * storeC1W.tile_param2 = 1
  norm_num [storeC1W]

theorem traceFrom_getD_start (d : DistClass → ℝ) (ch : Chirality) (sB : ℕ)
    (P : Pt) (θ : ℝ) (hs13 : sB < 13) :
    (traceFrom d ch sB P θ).getD sB (0, 0) =
      (round6 (P.1 + d (edgeClass ch sB) * Real.cos θ),
       round6 (P.2 + d (edgeClass ch sB) * Real.sin θ)) := by
  have hlen : (tracePts d (P, θ) (rotatedMoves ch sB)).length = 13 := by
    rw [tracePts_length, rotatedMoves_length ch sB (le_of_lt hs13)]
  have hrlen : (rotatedMoves ch sB).length = 13 :=
    rotatedMoves_length ch sB (le_of_lt hs13)
  unfold traceFrom
  rw [rearrange_getD _ _ _ _ hlen hs13 hs13]
  rw [show ((((sB : ℤ) - sB) % 13)).toNat = 0 by omega]
  rw [tracePts_getD_eq_stAfter d _ _ 0 (by omega)]
  rw [stAfter_take_succ d _ _ 0 (by omega), List.take_zero, stAfter_nil]
  rw [rotatedMoves_getD ch sB 0 _ hs13 (by norm_num)]
  rw [show (0 + sB) % 13 = sB by omega]
  rfl

set_option maxHeartbeats 3000000 in
theorem ptsC1Wtrace :
    tracePts storeC1W.dists (((0 : ℝ), (0 : ℝ)), (0 : ℝ)) (LEFT_HAT_MOVES) =
      [(1000000 / 1000000, 0 / 1000000), (1500000 / 1000000, -866025 / 1000000), (633975 / 1000000, -1366025 / 1000000), (-232050 / 1000000, -866025 / 1000000), (-732050 / 1000000, -1732050 / 1000000), (-2732050 / 1000000, -1732050 / 1000000), (-3232050 / 1000000, -866025 / 1000000), (-2366025 / 1000000, -366025 / 1000000), (-2366025 / 1000000, 633975 / 1000000), (-1366025 / 1000000, 633975 / 1000000), (-866025 / 1000000, 1500000 / 1000000), (0 / 1000000, 1000000 / 1000000), (0 / 1000000, 0 / 1000000)] := by
  have hx1 : round6 ((0 : ℝ) + storeC1W.dists DistClass.HS *
      Real.cos ((0 : ℝ))) = 1000000 / 1000000 := by
    have hv : (0 : ℝ) + storeC1W.dists DistClass.HS * Real.cos ((0 : ℝ)) =
        1 := by
      rw [storeC1W_dists_HS, Real.cos_zero]
      ring
    rw [hv, round6_eq_div (1) (1000000)
      (by push_cast; linarith [sqrt3_lb, sqrt3_ub])
      (by push_cast; linarith [sqrt3_lb, sqrt3_ub])]
    norm_num
  have hy1 : round6 ((0 : ℝ) + storeC1W.dists DistClass.HS *
      Real.sin ((0 : ℝ))) = 0 / 1000000 := by
    have hv : (0 : ℝ) + storeC1W.dists DistClass.HS * Real.sin ((0 : ℝ)) =
        0 := by
      rw [storeC1W_dists_HS, Real.sin_zero]
      ring
    rw [hv, round6_eq_div (0) (0)
      (by push_cast; linarith [sqrt3_lb, sqrt3_ub])
      (by push_cast; linarith [sqrt3_lb, sqrt3_ub])]
    norm_num
  have hb1 : (0 : ℝ) + turnDelta (⟨.L, 60, .HS⟩ : Move) = -(2 * π / 6) := by
    unfold turnDelta angleConst
    push_cast
    ring
  have hs1 : traceStep storeC1W.dists ((((0 : ℝ)), ((0 : ℝ))), (0 : ℝ))
      ⟨.L, 60, .HS⟩ = (((1000000 / 1000000), (0 / 1000000)), -(2 * π / 6)) :=
    traceStep_eval _ _ _ _ _ _ _ _ hx1 hy1 hb1
  have hx2 : round6 (1000000 / 1000000 + storeC1W.dists DistClass.HS *
      Real.cos (-(2 * π / 6))) = 1500000 / 1000000 := by
    have hv : 1000000 / 1000000 + storeC1W.dists DistClass.HS * Real.cos (-(2 * π / 6)) =
        3 / 2 := by
      rw [storeC1W_dists_HS, Real.cos_neg, cosu2]
      ring
    rw [hv, round6_eq_div (3 / 2) (1500000)
      (by push_cast; linarith [sqrt3_lb, sqrt3_ub])
      (by push_cast; linarith [sqrt3_lb, sqrt3_ub])]
    norm_num
  have hy2 : round6 (0 / 1000000 + storeC1W.dists DistClass.HS *
      Real.sin (-(2 * π / 6))) = -866025 / 1000000 := by
    have hv : 0 / 1000000 + storeC1W.dists DistClass.HS * Real.sin (-(2 * π / 6)) =
        -(1 / 2 * Real.sqrt 3) := by
      rw [storeC1W_dists_HS, Real.sin_neg, sinu2]
      ring
    rw [hv, round6_eq_div (-(1 / 2 * Real.sqrt 3)) (-866025)
      (by push_cast; linarith [sqrt3_lb, sqrt3_ub])
      (by push_cast; linarith [sqrt3_lb, sqrt3_ub])]
    norm_num
  have hb2 : -(2 * π / 6) + turnDelta (⟨.L, 90, .HS⟩ : Move) = -(5 * π / 6) := by
    unfold turnDelta angleConst
    push_cast
    ring
  have hs2 : traceStep storeC1W.dists (((1000000 / 1000000), (0 / 1000000)), -(2 * π / 6))
      ⟨.L, 90, .HS⟩ = (((1500000 / 1000000), (-866025 / 1000000)), -(5 * π / 6)) :=
    traceStep_eval _ _ _ _ _ _ _ _ hx2 hy2 hb2
  have hx3 : round6 (1500000 / 1000000 + storeC1W.dists DistClass.HH *
      Real.cos (-(5 * π / 6))) = 633975 / 1000000 := by
    have hv : 1500000 / 1000000 + storeC1W.dists DistClass.HH * Real.cos (-(5 * π / 6)) =
        3 / 2 - 1 / 2 * Real.sqrt 3 := by
      rw [storeC1W_dists_HH, Real.cos_neg, cosu5]
      ring
    rw [hv, round6_eq_div (3 / 2 - 1 / 2 * Real.sqrt 3) (633975)
      (by push_cast; linarith [sqrt3_lb, sqrt3_ub])
      (by push_cast; linarith [sqrt3_lb, sqrt3_ub])]
    norm_num
  have hy3 : round6 (-866025 / 1000000 + storeC1W.dists DistClass.HH *
      Real.sin (-(5 * π / 6))) = -1366025 / 1000000 := by
    have hv : -866025 / 1000000 + storeC1W.dists DistClass.HH * Real.sin (-(5 * π / 6)) =
        -(54641 / 40000) := by
      rw [storeC1W_dists_HH, Real.sin_neg, sinu5]
      ring
    rw [hv, round6_eq_div (-(54641 / 40000)) (-1366025)
      (by push_cast; linarith [sqrt3_lb, sqrt3_ub])
      (by push_cast; linarith [sqrt3_lb, sqrt3_ub])]
    norm_num
  have hb3 : -(5 * π / 6) + turnDelta (⟨.L, 60, .HH⟩ : Move) = -(7 * π / 6) := by
    unfold turnDelta angleConst
    push_cast
    ring
  have hs3 : traceStep storeC1W.dists (((1500000 / 1000000), (-866025 / 1000000)), -(5 * π / 6))
      ⟨.L, 60, .HH⟩ = (((633975 / 1000000), (-1366025 / 1000000)), -(7 * π / 6)) :=
    traceStep_eval _ _ _ _ _ _ _ _ hx3 hy3 hb3
  have hx4 : round6 (633975 / 1000000 + storeC1W.dists DistClass.HH *
      Real.cos (-(7 * π / 6))) = -232050 / 1000000 := by
    have hv : 633975 / 1000000 + storeC1W.dists DistClass.HH * Real.cos (-(7 * π / 6)) =
        25359 / 40000 - 1 / 2 * Real.sqrt 3 := by
      rw [storeC1W_dists_HH, Real.cos_neg, cosu7]
      ring
    rw [hv, round6_eq_div (25359 / 40000 - 1 / 2 * Real.sqrt 3) (-232050)
      (by push_cast; linarith [sqrt3_lb, sqrt3_ub])
      (by push_cast; linarith [sqrt3_lb, sqrt3_ub])]
    norm_num
  have hy4 : round6 (-1366025 / 1000000 + storeC1W.dists DistClass.HH *
      Real.sin (-(7 * π / 6))) = -866025 / 1000000 := by
    have hv : -1366025 / 1000000 + storeC1W.dists DistClass.HH * Real.sin (-(7 * π / 6)) =
        -(34641 / 40000) := by
      rw [storeC1W_dists_HH, Real.sin_neg, sinu7]
      ring
    rw [hv, round6_eq_div (-(34641 / 40000)) (-866025)
      (by push_cast; linarith [sqrt3_lb, sqrt3_ub])
      (by push_cast; linarith [sqrt3_lb, sqrt3_ub])]
    norm_num
  have hb4 : -(7 * π / 6) + turnDelta (⟨.R, 90, .HH⟩ : Move) = -(4 * π / 6) := by
    unfold turnDelta angleConst
    push_cast
    ring
  have hs4 : traceStep storeC1W.dists (((633975 / 1000000), (-1366025 / 1000000)), -(7 * π / 6))
      ⟨.R, 90, .HH⟩ = (((-232050 / 1000000), (-866025 / 1000000)), -(4 * π / 6)) :=
    traceStep_eval _ _ _ _ _ _ _ _ hx4 hy4 hb4
  have hx5 : round6 (-232050 / 1000000 + storeC1W.dists DistClass.HS *
      Real.cos (-(4 * π / 6))) = -732050 / 1000000 := by
    have hv : -232050 / 1000000 + storeC1W.dists DistClass.HS * Real.cos (-(4 * π / 6)) =
        -(14641 / 20000) := by
      rw [storeC1W_dists_HS, Real.cos_neg, cosu4]
      ring
    rw [hv, round6_eq_div (-(14641 / 20000)) (-732050)
      (by push_cast; linarith [sqrt3_lb, sqrt3_ub])
      (by push_cast; linarith [sqrt3_lb, sqrt3_ub])]
    norm_num
  have hy5 : round6 (-866025 / 1000000 + storeC1W.dists DistClass.HS *
      Real.sin (-(4 * π / 6))) = -1732050 / 1000000 := by
    have hv : -866025 / 1000000 + storeC1W.dists DistClass.HS * Real.sin (-(4 * π / 6)) =
        -(34641 / 40000) - 1 / 2 * Real.sqrt 3 := by
      rw [storeC1W_dists_HS, Real.sin_neg, sinu4]
      ring
    rw [hv, round6_eq_div (-(34641 / 40000) - 1 / 2 * Real.sqrt 3) (-1732050)
      (by push_cast; linarith [sqrt3_lb, sqrt3_ub])
      (by push_cast; linarith [sqrt3_lb, sqrt3_ub])]
    norm_num
  have hb5 : -(4 * π / 6) + turnDelta (⟨.L, 60, .HS⟩ : Move) = -(6 * π / 6) := by
    unfold turnDelta angleConst
    push_cast
    ring
  have hs5 : traceStep storeC1W.dists (((-232050 / 1000000), (-866025 / 1000000)), -(4 * π / 6))
      ⟨.L, 60, .HS⟩ = (((-732050 / 1000000), (-1732050 / 1000000)), -(6 * π / 6)) :=
    traceStep_eval _ _ _ _ _ _ _ _ hx5 hy5 hb5
  have hx6 : round6 (-732050 / 1000000 + storeC1W.dists DistClass.FS *
      Real.cos (-(6 * π / 6))) = -2732050 / 1000000 := by
    have hv : -732050 / 1000000 + storeC1W.dists DistClass.FS * Real.cos (-(6 * π / 6)) =
        -(54641 / 20000) := by
      rw [storeC1W_dists_FS, Real.cos_neg, cosu6]
      ring
    rw [hv, round6_eq_div (-(54641 / 20000)) (-2732050)
      (by push_cast; linarith [sqrt3_lb, sqrt3_ub])
      (by push_cast; linarith [sqrt3_lb, sqrt3_ub])]
    norm_num
  have hy6 : round6 (-1732050 / 1000000 + storeC1W.dists DistClass.FS *
      Real.sin (-(6 * π / 6))) = -1732050 / 1000000 := by
    have hv : -1732050 / 1000000 + storeC1W.dists DistClass.FS * Real.sin (-(6 * π / 6)) =
        -(34641 / 20000) := by
      rw [storeC1W_dists_FS, Real.sin_neg, sinu6]
      ring
    rw [hv, round6_eq_div (-(34641 / 20000)) (-1732050)
      (by push_cast; linarith [sqrt3_lb, sqrt3_ub])
      (by push_cast; linarith [sqrt3_lb, sqrt3_ub])]
    norm_num
  have hb6 : -(6 * π / 6) + turnDelta (⟨.L, 60, .FS⟩ : Move) = -(8 * π / 6) := by
    unfold turnDelta angleConst
    push_cast
    ring
  have hs6 : traceStep storeC1W.dists (((-732050 / 1000000), (-1732050 / 1000000)), -(6 * π / 6))
      ⟨.L, 60, .FS⟩ = (((-2732050 / 1000000), (-1732050 / 1000000)), -(8 * π / 6)) :=
    traceStep_eval _ _ _ _ _ _ _ _ hx6 hy6 hb6
  have hx7 : round6 (-2732050 / 1000000 + storeC1W.dists DistClass.HS *
      Real.cos (-(8 * π / 6))) = -3232050 / 1000000 := by
    have hv : -2732050 / 1000000 + storeC1W.dists DistClass.HS * Real.cos (-(8 * π / 6)) =
        -(64641 / 20000) := by
      rw [storeC1W_dists_HS, Real.cos_neg, cosu8]
      ring
    rw [hv, round6_eq_div (-(64641 / 20000)) (-3232050)
      (by push_cast; linarith [sqrt3_lb, sqrt3_ub])
      (by push_cast; linarith [sqrt3_lb, sqrt3_ub])]
    norm_num
  have hy7 : round6 (-1732050 / 1000000 + storeC1W.dists DistClass.HS *
      Real.sin (-(8 * π / 6))) = -866025 / 1000000 := by
    have hv : -1732050 / 1000000 + storeC1W.dists DistClass.HS * Real.sin (-(8 * π / 6)) =
        -(34641 / 20000) + 1 / 2 * Real.sqrt 3 := by
      rw [storeC1W_dists_HS, Real.sin_neg, sinu8]
      ring
    rw [hv, round6_eq_div (-(34641 / 20000) + 1 / 2 * Real.sqrt 3) (-866025)
      (by push_cast; linarith [sqrt3_lb, sqrt3_ub])
      (by push_cast; linarith [sqrt3_lb, sqrt3_ub])]
    norm_num
  have hb7 : -(8 * π / 6) + turnDelta (⟨.L, 90, .HS⟩ : Move) = -(11 * π / 6) := by
    unfold turnDelta angleConst
    push_cast
    ring
  have hs7 : traceStep storeC1W.dists (((-2732050 / 1000000), (-1732050 / 1000000)), -(8 * π / 6))
      ⟨.L, 90, .HS⟩ = (((-3232050 / 1000000), (-866025 / 1000000)), -(11 * π / 6)) :=
    traceStep_eval _ _ _ _ _ _ _ _ hx7 hy7 hb7
  have hx8 : round6 (-3232050 / 1000000 + storeC1W.dists DistClass.HH *
      Real.cos (-(11 * π / 6))) = -2366025 / 1000000 := by
    have hv : -3232050 / 1000000 + storeC1W.dists DistClass.HH * Real.cos (-(11 * π / 6)) =
        -(64641 / 20000) + 1 / 2 * Real.sqrt 3 := by
      rw [storeC1W_dists_HH, Real.cos_neg, cosu11]
      ring
    rw [hv, round6_eq_div (-(64641 / 20000) + 1 / 2 * Real.sqrt 3) (-2366025)
      (by push_cast; linarith [sqrt3_lb, sqrt3_ub])
      (by push_cast; linarith [sqrt3_lb, sqrt3_ub])]
    norm_num
  have hy8 : round6 (-866025 / 1000000 + storeC1W.dists DistClass.HH *
      Real.sin (-(11 * π / 6))) = -366025 / 1000000 := by
    have hv : -866025 / 1000000 + storeC1W.dists DistClass.HH * Real.sin (-(11 * π / 6)) =
        -(14641 / 40000) := by
      rw [storeC1W_dists_HH, Real.sin_neg, sinu11]
      ring
    rw [hv, round6_eq_div (-(14641 / 40000)) (-366025)
      (by push_cast; linarith [sqrt3_lb, sqrt3_ub])
      (by push_cast; linarith [sqrt3_lb, sqrt3_ub])]
    norm_num
  have hb8 : -(11 * π / 6) + turnDelta (⟨.R, 60, .HH⟩ : Move) = -(9 * π / 6) := by
    unfold turnDelta angleConst
    push_cast
    ring
  have hs8 : traceStep storeC1W.dists (((-3232050 / 1000000), (-866025 / 1000000)), -(11 * π / 6))
      ⟨.R, 60, .HH⟩ = (((-2366025 / 1000000), (-366025 / 1000000)), -(9 * π / 6)) :=
    traceStep_eval _ _ _ _ _ _ _ _ hx8 hy8 hb8
  have hx9 : round6 (-2366025 / 1000000 + storeC1W.dists DistClass.HH *
      Real.cos (-(9 * π / 6))) = -2366025 / 1000000 := by
    have hv : -2366025 / 1000000 + storeC1W.dists DistClass.HH * Real.cos (-(9 * π / 6)) =
        -(94641 / 40000) := by
      rw [storeC1W_dists_HH, Real.cos_neg, cosu9]
      ring
    rw [hv, round6_eq_div (-(94641 / 40000)) (-2366025)
      (by push_cast; linarith [sqrt3_lb, sqrt3_ub])
      (by push_cast; linarith [sqrt3_lb, sqrt3_ub])]
    norm_num
  have hy9 : round6 (-366025 / 1000000 + storeC1W.dists DistClass.HH *
      Real.sin (-(9 * π / 6))) = 633975 / 1000000 := by
    have hv : -366025 / 1000000 + storeC1W.dists DistClass.HH * Real.sin (-(9 * π / 6)) =
        25359 / 40000 := by
      rw [storeC1W_dists_HH, Real.sin_neg, sinu9]
      ring
    rw [hv, round6_eq_div (25359 / 40000) (633975)
      (by push_cast; linarith [sqrt3_lb, sqrt3_ub])
      (by push_cast; linarith [sqrt3_lb, sqrt3_ub])]
    norm_num
  have hb9 : -(9 * π / 6) + turnDelta (⟨.L, 90, .HH⟩ : Move) = -(12 * π / 6) := by
    unfold turnDelta angleConst
    push_cast
    ring
  have hs9 : traceStep storeC1W.dists (((-2366025 / 1000000), (-366025 / 1000000)), -(9 * π / 6))
      ⟨.L, 90, .HH⟩ = (((-2366025 / 1000000), (633975 / 1000000)), -(12 * π / 6)) :=
    traceStep_eval _ _ _ _ _ _ _ _ hx9 hy9 hb9
  have hx10 : round6 (-2366025 / 1000000 + storeC1W.dists DistClass.HS *
      Real.cos (-(12 * π / 6))) = -1366025 / 1000000 := by
    have hv : -2366025 / 1000000 + storeC1W.dists DistClass.HS * Real.cos (-(12 * π / 6)) =
        -(54641 / 40000) := by
      rw [storeC1W_dists_HS, Real.cos_neg, cosu12]
      ring
    rw [hv, round6_eq_div (-(54641 / 40000)) (-1366025)
      (by push_cast; linarith [sqrt3_lb, sqrt3_ub])
      (by push_cast; linarith [sqrt3_lb, sqrt3_ub])]
    norm_num
  have hy10 : round6 (633975 / 1000000 + storeC1W.dists DistClass.HS *
      Real.sin (-(12 * π / 6))) = 633975 / 1000000 := by
    have hv : 633975 / 1000000 + storeC1W.dists DistClass.HS * Real.sin (-(12 * π / 6)) =
        25359 / 40000 := by
      rw [storeC1W_dists_HS, Real.sin_neg, sinu12]
      ring
    rw [hv, round6_eq_div (25359 / 40000) (633975)
      (by push_cast; linarith [sqrt3_lb, sqrt3_ub])
      (by push_cast; linarith [sqrt3_lb, sqrt3_ub])]
    norm_num
  have hb10 : -(12 * π / 6) + turnDelta (⟨.R, 60, .HS⟩ : Move) = -(10 * π / 6) := by
    unfold turnDelta angleConst
    push_cast
    ring
  have hs10 : traceStep storeC1W.dists (((-2366025 / 1000000), (633975 / 1000000)), -(12 * π / 6))
      ⟨.R, 60, .HS⟩ = (((-1366025 / 1000000), (633975 / 1000000)), -(10 * π / 6)) :=
    traceStep_eval _ _ _ _ _ _ _ _ hx10 hy10 hb10
  have hx11 : round6 (-1366025 / 1000000 + storeC1W.dists DistClass.HS *
      Real.cos (-(10 * π / 6))) = -866025 / 1000000 := by
    have hv : -1366025 / 1000000 + storeC1W.dists DistClass.HS * Real.cos (-(10 * π / 6)) =
        -(34641 / 40000) := by
      rw [storeC1W_dists_HS, Real.cos_neg, cosu10]
      ring
    rw [hv, round6_eq_div (-(34641 / 40000)) (-866025)
      (by push_cast; linarith [sqrt3_lb, sqrt3_ub])
      (by push_cast; linarith [sqrt3_lb, sqrt3_ub])]
    norm_num
  have hy11 : round6 (633975 / 1000000 + storeC1W.dists DistClass.HS *
      Real.sin (-(10 * π / 6))) = 1500000 / 1000000 := by
    have hv : 633975 / 1000000 + storeC1W.dists DistClass.HS * Real.sin (-(10 * π / 6)) =
        25359 / 40000 + 1 / 2 * Real.sqrt 3 := by
      rw [storeC1W_dists_HS, Real.sin_neg, sinu10]
      ring
    rw [hv, round6_eq_div (25359 / 40000 + 1 / 2 * Real.sqrt 3) (1500000)
      (by push_cast; linarith [sqrt3_lb, sqrt3_ub])
      (by push_cast; linarith [sqrt3_lb, sqrt3_ub])]
    norm_num
  have hb11 : -(10 * π / 6) + turnDelta (⟨.L, 90, .HS⟩ : Move) = -(13 * π / 6) := by
    unfold turnDelta angleConst
    push_cast
    ring
  have hs11 : traceStep storeC1W.dists (((-1366025 / 1000000), (633975 / 1000000)), -(10 * π / 6))
      ⟨.L, 90, .HS⟩ = (((-866025 / 1000000), (1500000 / 1000000)), -(13 * π / 6)) :=
    traceStep_eval _ _ _ _ _ _ _ _ hx11 hy11 hb11
  have hx12 : round6 (-866025 / 1000000 + storeC1W.dists DistClass.HH *
      Real.cos (-(13 * π / 6))) = 0 / 1000000 := by
    have hv : -866025 / 1000000 + storeC1W.dists DistClass.HH * Real.cos (-(13 * π / 6)) =
        -(34641 / 40000) + 1 / 2 * Real.sqrt 3 := by
      rw [storeC1W_dists_HH, Real.cos_neg, cosu13]
      ring
    rw [hv, round6_eq_div (-(34641 / 40000) + 1 / 2 * Real.sqrt 3) (0)
      (by push_cast; linarith [sqrt3_lb, sqrt3_ub])
      (by push_cast; linarith [sqrt3_lb, sqrt3_ub])]
    norm_num
  have hy12 : round6 (1500000 / 1000000 + storeC1W.dists DistClass.HH *
      Real.sin (-(13 * π / 6))) = 1000000 / 1000000 := by
    have hv : 1500000 / 1000000 + storeC1W.dists DistClass.HH * Real.sin (-(13 * π / 6)) =
        1 := by
      rw [storeC1W_dists_HH, Real.sin_neg, sinu13]
      ring
    rw [hv, round6_eq_div (1) (1000000)
      (by push_cast; linarith [sqrt3_lb, sqrt3_ub])
      (by push_cast; linarith [sqrt3_lb, sqrt3_ub])]
    norm_num
  have hb12 : -(13 * π / 6) + turnDelta (⟨.L, 60, .HH⟩ : Move) = -(15 * π / 6) := by
    unfold turnDelta angleConst
    push_cast
    ring
  have hs12 : traceStep storeC1W.dists (((-866025 / 1000000), (1500000 / 1000000)), -(13 * π / 6))
      ⟨.L, 60, .HH⟩ = (((0 / 1000000), (1000000 / 1000000)), -(15 * π / 6)) :=
    traceStep_eval _ _ _ _ _ _ _ _ hx12 hy12 hb12
  have hx13 : round6 (0 / 1000000 + storeC1W.dists DistClass.HH *
      Real.cos (-(15 * π / 6))) = 0 / 1000000 := by
    have hv : 0 / 1000000 + storeC1W.dists DistClass.HH * Real.cos (-(15 * π / 6)) =
        0 := by
      rw [storeC1W_dists_HH, Real.cos_neg, cosu15]
      ring
    rw [hv, round6_eq_div (0) (0)
      (by push_cast; linarith [sqrt3_lb, sqrt3_ub])
      (by push_cast; linarith [sqrt3_lb, sqrt3_ub])]
    norm_num
  have hy13 : round6 (1000000 / 1000000 + storeC1W.dists DistClass.HH *
      Real.sin (-(15 * π / 6))) = 0 / 1000000 := by
    have hv : 1000000 / 1000000 + storeC1W.dists DistClass.HH * Real.sin (-(15 * π / 6)) =
        0 := by
      rw [storeC1W_dists_HH, Real.sin_neg, sinu15]
      ring
    rw [hv, round6_eq_div (0) (0)
      (by push_cast; linarith [sqrt3_lb, sqrt3_ub])
      (by push_cast; linarith [sqrt3_lb, sqrt3_ub])]
    norm_num
  have hb13 : -(15 * π / 6) + turnDelta (⟨.R, 90, .HH⟩ : Move) = -(12 * π / 6) := by
    unfold turnDelta angleConst
    push_cast
    ring
  have hs13 : traceStep storeC1W.dists (((0 / 1000000), (1000000 / 1000000)), -(15 * π / 6))
      ⟨.R, 90, .HH⟩ = (((0 / 1000000), (0 / 1000000)), -(12 * π / 6)) :=
    traceStep_eval _ _ _ _ _ _ _ _ hx13 hy13 hb13
  rw [show LEFT_HAT_MOVES = [⟨.L, 60, .HS⟩, ⟨.L, 90, .HS⟩, ⟨.L, 60, .HH⟩, ⟨.R, 90, .HH⟩, ⟨.L, 60, .HS⟩, ⟨.L, 60, .FS⟩, ⟨.L, 90, .HS⟩, ⟨.R, 60, .HH⟩, ⟨.L, 90, .HH⟩, ⟨.R, 60, .HS⟩, ⟨.L, 90, .HS⟩, ⟨.L, 60, .HH⟩, ⟨.R, 90, .HH⟩] from rfl]
  rw [tracePts_cons, hs1]
  rw [tracePts_cons, hs2]
  rw [tracePts_cons, hs3]
  rw [tracePts_cons, hs4]
  rw [tracePts_cons, hs5]
  rw [tracePts_cons, hs6]
  rw [tracePts_cons, hs7]
  rw [tracePts_cons, hs8]
  rw [tracePts_cons, hs9]
  rw [tracePts_cons, hs10]
  rw [tracePts_cons, hs11]
  rw [tracePts_cons, hs12]
  rw [tracePts_cons, hs13]
  rfl

set_option maxHeartbeats 2000000 in
theorem ntxC1W0 : NoTieX storeC1W.dists (0 : ℝ) (rotatedMoves Chirality.L 0) := by
  rw [show rotatedMoves Chirality.L 0 = [⟨.L, 60, .HS⟩, ⟨.L, 90, .HS⟩, ⟨.L, 60, .HH⟩, ⟨.R, 90, .HH⟩, ⟨.L, 60, .HS⟩, ⟨.L, 60, .FS⟩, ⟨.L, 90, .HS⟩, ⟨.R, 60, .HH⟩, ⟨.L, 90, .HH⟩, ⟨.R, 60, .HS⟩, ⟨.L, 90, .HS⟩, ⟨.L, 60, .HH⟩, ⟨.R, 90, .HH⟩] from rfl]
  refine (NoTieX_cons _ _ _ _).mpr ⟨?_, ?_⟩
  · show Int.fract (storeC1W.dists DistClass.HS * Real.cos ((0 : ℝ)) *
        1000000) ≠ 1 / 2
    have hv : storeC1W.dists DistClass.HS * Real.cos ((0 : ℝ)) *
        1000000 = 1000000 := by
      rw [storeC1W_dists_HS, Real.cos_zero]
      ring
    rw [hv]
    exact fract_ne_half_lt (1000000)
      (by push_cast; linarith [sqrt3_lb, sqrt3_ub])
      (by push_cast; linarith [sqrt3_lb, sqrt3_ub])
  rw [show (0 : ℝ) + turnDelta (⟨.L, 60, .HS⟩ : Move) = -(2 * π / 6) by
    unfold turnDelta angleConst
    push_cast
    ring]
  refine (NoTieX_cons _ _ _ _).mpr ⟨?_, ?_⟩
  · show Int.fract (storeC1W.dists DistClass.HS * Real.cos (-(2 * π / 6)) *
        1000000) ≠ 1 / 2
    have hv : storeC1W.dists DistClass.HS * Real.cos (-(2 * π / 6)) *
        1000000 = 500000 := by
      rw [storeC1W_dists_HS, Real.cos_neg, cosu2]
      ring
    rw [hv]
    exact fract_ne_half_lt (500000)
      (by push_cast; linarith [sqrt3_lb, sqrt3_ub])
      (by push_cast; linarith [sqrt3_lb, sqrt3_ub])
  rw [show -(2 * π / 6) + turnDelta (⟨.L, 90, .HS⟩ : Move) = -(5 * π / 6) by
    unfold turnDelta angleConst
    push_cast
    ring]
  refine (NoTieX_cons _ _ _ _).mpr ⟨?_, ?_⟩
  · show Int.fract (storeC1W.dists DistClass.HH * Real.cos (-(5 * π / 6)) *
        1000000) ≠ 1 / 2
    have hv : storeC1W.dists DistClass.HH * Real.cos (-(5 * π / 6)) *
        1000000 = -(500000 * Real.sqrt 3) := by
      rw [storeC1W_dists_HH, Real.cos_neg, cosu5]
      ring
    rw [hv]
    exact fract_ne_half_gt (-866026)
      (by push_cast; linarith [sqrt3_lb, sqrt3_ub])
      (by push_cast; linarith [sqrt3_lb, sqrt3_ub])
  rw [show -(5 * π / 6) + turnDelta (⟨.L, 60, .HH⟩ : Move) = -(7 * π / 6) by
    unfold turnDelta angleConst
    push_cast
    ring]
  refine (NoTieX_cons _ _ _ _).mpr ⟨?_, ?_⟩
  · show Int.fract (storeC1W.dists DistClass.HH * Real.cos (-(7 * π / 6)) *
        1000000) ≠ 1 / 2
    have hv : storeC1W.dists DistClass.HH * Real.cos (-(7 * π / 6)) *
        1000000 = -(500000 * Real.sqrt 3) := by
      rw [storeC1W_dists_HH, Real.cos_neg, cosu7]
      ring
    rw [hv]
    exact fract_ne_half_gt (-866026)
      (by push_cast; linarith [sqrt3_lb, sqrt3_ub])
      (by push_cast; linarith [sqrt3_lb, sqrt3_ub])
  rw [show -(7 * π / 6) + turnDelta (⟨.R, 90, .HH⟩ : Move) = -(4 * π / 6) by
    unfold turnDelta angleConst
    push_cast
    ring]
  refine (NoTieX_cons _ _ _ _).mpr ⟨?_, ?_⟩
  · show Int.fract (storeC1W.dists DistClass.HS * Real.cos (-(4 * π / 6)) *
        1000000) ≠ 1 / 2
    have hv : storeC1W.dists DistClass.HS * Real.cos (-(4 * π / 6)) *
        1000000 = -(500000) := by
      rw [storeC1W_dists_HS, Real.cos_neg, cosu4]
      ring
    rw [hv]
    exact fract_ne_half_lt (-500000)
      (by push_cast; linarith [sqrt3_lb, sqrt3_ub])
      (by push_cast; linarith [sqrt3_lb, sqrt3_ub])
  rw [show -(4 * π / 6) + turnDelta (⟨.L, 60, .HS⟩ : Move) = -(6 * π / 6) by
    unfold turnDelta angleConst
    push_cast
    ring]
  refine (NoTieX_cons _ _ _ _).mpr ⟨?_, ?_⟩
  · show Int.fract (storeC1W.dists DistClass.FS * Real.cos (-(6 * π / 6)) *
        1000000) ≠ 1 / 2
    have hv : storeC1W.dists DistClass.FS * Real.cos (-(6 * π / 6)) *
        1000000 = -(2000000) := by
      rw [storeC1W_dists_FS, Real.cos_neg, cosu6]
      ring
    rw [hv]
    exact fract_ne_half_lt (-2000000)
      (by push_cast; linarith [sqrt3_lb, sqrt3_ub])
      (by push_cast; linarith [sqrt3_lb, sqrt3_ub])
  rw [show -(6 * π / 6) + turnDelta (⟨.L, 60, .FS⟩ : Move) = -(8 * π / 6) by
    unfold turnDelta angleConst
    push_cast
    ring]
  refine (NoTieX_cons _ _ _ _).mpr ⟨?_, ?_⟩
  · show Int.fract (storeC1W.dists DistClass.HS * Real.cos (-(8 * π / 6)) *
        1000000) ≠ 1 / 2
    have hv : storeC1W.dists DistClass.HS * Real.cos (-(8 * π / 6)) *
        1000000 = -(500000) := by
      rw [storeC1W_dists_HS, Real.cos_neg, cosu8]
      ring
    rw [hv]
    exact fract_ne_half_lt (-500000)
      (by push_cast; linarith [sqrt3_lb, sqrt3_ub])
      (by push_cast; linarith [sqrt3_lb, sqrt3_ub])
  rw [show -(8 * π / 6) + turnDelta (⟨.L, 90, .HS⟩ : Move) = -(11 * π / 6) by
    unfold turnDelta angleConst
    push_cast
    ring]
  refine (NoTieX_cons _ _ _ _).mpr ⟨?_, ?_⟩
  · show Int.fract (storeC1W.dists DistClass.HH * Real.cos (-(11 * π / 6)) *
        1000000) ≠ 1 / 2
    have hv : storeC1W.dists DistClass.HH * Real.cos (-(11 * π / 6)) *
        1000000 = 500000 * Real.sqrt 3 := by
      rw [storeC1W_dists_HH, Real.cos_neg, cosu11]
      ring
    rw [hv]
    exact fract_ne_half_lt (866025)
      (by push_cast; linarith [sqrt3_lb, sqrt3_ub])
      (by push_cast; linarith [sqrt3_lb, sqrt3_ub])
  rw [show -(11 * π / 6) + turnDelta (⟨.R, 60, .HH⟩ : Move) = -(9 * π / 6) by
    unfold turnDelta angleConst
    push_cast
    ring]
  refine (NoTieX_cons _ _ _ _).mpr ⟨?_, ?_⟩
  · show Int.fract (storeC1W.dists DistClass.HH * Real.cos (-(9 * π / 6)) *
        1000000) ≠ 1 / 2
    have hv : storeC1W.dists DistClass.HH * Real.cos (-(9 * π / 6)) *
        1000000 = 0 := by
      rw [storeC1W_dists_HH, Real.cos_neg, cosu9]
      ring
    rw [hv]
    exact fract_ne_half_lt (0)
      (by push_cast; linarith [sqrt3_lb, sqrt3_ub])
      (by push_cast; linarith [sqrt3_lb, sqrt3_ub])
  rw [show -(9 * π / 6) + turnDelta (⟨.L, 90, .HH⟩ : Move) = -(12 * π / 6) by
    unfold turnDelta angleConst
    push_cast
    ring]
  refine (NoTieX_cons _ _ _ _).mpr ⟨?_, ?_⟩
  · show Int.fract (storeC1W.dists DistClass.HS * Real.cos (-(12 * π / 6)) *
        1000000) ≠ 1 / 2
    have hv : storeC1W.dists DistClass.HS * Real.cos (-(12 * π / 6)) *
        1000000 = 1000000 := by
      rw [storeC1W_dists_HS, Real.cos_neg, cosu12]
      ring
    rw [hv]
    exact fract_ne_half_lt (1000000)
      (by push_cast; linarith [sqrt3_lb, sqrt3_ub])
      (by push_cast; linarith [sqrt3_lb, sqrt3_ub])
  rw [show -(12 * π / 6) + turnDelta (⟨.R, 60, .HS⟩ : Move) = -(10 * π / 6) by
    unfold turnDelta angleConst
    push_cast
    ring]
  refine (NoTieX_cons _ _ _ _).mpr ⟨?_, ?_⟩
  · show Int.fract (storeC1W.dists DistClass.HS * Real.cos (-(10 * π / 6)) *
        1000000) ≠ 1 / 2
    have hv : storeC1W.dists DistClass.HS * Real.cos (-(10 * π / 6)) *
        1000000 = 500000 := by
      rw [storeC1W_dists_HS, Real.cos_neg, cosu10]
      ring
    rw [hv]
    exact fract_ne_half_lt (500000)
      (by push_cast; linarith [sqrt3_lb, sqrt3_ub])
      (by push_cast; linarith [sqrt3_lb, sqrt3_ub])
  rw [show -(10 * π / 6) + turnDelta (⟨.L, 90, .HS⟩ : Move) = -(13 * π / 6) by
    unfold turnDelta angleConst
    push_cast
    ring]
  refine (NoTieX_cons _ _ _ _).mpr ⟨?_, ?_⟩
  · show Int.fract (storeC1W.dists DistClass.HH * Real.cos (-(13 * π / 6)) *
        1000000) ≠ 1 / 2
    have hv : storeC1W.dists DistClass.HH * Real.cos (-(13 * π / 6)) *
        1000000 = 500000 * Real.sqrt 3 := by
      rw [storeC1W_dists_HH, Real.cos_neg, cosu13]
      ring
    rw [hv]
    exact fract_ne_half_lt (866025)
      (by push_cast; linarith [sqrt3_lb, sqrt3_ub])
      (by push_cast; linarith [sqrt3_lb, sqrt3_ub])
  rw [show -(13 * π / 6) + turnDelta (⟨.L, 60, .HH⟩ : Move) = -(15 * π / 6) by
    unfold turnDelta angleConst
    push_cast
    ring]
  refine (NoTieX_cons _ _ _ _).mpr ⟨?_, ?_⟩
  · show Int.fract (storeC1W.dists DistClass.HH * Real.cos (-(15 * π / 6)) *
        1000000) ≠ 1 / 2
    have hv : storeC1W.dists DistClass.HH * Real.cos (-(15 * π / 6)) *
        1000000 = 0 := by
      rw [storeC1W_dists_HH, Real.cos_neg, cosu15]
      ring
    rw [hv]
    exact fract_ne_half_lt (0)
      (by push_cast; linarith [sqrt3_lb, sqrt3_ub])
      (by push_cast; linarith [sqrt3_lb, sqrt3_ub])
  exact trivial

set_option maxHeartbeats 2000000 in
theorem ntyC1W0 : NoTieY storeC1W.dists (0 : ℝ) (rotatedMoves Chirality.L 0) := by
  rw [show rotatedMoves Chirality.L 0 = [⟨.L, 60, .HS⟩, ⟨.L, 90, .HS⟩, ⟨.L, 60, .HH⟩, ⟨.R, 90, .HH⟩, ⟨.L, 60, .HS⟩, ⟨.L, 60, .FS⟩, ⟨.L, 90, .HS⟩, ⟨.R, 60, .HH⟩, ⟨.L, 90, .HH⟩, ⟨.R, 60, .HS⟩, ⟨.L, 90, .HS⟩, ⟨.L, 60, .HH⟩, ⟨.R, 90, .HH⟩] from rfl]
  refine (NoTieY_cons _ _ _ _).mpr ⟨?_, ?_⟩
  · show Int.fract (storeC1W.dists DistClass.HS * Real.sin ((0 : ℝ)) *
        1000000) ≠ 1 / 2
    have hv : storeC1W.dists DistClass.HS * Real.sin ((0 : ℝ)) *
        1000000 = 0 := by
      rw [storeC1W_dists_HS, Real.sin_zero]
      ring
    rw [hv]
    exact fract_ne_half_lt (0)
      (by push_cast; linarith [sqrt3_lb, sqrt3_ub])
      (by push_cast; linarith [sqrt3_lb, sqrt3_ub])
  rw [show (0 : ℝ) + turnDelta (⟨.L, 60, .HS⟩ : Move) = -(2 * π / 6) by
    unfold turnDelta angleConst
    push_cast
    ring]
  refine (NoTieY_cons _ _ _ _).mpr ⟨?_, ?_⟩
  · show Int.fract (storeC1W.dists DistClass.HS * Real.sin (-(2 * π / 6)) *
        1000000) ≠ 1 / 2
    have hv : storeC1W.dists DistClass.HS * Real.sin (-(2 * π / 6)) *
        1000000 = -(500000 * Real.sqrt 3) := by
      rw [storeC1W_dists_HS, Real.sin_neg, sinu2]
      ring
    rw [hv]
    exact fract_ne_half_gt (-866026)
      (by push_cast; linarith [sqrt3_lb, sqrt3_ub])
      (by push_cast; linarith [sqrt3_lb, sqrt3_ub])
  rw [show -(2 * π / 6) + turnDelta (⟨.L, 90, .HS⟩ : Move) = -(5 * π / 6) by
    unfold turnDelta angleConst
    push_cast
    ring]
  refine (NoTieY_cons _ _ _ _).mpr ⟨?_, ?_⟩
  · show Int.fract (storeC1W.dists DistClass.HH * Real.sin (-(5 * π / 6)) *
        1000000) ≠ 1 / 2
    have hv : storeC1W.dists DistClass.HH * Real.sin (-(5 * π / 6)) *
        1000000 = -(500000) := by
      rw [storeC1W_dists_HH, Real.sin_neg, sinu5]
      ring
    rw [hv]
    exact fract_ne_half_lt (-500000)
      (by push_cast; linarith [sqrt3_lb, sqrt3_ub])
      (by push_cast; linarith [sqrt3_lb, sqrt3_ub])
  rw [show -(5 * π / 6) + turnDelta (⟨.L, 60, .HH⟩ : Move) = -(7 * π / 6) by
    unfold turnDelta angleConst
    push_cast
    ring]
  refine (NoTieY_cons _ _ _ _).mpr ⟨?_, ?_⟩
  · show Int.fract (storeC1W.dists DistClass.HH * Real.sin (-(7 * π / 6)) *
        1000000) ≠ 1 / 2
    have hv : storeC1W.dists DistClass.HH * Real.sin (-(7 * π / 6)) *
        1000000 = 500000 := by
      rw [storeC1W_dists_HH, Real.sin_neg, sinu7]
      ring
    rw [hv]
    exact fract_ne_half_lt (500000)
      (by push_cast; linarith [sqrt3_lb, sqrt3_ub])
      (by push_cast; linarith [sqrt3_lb, sqrt3_ub])
  rw [show -(7 * π / 6) + turnDelta (⟨.R, 90, .HH⟩ : Move) = -(4 * π / 6) by
    unfold turnDelta angleConst
    push_cast
    ring]
  refine (NoTieY_cons _ _ _ _).mpr ⟨?_, ?_⟩
  · show Int.fract (storeC1W.dists DistClass.HS * Real.sin (-(4 * π / 6)) *
        1000000) ≠ 1 / 2
    have hv : storeC1W.dists DistClass.HS * Real.sin (-(4 * π / 6)) *
        1000000 = -(500000 * Real.sqrt 3) := by
      rw [storeC1W_dists_HS, Real.sin_neg, sinu4]
      ring
    rw [hv]
    exact fract_ne_half_gt (-866026)
      (by push_cast; linarith [sqrt3_lb, sqrt3_ub])
      (by push_cast; linarith [sqrt3_lb, sqrt3_ub])
  rw [show -(4 * π / 6) + turnDelta (⟨.L, 60, .HS⟩ : Move) = -(6 * π / 6) by
    unfold turnDelta angleConst
    push_cast
    ring]
  refine (NoTieY_cons _ _ _ _).mpr ⟨?_, ?_⟩
  · show Int.fract (storeC1W.dists DistClass.FS * Real.sin (-(6 * π / 6)) *
        1000000) ≠ 1 / 2
    have hv : storeC1W.dists DistClass.FS * Real.sin (-(6 * π / 6)) *
        1000000 = 0 := by
      rw [storeC1W_dists_FS, Real.sin_neg, sinu6]
      ring
    rw [hv]
    exact fract_ne_half_lt (0)
      (by push_cast; linarith [sqrt3_lb, sqrt3_ub])
      (by push_cast; linarith [sqrt3_lb, sqrt3_ub])
  rw [show -(6 * π / 6) + turnDelta (⟨.L, 60, .FS⟩ : Move) = -(8 * π / 6) by
    unfold turnDelta angleConst
    push_cast
    ring]
  refine (NoTieY_cons _ _ _ _).mpr ⟨?_, ?_⟩
  · show Int.fract (storeC1W.dists DistClass.HS * Real.sin (-(8 * π / 6)) *
        1000000) ≠ 1 / 2
    have hv : storeC1W.dists DistClass.HS * Real.sin (-(8 * π / 6)) *
        1000000 = 500000 * Real.sqrt 3 := by
      rw [storeC1W_dists_HS, Real.sin_neg, sinu8]
      ring
    rw [hv]
    exact fract_ne_half_lt (866025)
      (by push_cast; linarith [sqrt3_lb, sqrt3_ub])
      (by push_cast; linarith [sqrt3_lb, sqrt3_ub])
  rw [show -(8 * π / 6) + turnDelta (⟨.L, 90, .HS⟩ : Move) = -(11 * π / 6) by
    unfold turnDelta angleConst
    push_cast
    ring]
  refine (NoTieY_cons _ _ _ _).mpr ⟨?_, ?_⟩
  · show Int.fract (storeC1W.dists DistClass.HH * Real.sin (-(11 * π / 6)) *
        1000000) ≠ 1 / 2
    have hv : storeC1W.dists DistClass.HH * Real.sin (-(11 * π / 6)) *
        1000000 = 500000 := by
      rw [storeC1W_dists_HH, Real.sin_neg, sinu11]
      ring
    rw [hv]
    exact fract_ne_half_lt (500000)
      (by push_cast; linarith [sqrt3_lb, sqrt3_ub])
      (by push_cast; linarith [sqrt3_lb, sqrt3_ub])
  rw [show -(11 * π / 6) + turnDelta (⟨.R, 60, .HH⟩ : Move) = -(9 * π / 6) by
    unfold turnDelta angleConst
    push_cast
    ring]
  refine (NoTieY_cons _ _ _ _).mpr ⟨?_, ?_⟩
  · show Int.fract (storeC1W.dists DistClass.HH * Real.sin (-(9 * π / 6)) *
        1000000) ≠ 1 / 2
    have hv : storeC1W.dists DistClass.HH * Real.sin (-(9 * π / 6)) *
        1000000 = 1000000 := by
      rw [storeC1W_dists_HH, Real.sin_neg, sinu9]
      ring
    rw [hv]
    exact fract_ne_half_lt (1000000)
      (by push_cast; linarith [sqrt3_lb, sqrt3_ub])
      (by push_cast; linarith [sqrt3_lb, sqrt3_ub])
  rw [show -(9 * π / 6) + turnDelta (⟨.L, 90, .HH⟩ : Move) = -(12 * π / 6) by
    unfold turnDelta angleConst
    push_cast
    ring]
  refine (NoTieY_cons _ _ _ _).mpr ⟨?_, ?_⟩
  · show Int.fract (storeC1W.dists DistClass.HS * Real.sin (-(12 * π / 6)) *
        1000000) ≠ 1 / 2
    have hv : storeC1W.dists DistClass.HS * Real.sin (-(12 * π / 6)) *
        1000000 = 0 := by
      rw [storeC1W_dists_HS, Real.sin_neg, sinu12]
      ring
    rw [hv]
    exact fract_ne_half_lt (0)
      (by push_cast; linarith [sqrt3_lb, sqrt3_ub])
      (by push_cast; linarith [sqrt3_lb, sqrt3_ub])
  rw [show -(12 * π / 6) + turnDelta (⟨.R, 60, .HS⟩ : Move) = -(10 * π / 6) by
    unfold turnDelta angleConst
    push_cast
    ring]
  refine (NoTieY_cons _ _ _ _).mpr ⟨?_, ?_⟩
  · show Int.fract (storeC1W.dists DistClass.HS * Real.sin (-(10 * π / 6)) *
        1000000) ≠ 1 / 2
    have hv : storeC1W.dists DistClass.HS * Real.sin (-(10 * π / 6)) *
        1000000 = 500000 * Real.sqrt 3 := by
      rw [storeC1W_dists_HS, Real.sin_neg, sinu10]
      ring
    rw [hv]
    exact fract_ne_half_lt (866025)
      (by push_cast; linarith [sqrt3_lb, sqrt3_ub])
      (by push_cast; linarith [sqrt3_lb, sqrt3_ub])
  rw [show -(10 * π / 6) + turnDelta (⟨.L, 90, .HS⟩ : Move) = -(13 * π / 6) by
    unfold turnDelta angleConst
    push_cast
    ring]
  refine (NoTieY_cons _ _ _ _).mpr ⟨?_, ?_⟩
  · show Int.fract (storeC1W.dists DistClass.HH * Real.sin (-(13 * π / 6)) *
        1000000) ≠ 1 / 2
    have hv : storeC1W.dists DistClass.HH * Real.sin (-(13 * π / 6)) *
        1000000 = -(500000) := by
      rw [storeC1W_dists_HH, Real.sin_neg, sinu13]
      ring
    rw [hv]
    exact fract_ne_half_lt (-500000)
      (by push_cast; linarith [sqrt3_lb, sqrt3_ub])
      (by push_cast; linarith [sqrt3_lb, sqrt3_ub])
  rw [show -(13 * π / 6) + turnDelta (⟨.L, 60, .HH⟩ : Move) = -(15 * π / 6) by
    unfold turnDelta angleConst
    push_cast
    ring]
  refine (NoTieY_cons _ _ _ _).mpr ⟨?_, ?_⟩
  · show Int.fract (storeC1W.dists DistClass.HH * Real.sin (-(15 * π / 6)) *
        1000000) ≠ 1 / 2
    have hv : storeC1W.dists DistClass.HH * Real.sin (-(15 * π / 6)) *
        1000000 = -(1000000) := by
      rw [storeC1W_dists_HH, Real.sin_neg, sinu15]
      ring
    rw [hv]
    exact fract_ne_half_lt (-1000000)
      (by push_cast; linarith [sqrt3_lb, sqrt3_ub])
      (by push_cast; linarith [sqrt3_lb, sqrt3_ub])
  exact trivial

set_option maxHeartbeats 2000000 in
theorem ntxC1Wpi : NoTieX storeC1W.dists π (rotatedMoves Chirality.L 0) := by
  rw [show rotatedMoves Chirality.L 0 = [⟨.L, 60, .HS⟩, ⟨.L, 90, .HS⟩, ⟨.L, 60, .HH⟩, ⟨.R, 90, .HH⟩, ⟨.L, 60, .HS⟩, ⟨.L, 60, .FS⟩, ⟨.L, 90, .HS⟩, ⟨.R, 60, .HH⟩, ⟨.L, 90, .HH⟩, ⟨.R, 60, .HS⟩, ⟨.L, 90, .HS⟩, ⟨.L, 60, .HH⟩, ⟨.R, 90, .HH⟩] from rfl]
  refine (NoTieX_cons _ _ _ _).mpr ⟨?_, ?_⟩
  · show Int.fract (storeC1W.dists DistClass.HS * Real.cos (π) *
        1000000) ≠ 1 / 2
    have hv : storeC1W.dists DistClass.HS * Real.cos (π) *
        1000000 = -(1000000) := by
      rw [storeC1W_dists_HS, Real.cos_pi]
      ring
    rw [hv]
    exact fract_ne_half_lt (-1000000)
      (by push_cast; linarith [sqrt3_lb, sqrt3_ub])
      (by push_cast; linarith [sqrt3_lb, sqrt3_ub])
  rw [show π + turnDelta (⟨.L, 60, .HS⟩ : Move) = π - 2 * π / 6 by
    unfold turnDelta angleConst
    push_cast
    ring]
  refine (NoTieX_cons _ _ _ _).mpr ⟨?_, ?_⟩
  · show Int.fract (storeC1W.dists DistClass.HS * Real.cos (π - 2 * π / 6) *
        1000000) ≠ 1 / 2
    have hv : storeC1W.dists DistClass.HS * Real.cos (π - 2 * π / 6) *
        1000000 = -(500000) := by
      rw [storeC1W_dists_HS, Real.cos_pi_sub, cosu2]
      ring
    rw [hv]
    exact fract_ne_half_lt (-500000)
      (by push_cast; linarith [sqrt3_lb, sqrt3_ub])
      (by push_cast; linarith [sqrt3_lb, sqrt3_ub])
  rw [show π - 2 * π / 6 + turnDelta (⟨.L, 90, .HS⟩ : Move) = π - 5 * π / 6 by
    unfold turnDelta angleConst
    push_cast
    ring]
  refine (NoTieX_cons _ _ _ _).mpr ⟨?_, ?_⟩
  · show Int.fract (storeC1W.dists DistClass.HH * Real.cos (π - 5 * π / 6) *
        1000000) ≠ 1 / 2
    have hv : storeC1W.dists DistClass.HH * Real.cos (π - 5 * π / 6) *
        1000000 = 500000 * Real.sqrt 3 := by
      rw [storeC1W_dists_HH, Real.cos_pi_sub, cosu5]
      ring
    rw [hv]
    exact fract_ne_half_lt (866025)
      (by push_cast; linarith [sqrt3_lb, sqrt3_ub])
      (by push_cast; linarith [sqrt3_lb, sqrt3_ub])
  rw [show π - 5 * π / 6 + turnDelta (⟨.L, 60, .HH⟩ : Move) = π - 7 * π / 6 by
    unfold turnDelta angleConst
    push_cast
    ring]
  refine (NoTieX_cons _ _ _ _).mpr ⟨?_, ?_⟩
  · show Int.fract (storeC1W.dists DistClass.HH * Real.cos (π - 7 * π / 6) *
        1000000) ≠ 1 / 2
    have hv : storeC1W.dists DistClass.HH * Real.cos (π - 7 * π / 6) *
        1000000 = 500000 * Real.sqrt 3 := by
      rw [storeC1W_dists_HH, Real.cos_pi_sub, cosu7]
      ring
    rw [hv]
    exact fract_ne_half_lt (866025)
      (by push_cast; linarith [sqrt3_lb, sqrt3_ub])
      (by push_cast; linarith [sqrt3_lb, sqrt3_ub])
  rw [show π - 7 * π / 6 + turnDelta (⟨.R, 90, .HH⟩ : Move) = π - 4 * π / 6 by
    unfold turnDelta angleConst
    push_cast
    ring]
  refine (NoTieX_cons _ _ _ _).mpr ⟨?_, ?_⟩
  · show Int.fract (storeC1W.dists DistClass.HS * Real.cos (π - 4 * π / 6) *
        1000000) ≠ 1 / 2
    have hv : storeC1W.dists DistClass.HS * Real.cos (π - 4 * π / 6) *
        1000000 = 500000 := by
      rw [storeC1W_dists_HS, Real.cos_pi_sub, cosu4]
      ring
    rw [hv]
    exact fract_ne_half_lt (500000)
      (by push_cast; linarith [sqrt3_lb, sqrt3_ub])
      (by push_cast; linarith [sqrt3_lb, sqrt3_ub])
  rw [show π - 4 * π / 6 + turnDelta (⟨.L, 60, .HS⟩ : Move) = π - 6 * π / 6 by
    unfold turnDelta angleConst
    push_cast
    ring]
  refine (NoTieX_cons _ _ _ _).mpr ⟨?_, ?_⟩
  · show Int.fract (storeC1W.dists DistClass.FS * Real.cos (π - 6 * π / 6) *
        1000000) ≠ 1 / 2
    have hv : storeC1W.dists DistClass.FS * Real.cos (π - 6 * π / 6) *
        1000000 = 2000000 := by
      rw [storeC1W_dists_FS, Real.cos_pi_sub, cosu6]
      ring
    rw [hv]
    exact fract_ne_half_lt (2000000)
      (by push_cast; linarith [sqrt3_lb, sqrt3_ub])
      (by push_cast; linarith [sqrt3_lb, sqrt3_ub])
  rw [show π - 6 * π / 6 + turnDelta (⟨.L, 60, .FS⟩ : Move) = π - 8 * π / 6 by
    unfold turnDelta angleConst
    push_cast
    ring]
  refine (NoTieX_cons _ _ _ _).mpr ⟨?_, ?_⟩
  · show Int.fract (storeC1W.dists DistClass.HS * Real.cos (π - 8 * π / 6) *
        1000000) ≠ 1 / 2
    have hv : storeC1W.dists DistClass.HS * Real.cos (π - 8 * π / 6) *
        1000000 = 500000 := by
      rw [storeC1W_dists_HS, Real.cos_pi_sub, cosu8]
      ring
    rw [hv]
    exact fract_ne_half_lt (500000)
      (by push_cast; linarith [sqrt3_lb, sqrt3_ub])
      (by push_cast; linarith [sqrt3_lb, sqrt3_ub])
  rw [show π - 8 * π / 6 + turnDelta (⟨.L, 90, .HS⟩ : Move) = π - 11 * π / 6 by
    unfold turnDelta angleConst
    push_cast
    ring]
  refine (NoTieX_cons _ _ _ _).mpr ⟨?_, ?_⟩
  · show Int.fract (storeC1W.dists DistClass.HH * Real.cos (π - 11 * π / 6) *
        1000000) ≠ 1 / 2
    have hv : storeC1W.dists DistClass.HH * Real.cos (π - 11 * π / 6) *
        1000000 = -(500000 * Real.sqrt 3) := by
      rw [storeC1W_dists_HH, Real.cos_pi_sub, cosu11]
      ring
    rw [hv]
    exact fract_ne_half_gt (-866026)
      (by push_cast; linarith [sqrt3_lb, sqrt3_ub])
      (by push_cast; linarith [sqrt3_lb, sqrt3_ub])
  rw [show π - 11 * π / 6 + turnDelta (⟨.R, 60, .HH⟩ : Move) = π - 9 * π / 6 by
    unfold turnDelta angleConst
    push_cast
    ring]
  refine (NoTieX_cons _ _ _ _).mpr ⟨?_, ?_⟩
  · show Int.fract (storeC1W.dists DistClass.HH * Real.cos (π - 9 * π / 6) *
        1000000) ≠ 1 / 2
    have hv : storeC1W.dists DistClass.HH * Real.cos (π - 9 * π / 6) *
        1000000 = 0 := by
      rw [storeC1W_dists_HH, Real.cos_pi_sub, cosu9]
      ring
    rw [hv]
    exact fract_ne_half_lt (0)
      (by push_cast; linarith [sqrt3_lb, sqrt3_ub])
      (by push_cast; linarith [sqrt3_lb, sqrt3_ub])
  rw [show π - 9 * π / 6 + turnDelta (⟨.L, 90, .HH⟩ : Move) = π - 12 * π / 6 by
    unfold turnDelta angleConst
    push_cast
    ring]
  refine (NoTieX_cons _ _ _ _).mpr ⟨?_, ?_⟩
  · show Int.fract (storeC1W.dists DistClass.HS * Real.cos (π - 12 * π / 6) *
        1000000) ≠ 1 / 2
    have hv : storeC1W.dists DistClass.HS * Real.cos (π - 12 * π / 6) *
        1000000 = -(1000000) := by
      rw [storeC1W_dists_HS, Real.cos_pi_sub, cosu12]
      ring
    rw [hv]
    exact fract_ne_half_lt (-1000000)
      (by push_cast; linarith [sqrt3_lb, sqrt3_ub])
      (by push_cast; linarith [sqrt3_lb, sqrt3_ub])
  rw [show π - 12 * π / 6 + turnDelta (⟨.R, 60, .HS⟩ : Move) = π - 10 * π / 6 by
    unfold turnDelta angleConst
    push_cast
    ring]
  refine (NoTieX_cons _ _ _ _).mpr ⟨?_, ?_⟩
  · show Int.fract (storeC1W.dists DistClass.HS * Real.cos (π - 10 * π / 6) *
        1000000) ≠ 1 / 2
    have hv : storeC1W.dists DistClass.HS * Real.cos (π - 10 * π / 6) *
        1000000 = -(500000) := by
      rw [storeC1W_dists_HS, Real.cos_pi_sub, cosu10]
      ring
    rw [hv]
    exact fract_ne_half_lt (-500000)
      (by push_cast; linarith [sqrt3_lb, sqrt3_ub])
      (by push_cast; linarith [sqrt3_lb, sqrt3_ub])
  rw [show π - 10 * π / 6 + turnDelta (⟨.L, 90, .HS⟩ : Move) = π - 13 * π / 6 by
    unfold turnDelta angleConst
    push_cast
    ring]
  refine (NoTieX_cons _ _ _ _).mpr ⟨?_, ?_⟩
  · show Int.fract (storeC1W.dists DistClass.HH * Real.cos (π - 13 * π / 6) *
        1000000) ≠ 1 / 2
    have hv : storeC1W.dists DistClass.HH * Real.cos (π - 13 * π / 6) *
        1000000 = -(500000 * Real.sqrt 3) := by
      rw [storeC1W_dists_HH, Real.cos_pi_sub, cosu13]
      ring
    rw [hv]
    exact fract_ne_half_gt (-866026)
      (by push_cast; linarith [sqrt3_lb, sqrt3_ub])
      (by push_cast; linarith [sqrt3_lb, sqrt3_ub])
  rw [show π - 13 * π / 6 + turnDelta (⟨.L, 60, .HH⟩ : Move) = π - 15 * π / 6 by
    unfold turnDelta angleConst
    push_cast
    ring]
  refine (NoTieX_cons _ _ _ _).mpr ⟨?_, ?_⟩
  · show Int.fract (storeC1W.dists DistClass.HH * Real.cos (π - 15 * π / 6) *
        1000000) ≠ 1 / 2
    have hv : storeC1W.dists DistClass.HH * Real.cos (π - 15 * π / 6) *
        1000000 = 0 := by
      rw [storeC1W_dists_HH, Real.cos_pi_sub, cosu15]
      ring
    rw [hv]
    exact fract_ne_half_lt (0)
      (by push_cast; linarith [sqrt3_lb, sqrt3_ub])
      (by push_cast; linarith [sqrt3_lb, sqrt3_ub])
  exact trivial

set_option maxHeartbeats 2000000 in
theorem ntyC1Wpi : NoTieY storeC1W.dists π (rotatedMoves Chirality.L 0) := by
  rw [show rotatedMoves Chirality.L 0 = [⟨.L, 60, .HS⟩, ⟨.L, 90, .HS⟩, ⟨.L, 60, .HH⟩, ⟨.R, 90, .HH⟩, ⟨.L, 60, .HS⟩, ⟨.L, 60, .FS⟩, ⟨.L, 90, .HS⟩, ⟨.R, 60, .HH⟩, ⟨.L, 90, .HH⟩, ⟨.R, 60, .HS⟩, ⟨.L, 90, .HS⟩, ⟨.L, 60, .HH⟩, ⟨.R, 90, .HH⟩] from rfl]
  refine (NoTieY_cons _ _ _ _).mpr ⟨?_, ?_⟩
  · show Int.fract (storeC1W.dists DistClass.HS * Real.sin (π) *
        1000000) ≠ 1 / 2
    have hv : storeC1W.dists DistClass.HS * Real.sin (π) *
        1000000 = 0 := by
      rw [storeC1W_dists_HS, Real.sin_pi]
      ring
    rw [hv]
    exact fract_ne_half_lt (0)
      (by push_cast; linarith [sqrt3_lb, sqrt3_ub])
      (by push_cast; linarith [sqrt3_lb, sqrt3_ub])
  rw [show π + turnDelta (⟨.L, 60, .HS⟩ : Move) = π - 2 * π / 6 by
    unfold turnDelta angleConst
    push_cast
    ring]
  refine (NoTieY_cons _ _ _ _).mpr ⟨?_, ?_⟩
  · show Int.fract (storeC1W.dists DistClass.HS * Real.sin (π - 2 * π / 6) *
        1000000) ≠ 1 / 2
    have hv : storeC1W.dists DistClass.HS * Real.sin (π - 2 * π / 6) *
        1000000 = 500000 * Real.sqrt 3 := by
      rw [storeC1W_dists_HS, Real.sin_pi_sub, sinu2]
      ring
    rw [hv]
    exact fract_ne_half_lt (866025)
      (by push_cast; linarith [sqrt3_lb, sqrt3_ub])
      (by push_cast; linarith [sqrt3_lb, sqrt3_ub])
  rw [show π - 2 * π / 6 + turnDelta (⟨.L, 90, .HS⟩ : Move) = π - 5 * π / 6 by
    unfold turnDelta angleConst
    push_cast
    ring]
  refine (NoTieY_cons _ _ _ _).mpr ⟨?_, ?_⟩
  · show Int.fract (storeC1W.dists DistClass.HH * Real.sin (π - 5 * π / 6) *
        1000000) ≠ 1 / 2
    have hv : storeC1W.dists DistClass.HH * Real.sin (π - 5 * π / 6) *
        1000000 = 500000 := by
      rw [storeC1W_dists_HH, Real.sin_pi_sub, sinu5]
      ring
    rw [hv]
    exact fract_ne_half_lt (500000)
      (by push_cast; linarith [sqrt3_lb, sqrt3_ub])
      (by push_cast; linarith [sqrt3_lb, sqrt3_ub])
  rw [show π - 5 * π / 6 + turnDelta (⟨.L, 60, .HH⟩ : Move) = π - 7 * π / 6 by
    unfold turnDelta angleConst
    push_cast
    ring]
  refine (NoTieY_cons _ _ _ _).mpr ⟨?_, ?_⟩
  · show Int.fract (storeC1W.dists DistClass.HH * Real.sin (π - 7 * π / 6) *
        1000000) ≠ 1 / 2
    have hv : storeC1W.dists DistClass.HH * Real.sin (π - 7 * π / 6) *
        1000000 = -(500000) := by
      rw [storeC1W_dists_HH, Real.sin_pi_sub, sinu7]
      ring
    rw [hv]
    exact fract_ne_half_lt (-500000)
      (by push_cast; linarith [sqrt3_lb, sqrt3_ub])
      (by push_cast; linarith [sqrt3_lb, sqrt3_ub])
  rw [show π - 7 * π / 6 + turnDelta (⟨.R, 90, .HH⟩ : Move) = π - 4 * π / 6 by
    unfold turnDelta angleConst
    push_cast
    ring]
  refine (NoTieY_cons _ _ _ _).mpr ⟨?_, ?_⟩
  · show Int.fract (storeC1W.dists DistClass.HS * Real.sin (π - 4 * π / 6) *
        1000000) ≠ 1 / 2
    have hv : storeC1W.dists DistClass.HS * Real.sin (π - 4 * π / 6) *
        1000000 = 500000 * Real.sqrt 3 := by
      rw [storeC1W_dists_HS, Real.sin_pi_sub, sinu4]
      ring
    rw [hv]
    exact fract_ne_half_lt (866025)
      (by push_cast; linarith [sqrt3_lb, sqrt3_ub])
      (by push_cast; linarith [sqrt3_lb, sqrt3_ub])
  rw [show π - 4 * π / 6 + turnDelta (⟨.L, 60, .HS⟩ : Move) = π - 6 * π / 6 by
    unfold turnDelta angleConst
    push_cast
    ring]
  refine (NoTieY_cons _ _ _ _).mpr ⟨?_, ?_⟩
  · show Int.fract (storeC1W.dists DistClass.FS * Real.sin (π - 6 * π / 6) *
        1000000) ≠ 1 / 2
    have hv : storeC1W.dists DistClass.FS * Real.sin (π - 6 * π / 6) *
        1000000 = 0 := by
      rw [storeC1W_dists_FS, Real.sin_pi_sub, sinu6]
      ring
    rw [hv]
    exact fract_ne_half_lt (0)
      (by push_cast; linarith [sqrt3_lb, sqrt3_ub])
      (by push_cast; linarith [sqrt3_lb, sqrt3_ub])
  rw [show π - 6 * π / 6 + turnDelta (⟨.L, 60, .FS⟩ : Move) = π - 8 * π / 6 by
    unfold turnDelta angleConst
    push_cast
    ring]
  refine (NoTieY_cons _ _ _ _).mpr ⟨?_, ?_⟩
  · show Int.fract (storeC1W.dists DistClass.HS * Real.sin (π - 8 * π / 6) *
        1000000) ≠ 1 / 2
    have hv : storeC1W.dists DistClass.HS * Real.sin (π - 8 * π / 6) *
        1000000 = -(500000 * Real.sqrt 3) := by
      rw [storeC1W_dists_HS, Real.sin_pi_sub, sinu8]
      ring
    rw [hv]
    exact fract_ne_half_gt (-866026)
      (by push_cast; linarith [sqrt3_lb, sqrt3_ub])
      (by push_cast; linarith [sqrt3_lb, sqrt3_ub])
  rw [show π - 8 * π / 6 + turnDelta (⟨.L, 90, .HS⟩ : Move) = π - 11 * π / 6 by
    unfold turnDelta angleConst
    push_cast
    ring]
  refine (NoTieY_cons _ _ _ _).mpr ⟨?_, ?_⟩
  · show Int.fract (storeC1W.dists DistClass.HH * Real.sin (π - 11 * π / 6) *
        1000000) ≠ 1 / 2
    have hv : storeC1W.dists DistClass.HH * Real.sin (π - 11 * π / 6) *
        1000000 = -(500000) := by
      rw [storeC1W_dists_HH, Real.sin_pi_sub, sinu11]
      ring
    rw [hv]
    exact fract_ne_half_lt (-500000)
      (by push_cast; linarith [sqrt3_lb, sqrt3_ub])
      (by push_cast; linarith [sqrt3_lb, sqrt3_ub])
  rw [show π - 11 * π / 6 + turnDelta (⟨.R, 60, .HH⟩ : Move) = π - 9 * π / 6 by
    unfold turnDelta angleConst
    push_cast
    ring]
  refine (NoTieY_cons _ _ _ _).mpr ⟨?_, ?_⟩
  · show Int.fract (storeC1W.dists DistClass.HH * Real.sin (π - 9 * π / 6) *
        1000000) ≠ 1 / 2
    have hv : storeC1W.dists DistClass.HH * Real.sin (π - 9 * π / 6) *
        1000000 = -(1000000) := by
      rw [storeC1W_dists_HH, Real.sin_pi_sub, sinu9]
      ring
    rw [hv]
    exact fract_ne_half_lt (-1000000)
      (by push_cast; linarith [sqrt3_lb, sqrt3_ub])
      (by push_cast; linarith [sqrt3_lb, sqrt3_ub])
  rw [show π - 9 * π / 6 + turnDelta (⟨.L, 90, .HH⟩ : Move) = π - 12 * π / 6 by
    unfold turnDelta angleConst
    push_cast
    ring]
  refine (NoTieY_cons _ _ _ _).mpr ⟨?_, ?_⟩
  · show Int.fract (storeC1W.dists DistClass.HS * Real.sin (π - 12 * π / 6) *
        1000000) ≠ 1 / 2
    have hv : storeC1W.dists DistClass.HS * Real.sin (π - 12 * π / 6) *
        1000000 = 0 := by
      rw [storeC1W_dists_HS, Real.sin_pi_sub, sinu12]
      ring
    rw [hv]
    exact fract_ne_half_lt (0)
      (by push_cast; linarith [sqrt3_lb, sqrt3_ub])
      (by push_cast; linarith [sqrt3_lb, sqrt3_ub])
  rw [show π - 12 * π / 6 + turnDelta (⟨.R, 60, .HS⟩ : Move) = π - 10 * π / 6 by
    unfold turnDelta angleConst
    push_cast
    ring]
  refine (NoTieY_cons _ _ _ _).mpr ⟨?_, ?_⟩
  · show Int.fract (storeC1W.dists DistClass.HS * Real.sin (π - 10 * π / 6) *
        1000000) ≠ 1 / 2
    have hv : storeC1W.dists DistClass.HS * Real.sin (π - 10 * π / 6) *
        1000000 = -(500000 * Real.sqrt 3) := by
      rw [storeC1W_dists_HS, Real.sin_pi_sub, sinu10]
      ring
    rw [hv]
    exact fract_ne_half_gt (-866026)
      (by push_cast; linarith [sqrt3_lb, sqrt3_ub])
      (by push_cast; linarith [sqrt3_lb, sqrt3_ub])
  rw [show π - 10 * π / 6 + turnDelta (⟨.L, 90, .HS⟩ : Move) = π - 13 * π / 6 by
    unfold turnDelta angleConst
    push_cast
    ring]
  refine (NoTieY_cons _ _ _ _).mpr ⟨?_, ?_⟩
  · show Int.fract (storeC1W.dists DistClass.HH * Real.sin (π - 13 * π / 6) *
        1000000) ≠ 1 / 2
    have hv : storeC1W.dists DistClass.HH * Real.sin (π - 13 * π / 6) *
        1000000 = 500000 := by
      rw [storeC1W_dists_HH, Real.sin_pi_sub, sinu13]
      ring
    rw [hv]
    exact fract_ne_half_lt (500000)
      (by push_cast; linarith [sqrt3_lb, sqrt3_ub])
      (by push_cast; linarith [sqrt3_lb, sqrt3_ub])
  rw [show π - 13 * π / 6 + turnDelta (⟨.L, 60, .HH⟩ : Move) = π - 15 * π / 6 by
    unfold turnDelta angleConst
    push_cast
    ring]
  refine (NoTieY_cons _ _ _ _).mpr ⟨?_, ?_⟩
  · show Int.fract (storeC1W.dists DistClass.HH * Real.sin (π - 15 * π / 6) *
        1000000) ≠ 1 / 2
    have hv : storeC1W.dists DistClass.HH * Real.sin (π - 15 * π / 6) *
        1000000 = 1000000 := by
      rw [storeC1W_dists_HH, Real.sin_pi_sub, sinu15]
      ring
    rw [hv]
    exact fract_ne_half_lt (1000000)
      (by push_cast; linarith [sqrt3_lb, sqrt3_ub])
      (by push_cast; linarith [sqrt3_lb, sqrt3_ub])
  exact trivial

theorem cosu1 : Real.cos (1 * π / 6) = Real.sqrt 3 / 2 := by
  rw [show (1 : ℝ) * π / 6 = π / 6 by ring, Real.cos_pi_div_six]

theorem sinu1 : Real.sin (1 * π / 6) = 1 / 2 := by
  rw [show (1 : ℝ) * π / 6 = π / 6 by ring, Real.sin_pi_div_six]

set_option maxHeartbeats 3000000 in
theorem ptsC1Atrace :
    tracePts storeC1.dists (((0 : ℝ), (0 : ℝ)), aC1) (rotatedMoves Chirality.L 2) =
      [(1123975 / 1000000, 842981 / 1000000), (2416006 / 1000000, 291081 / 1000000), (3203150 / 1000000, 2133831 / 1000000), (7182031 / 1000000, 2613208 / 1000000), (8384327 / 1000000, 1010146 / 1000000), (7260352 / 1000000, 167165 / 1000000), (7428408 / 1000000, -1227717 / 1000000), (5438968 / 1000000, -1467405 / 1000000), (4651824 / 1000000, -3310155 / 1000000), (3359793 / 1000000, -2758255 / 1000000), (3191737 / 1000000, -1363373 / 1000000), (1202297 / 1000000, -1603061 / 1000000), (1 / 1000000, 1 / 1000000)] := by
  have hx1 : round6 ((0 : ℝ) + storeC1.dists DistClass.HH *
      Real.cos (aC1)) = 1123975 / 1000000 := by
    have hv : (0 : ℝ) + storeC1.dists DistClass.HH * Real.cos (aC1) =
        14049691 / 12500000 := by
      rw [storeC1_dists_HH, cos_aC1]
      ring
    rw [hv, round6_eq_div (14049691 / 12500000) (1123975)
      (by push_cast; linarith [sqrt3_lb, sqrt3_ub])
      (by push_cast; linarith [sqrt3_lb, sqrt3_ub])]
    norm_num
  have hy1 : round6 ((0 : ℝ) + storeC1.dists DistClass.HH *
      Real.sin (aC1)) = 842981 / 1000000 := by
    have hv : (0 : ℝ) + storeC1.dists DistClass.HH * Real.sin (aC1) =
        42149073 / 50000000 := by
      rw [storeC1_dists_HH, sin_aC1]
      ring
    rw [hv, round6_eq_div (42149073 / 50000000) (842981)
      (by push_cast; linarith [sqrt3_lb, sqrt3_ub])
      (by push_cast; linarith [sqrt3_lb, sqrt3_ub])]
    norm_num
  have hb1 : aC1 + turnDelta (⟨.L, 60, .HH⟩ : Move) = aC1 - 2 * π / 6 := by
    unfold turnDelta angleConst
    push_cast
    ring
  have hs1 : traceStep storeC1.dists ((((0 : ℝ)), ((0 : ℝ))), aC1)
      ⟨.L, 60, .HH⟩ = (((1123975 / 1000000), (842981 / 1000000)), aC1 - 2 * π / 6) :=
    traceStep_eval _ _ _ _ _ _ _ _ hx1 hy1 hb1
  have hx2 : round6 (1123975 / 1000000 + storeC1.dists DistClass.HH *
      Real.cos (aC1 - 2 * π / 6)) = 2416006 / 1000000 := by
    have hv : 1123975 / 1000000 + storeC1.dists DistClass.HH * Real.cos (aC1 - 2 * π / 6) =
        21074533 / 12500000 + 42149073 / 100000000 * Real.sqrt 3 := by
      rw [storeC1_dists_HH, Real.cos_sub, cos_aC1, sin_aC1, cosu2, sinu2]
      ring
    rw [hv, round6_eq_div (21074533 / 12500000 + 42149073 / 100000000 * Real.sqrt 3) (2416006)
      (by push_cast; linarith [sqrt3_lb, sqrt3_ub])
      (by push_cast; linarith [sqrt3_lb, sqrt3_ub])]
    norm_num
  have hy2 : round6 (842981 / 1000000 + storeC1.dists DistClass.HH *
      Real.sin (aC1 - 2 * π / 6)) = 291081 / 1000000 := by
    have hv : 842981 / 1000000 + storeC1.dists DistClass.HH * Real.sin (aC1 - 2 * π / 6) =
        126447173 / 100000000 - 14049691 / 25000000 * Real.sqrt 3 := by
      rw [storeC1_dists_HH, Real.sin_sub, cos_aC1, sin_aC1, cosu2, sinu2]
      ring
    rw [hv, round6_eq_div (126447173 / 100000000 - 14049691 / 25000000 * Real.sqrt 3) (291081)
      (by push_cast; linarith [sqrt3_lb, sqrt3_ub])
      (by push_cast; linarith [sqrt3_lb, sqrt3_ub])]
    norm_num
  have hb2 : aC1 - 2 * π / 6 + turnDelta (⟨.R, 90, .HH⟩ : Move) = aC1 + π / 6 := by
    unfold turnDelta angleConst
    push_cast
    ring
  have hs2 : traceStep storeC1.dists (((1123975 / 1000000), (842981 / 1000000)), aC1 - 2 * π / 6)
      ⟨.R, 90, .HH⟩ = (((2416006 / 1000000), (291081 / 1000000)), aC1 + π / 6) :=
    traceStep_eval _ _ _ _ _ _ _ _ hx2 hy2 hb2
  have hx3 : round6 (2416006 / 1000000 + storeC1.dists DistClass.HS *
      Real.cos (aC1 + π / 6)) = 3203150 / 1000000 := by
    have hv : 2416006 / 1000000 + storeC1.dists DistClass.HS * Real.cos (aC1 + π / 6) =
        181485781 / 100000000 + 20038273 / 25000000 * Real.sqrt 3 := by
      rw [storeC1_dists_HS, Real.cos_add, cos_aC1, sin_aC1, Real.cos_pi_div_six, Real.sin_pi_div_six]
      ring
    rw [hv, round6_eq_div (181485781 / 100000000 + 20038273 / 25000000 * Real.sqrt 3) (3203150)
      (by push_cast; linarith [sqrt3_lb, sqrt3_ub])
      (by push_cast; linarith [sqrt3_lb, sqrt3_ub])]
    norm_num
  have hy3 : round6 (291081 / 1000000 + storeC1.dists DistClass.HS *
      Real.sin (aC1 + π / 6)) = 2133831 / 1000000 := by
    have hv : 291081 / 1000000 + storeC1.dists DistClass.HS * Real.sin (aC1 + π / 6) =
        13657649 / 12500000 + 60114819 / 100000000 * Real.sqrt 3 := by
      rw [storeC1_dists_HS, Real.sin_add, cos_aC1, sin_aC1, Real.cos_pi_div_six, Real.sin_pi_div_six]
      ring
    rw [hv, round6_eq_div (13657649 / 12500000 + 60114819 / 100000000 * Real.sqrt 3) (2133831)
      (by push_cast; linarith [sqrt3_lb, sqrt3_ub])
      (by push_cast; linarith [sqrt3_lb, sqrt3_ub])]
    norm_num
  have hb3 : aC1 + π / 6 + turnDelta (⟨.L, 60, .HS⟩ : Move) = aC1 - 1 * π / 6 := by
    unfold turnDelta angleConst
    push_cast
    ring
  have hs3 : traceStep storeC1.dists (((2416006 / 1000000), (291081 / 1000000)), aC1 + π / 6)
      ⟨.L, 60, .HS⟩ = (((3203150 / 1000000), (2133831 / 1000000)), aC1 - 1 * π / 6) :=
    traceStep_eval _ _ _ _ _ _ _ _ hx3 hy3 hb3
  have hx4 : round6 (3203150 / 1000000 + storeC1.dists DistClass.FS *
      Real.cos (aC1 - 1 * π / 6)) = 7182031 / 1000000 := by
    have hv : 3203150 / 1000000 + storeC1.dists DistClass.FS * Real.cos (aC1 - 1 * π / 6) =
        220272319 / 50000000 + 20038273 / 12500000 * Real.sqrt 3 := by
      rw [storeC1_dists_FS, Real.cos_sub, cos_aC1, sin_aC1, cosu1, sinu1]
      ring
    rw [hv, round6_eq_div (220272319 / 50000000 + 20038273 / 12500000 * Real.sqrt 3) (7182031)
      (by push_cast; linarith [sqrt3_lb, sqrt3_ub])
      (by push_cast; linarith [sqrt3_lb, sqrt3_ub])]
    norm_num
  have hy4 : round6 (2133831 / 1000000 + storeC1.dists DistClass.FS *
      Real.sin (aC1 - 1 * π / 6)) = 2613208 / 1000000 := by
    have hv : 2133831 / 1000000 + storeC1.dists DistClass.FS * Real.sin (aC1 - 1 * π / 6) =
        13269229 / 25000000 + 60114819 / 50000000 * Real.sqrt 3 := by
      rw [storeC1_dists_FS, Real.sin_sub, cos_aC1, sin_aC1, cosu1, sinu1]
      ring
    rw [hv, round6_eq_div (13269229 / 25000000 + 60114819 / 50000000 * Real.sqrt 3) (2613208)
      (by push_cast; linarith [sqrt3_lb, sqrt3_ub])
      (by push_cast; linarith [sqrt3_lb, sqrt3_ub])]
    norm_num
  have hb4 : aC1 - 1 * π / 6 + turnDelta (⟨.L, 60, .FS⟩ : Move) = aC1 - 3 * π / 6 := by
    unfold turnDelta angleConst
    push_cast
    ring
  have hs4 : traceStep storeC1.dists (((3203150 / 1000000), (2133831 / 1000000)), aC1 - 1 * π / 6)
      ⟨.L, 60, .FS⟩ = (((7182031 / 1000000), (2613208 / 1000000)), aC1 - 3 * π / 6) :=
    traceStep_eval _ _ _ _ _ _ _ _ hx4 hy4 hb4
  have hx5 : round6 (7182031 / 1000000 + storeC1.dists DistClass.HS *
      Real.cos (aC1 - 3 * π / 6)) = 8384327 / 1000000 := by
    have hv : 7182031 / 1000000 + storeC1.dists DistClass.HS * Real.cos (aC1 - 3 * π / 6) =
        419216369 / 50000000 := by
      rw [storeC1_dists_HS, Real.cos_sub, cos_aC1, sin_aC1, cosu3, sinu3]
      ring
    rw [hv, round6_eq_div (419216369 / 50000000) (8384327)
      (by push_cast; linarith [sqrt3_lb, sqrt3_ub])
      (by push_cast; linarith [sqrt3_lb, sqrt3_ub])]
    norm_num
  have hy5 : round6 (2613208 / 1000000 + storeC1.dists DistClass.HS *
      Real.sin (aC1 - 3 * π / 6)) = 1010146 / 1000000 := by
    have hv : 2613208 / 1000000 + storeC1.dists DistClass.HS * Real.sin (aC1 - 3 * π / 6) =
        12626827 / 12500000 := by
      rw [storeC1_dists_HS, Real.sin_sub, cos_aC1, sin_aC1, cosu3, sinu3]
      ring
    rw [hv, round6_eq_div (12626827 / 12500000) (1010146)
      (by push_cast; linarith [sqrt3_lb, sqrt3_ub])
      (by push_cast; linarith [sqrt3_lb, sqrt3_ub])]
    norm_num
  have hb5 : aC1 - 3 * π / 6 + turnDelta (⟨.L, 90, .HS⟩ : Move) = aC1 - 6 * π / 6 := by
    unfold turnDelta angleConst
    push_cast
    ring
  have hs5 : traceStep storeC1.dists (((7182031 / 1000000), (2613208 / 1000000)), aC1 - 3 * π / 6)
      ⟨.L, 90, .HS⟩ = (((8384327 / 1000000), (1010146 / 1000000)), aC1 - 6 * π / 6) :=
    traceStep_eval _ _ _ _ _ _ _ _ hx5 hy5 hb5
  have hx6 : round6 (8384327 / 1000000 + storeC1.dists DistClass.HH *
      Real.cos (aC1 - 6 * π / 6)) = 7260352 / 1000000 := by
    have hv : 8384327 / 1000000 + storeC1.dists DistClass.HH * Real.cos (aC1 - 6 * π / 6) =
        181508793 / 25000000 := by
      rw [storeC1_dists_HH, Real.cos_sub, cos_aC1, sin_aC1, cosu6, sinu6]
      ring
    rw [hv, round6_eq_div (181508793 / 25000000) (7260352)
      (by push_cast; linarith [sqrt3_lb, sqrt3_ub])
      (by push_cast; linarith [sqrt3_lb, sqrt3_ub])]
    norm_num
  have hy6 : round6 (1010146 / 1000000 + storeC1.dists DistClass.HH *
      Real.sin (aC1 - 6 * π / 6)) = 167165 / 1000000 := by
    have hv : 1010146 / 1000000 + storeC1.dists DistClass.HH * Real.sin (aC1 - 6 * π / 6) =
        8358227 / 50000000 := by
      rw [storeC1_dists_HH, Real.sin_sub, cos_aC1, sin_aC1, cosu6, sinu6]
      ring
    rw [hv, round6_eq_div (8358227 / 50000000) (167165)
      (by push_cast; linarith [sqrt3_lb, sqrt3_ub])
      (by push_cast; linarith [sqrt3_lb, sqrt3_ub])]
    norm_num
  have hb6 : aC1 - 6 * π / 6 + turnDelta (⟨.R, 60, .HH⟩ : Move) = aC1 - 4 * π / 6 := by
    unfold turnDelta angleConst
    push_cast
    ring
  have hs6 : traceStep storeC1.dists (((8384327 / 1000000), (1010146 / 1000000)), aC1 - 6 * π / 6)
      ⟨.R, 60, .HH⟩ = (((7260352 / 1000000), (167165 / 1000000)), aC1 - 4 * π / 6) :=
    traceStep_eval _ _ _ _ _ _ _ _ hx6 hy6 hb6
  have hx7 : round6 (7260352 / 1000000 + storeC1.dists DistClass.HH *
      Real.cos (aC1 - 4 * π / 6)) = 7428408 / 1000000 := by
    have hv : 7260352 / 1000000 + storeC1.dists DistClass.HH * Real.cos (aC1 - 4 * π / 6) =
        167459109 / 25000000 + 42149073 / 100000000 * Real.sqrt 3 := by
      rw [storeC1_dists_HH, Real.cos_sub, cos_aC1, sin_aC1, cosu4, sinu4]
      ring
    rw [hv, round6_eq_div (167459109 / 25000000 + 42149073 / 100000000 * Real.sqrt 3) (7428408)
      (by push_cast; linarith [sqrt3_lb, sqrt3_ub])
      (by push_cast; linarith [sqrt3_lb, sqrt3_ub])]
    norm_num
  have hy7 : round6 (167165 / 1000000 + storeC1.dists DistClass.HH *
      Real.sin (aC1 - 4 * π / 6)) = -1227717 / 1000000 := by
    have hv : 167165 / 1000000 + storeC1.dists DistClass.HH * Real.sin (aC1 - 4 * π / 6) =
        -(25432573 / 100000000) - 14049691 / 25000000 * Real.sqrt 3 := by
      rw [storeC1_dists_HH, Real.sin_sub, cos_aC1, sin_aC1, cosu4, sinu4]
      ring
    rw [hv, round6_eq_div (-(25432573 / 100000000) - 14049691 / 25000000 * Real.sqrt 3) (-1227717)
      (by push_cast; linarith [sqrt3_lb, sqrt3_ub])
      (by push_cast; linarith [sqrt3_lb, sqrt3_ub])]
    norm_num
  have hb7 : aC1 - 4 * π / 6 + turnDelta (⟨.L, 90, .HH⟩ : Move) = aC1 - 7 * π / 6 := by
    unfold turnDelta angleConst
    push_cast
    ring
  have hs7 : traceStep storeC1.dists (((7260352 / 1000000), (167165 / 1000000)), aC1 - 4 * π / 6)
      ⟨.L, 90, .HH⟩ = (((7428408 / 1000000), (-1227717 / 1000000)), aC1 - 7 * π / 6) :=
    traceStep_eval _ _ _ _ _ _ _ _ hx7 hy7 hb7
  have hx8 : round6 (7428408 / 1000000 + storeC1.dists DistClass.HS *
      Real.cos (aC1 - 7 * π / 6)) = 5438968 / 1000000 := by
    have hv : 7428408 / 1000000 + storeC1.dists DistClass.HS * Real.cos (aC1 - 7 * π / 6) =
        682725981 / 100000000 - 20038273 / 25000000 * Real.sqrt 3 := by
      rw [storeC1_dists_HS, Real.cos_sub, cos_aC1, sin_aC1, cosu7, sinu7]
      ring
    rw [hv, round6_eq_div (682725981 / 100000000 - 20038273 / 25000000 * Real.sqrt 3) (5438968)
      (by push_cast; linarith [sqrt3_lb, sqrt3_ub])
      (by push_cast; linarith [sqrt3_lb, sqrt3_ub])]
    norm_num
  have hy8 : round6 (-1227717 / 1000000 + storeC1.dists DistClass.HS *
      Real.sin (aC1 - 7 * π / 6)) = -1467405 / 1000000 := by
    have hv : -1227717 / 1000000 + storeC1.dists DistClass.HS * Real.sin (aC1 - 7 * π / 6) =
        -(2663663 / 6250000) - 60114819 / 100000000 * Real.sqrt 3 := by
      rw [storeC1_dists_HS, Real.sin_sub, cos_aC1, sin_aC1, cosu7, sinu7]
      ring
    rw [hv, round6_eq_div (-(2663663 / 6250000) - 60114819 / 100000000 * Real.sqrt 3) (-1467405)
      (by push_cast; linarith [sqrt3_lb, sqrt3_ub])
      (by push_cast; linarith [sqrt3_lb, sqrt3_ub])]
    norm_num
  have hb8 : aC1 - 7 * π / 6 + turnDelta (⟨.R, 60, .HS⟩ : Move) = aC1 - 5 * π / 6 := by
    unfold turnDelta angleConst
    push_cast
    ring
  have hs8 : traceStep storeC1.dists (((7428408 / 1000000), (-1227717 / 1000000)), aC1 - 7 * π / 6)
      ⟨.R, 60, .HS⟩ = (((5438968 / 1000000), (-1467405 / 1000000)), aC1 - 5 * π / 6) :=
    traceStep_eval _ _ _ _ _ _ _ _ hx8 hy8 hb8
  have hx9 : round6 (5438968 / 1000000 + storeC1.dists DistClass.HS *
      Real.cos (aC1 - 5 * π / 6)) = 4651824 / 1000000 := by
    have hv : 5438968 / 1000000 + storeC1.dists DistClass.HS * Real.cos (aC1 - 5 * π / 6) =
        604011619 / 100000000 - 20038273 / 25000000 * Real.sqrt 3 := by
      rw [storeC1_dists_HS, Real.cos_sub, cos_aC1, sin_aC1, cosu5, sinu5]
      ring
    rw [hv, round6_eq_div (604011619 / 100000000 - 20038273 / 25000000 * Real.sqrt 3) (4651824)
      (by push_cast; linarith [sqrt3_lb, sqrt3_ub])
      (by push_cast; linarith [sqrt3_lb, sqrt3_ub])]
    norm_num
  have hy9 : round6 (-1467405 / 1000000 + storeC1.dists DistClass.HS *
      Real.sin (aC1 - 5 * π / 6)) = -3310155 / 1000000 := by
    have hv : -1467405 / 1000000 + storeC1.dists DistClass.HS * Real.sin (aC1 - 5 * π / 6) =
        -(28361699 / 12500000) - 60114819 / 100000000 * Real.sqrt 3 := by
      rw [storeC1_dists_HS, Real.sin_sub, cos_aC1, sin_aC1, cosu5, sinu5]
      ring
    rw [hv, round6_eq_div (-(28361699 / 12500000) - 60114819 / 100000000 * Real.sqrt 3) (-3310155)
      (by push_cast; linarith [sqrt3_lb, sqrt3_ub])
      (by push_cast; linarith [sqrt3_lb, sqrt3_ub])]
    norm_num
  have hb9 : aC1 - 5 * π / 6 + turnDelta (⟨.L, 90, .HS⟩ : Move) = aC1 - 8 * π / 6 := by
    unfold turnDelta angleConst
    push_cast
    ring
  have hs9 : traceStep storeC1.dists (((5438968 / 1000000), (-1467405 / 1000000)), aC1 - 5 * π / 6)
      ⟨.L, 90, .HS⟩ = (((4651824 / 1000000), (-3310155 / 1000000)), aC1 - 8 * π / 6) :=
    traceStep_eval _ _ _ _ _ _ _ _ hx9 hy9 hb9
  have hx10 : round6 (4651824 / 1000000 + storeC1.dists DistClass.HH *
      Real.cos (aC1 - 8 * π / 6)) = 3359793 / 1000000 := by
    have hv : 4651824 / 1000000 + storeC1.dists DistClass.HH * Real.cos (aC1 - 8 * π / 6) =
        102245909 / 25000000 - 42149073 / 100000000 * Real.sqrt 3 := by
      rw [storeC1_dists_HH, Real.cos_sub, cos_aC1, sin_aC1, cosu8, sinu8]
      ring
    rw [hv, round6_eq_div (102245909 / 25000000 - 42149073 / 100000000 * Real.sqrt 3) (3359793)
      (by push_cast; linarith [sqrt3_lb, sqrt3_ub])
      (by push_cast; linarith [sqrt3_lb, sqrt3_ub])]
    norm_num
  have hy10 : round6 (-3310155 / 1000000 + storeC1.dists DistClass.HH *
      Real.sin (aC1 - 8 * π / 6)) = -2758255 / 1000000 := by
    have hv : -3310155 / 1000000 + storeC1.dists DistClass.HH * Real.sin (aC1 - 8 * π / 6) =
        -(373164573 / 100000000) + 14049691 / 25000000 * Real.sqrt 3 := by
      rw [storeC1_dists_HH, Real.sin_sub, cos_aC1, sin_aC1, cosu8, sinu8]
      ring
    rw [hv, round6_eq_div (-(373164573 / 100000000) + 14049691 / 25000000 * Real.sqrt 3) (-2758255)
      (by push_cast; linarith [sqrt3_lb, sqrt3_ub])
      (by push_cast; linarith [sqrt3_lb, sqrt3_ub])]
    norm_num
  have hb10 : aC1 - 8 * π / 6 + turnDelta (⟨.L, 60, .HH⟩ : Move) = aC1 - 10 * π / 6 := by
    unfold turnDelta angleConst
    push_cast
    ring
  have hs10 : traceStep storeC1.dists (((4651824 / 1000000), (-3310155 / 1000000)), aC1 - 8 * π / 6)
      ⟨.L, 60, .HH⟩ = (((3359793 / 1000000), (-2758255 / 1000000)), aC1 - 10 * π / 6) :=
    traceStep_eval _ _ _ _ _ _ _ _ hx10 hy10 hb10
  have hx11 : round6 (3359793 / 1000000 + storeC1.dists DistClass.HH *
      Real.cos (aC1 - 10 * π / 6)) = 3191737 / 1000000 := by
    have hv : 3359793 / 1000000 + storeC1.dists DistClass.HH * Real.cos (aC1 - 10 * π / 6) =
        24511129 / 6250000 - 42149073 / 100000000 * Real.sqrt 3 := by
      rw [storeC1_dists_HH, Real.cos_sub, cos_aC1, sin_aC1, cosu10, sinu10]
      ring
    rw [hv, round6_eq_div (24511129 / 6250000 - 42149073 / 100000000 * Real.sqrt 3) (3191737)
      (by push_cast; linarith [sqrt3_lb, sqrt3_ub])
      (by push_cast; linarith [sqrt3_lb, sqrt3_ub])]
    norm_num
  have hy11 : round6 (-2758255 / 1000000 + storeC1.dists DistClass.HH *
      Real.sin (aC1 - 10 * π / 6)) = -1363373 / 1000000 := by
    have hv : -2758255 / 1000000 + storeC1.dists DistClass.HH * Real.sin (aC1 - 10 * π / 6) =
        -(233676427 / 100000000) + 14049691 / 25000000 * Real.sqrt 3 := by
      rw [storeC1_dists_HH, Real.sin_sub, cos_aC1, sin_aC1, cosu10, sinu10]
      ring
    rw [hv, round6_eq_div (-(233676427 / 100000000) + 14049691 / 25000000 * Real.sqrt 3) (-1363373)
      (by push_cast; linarith [sqrt3_lb, sqrt3_ub])
      (by push_cast; linarith [sqrt3_lb, sqrt3_ub])]
    norm_num
  have hb11 : aC1 - 10 * π / 6 + turnDelta (⟨.R, 90, .HH⟩ : Move) = aC1 - 7 * π / 6 := by
    unfold turnDelta angleConst
    push_cast
    ring
  have hs11 : traceStep storeC1.dists (((3359793 / 1000000), (-2758255 / 1000000)), aC1 - 10 * π / 6)
      ⟨.R, 90, .HH⟩ = (((3191737 / 1000000), (-1363373 / 1000000)), aC1 - 7 * π / 6) :=
    traceStep_eval _ _ _ _ _ _ _ _ hx11 hy11 hb11
  have hx12 : round6 (3191737 / 1000000 + storeC1.dists DistClass.HS *
      Real.cos (aC1 - 7 * π / 6)) = 1202297 / 1000000 := by
    have hv : 3191737 / 1000000 + storeC1.dists DistClass.HS * Real.cos (aC1 - 7 * π / 6) =
        259058881 / 100000000 - 20038273 / 25000000 * Real.sqrt 3 := by
      rw [storeC1_dists_HS, Real.cos_sub, cos_aC1, sin_aC1, cosu7, sinu7]
      ring
    rw [hv, round6_eq_div (259058881 / 100000000 - 20038273 / 25000000 * Real.sqrt 3) (1202297)
      (by push_cast; linarith [sqrt3_lb, sqrt3_ub])
      (by push_cast; linarith [sqrt3_lb, sqrt3_ub])]
    norm_num
  have hy12 : round6 (-1363373 / 1000000 + storeC1.dists DistClass.HS *
      Real.sin (aC1 - 7 * π / 6)) = -1603061 / 1000000 := by
    have hv : -1363373 / 1000000 + storeC1.dists DistClass.HS * Real.sin (aC1 - 7 * π / 6) =
        -(3511513 / 6250000) - 60114819 / 100000000 * Real.sqrt 3 := by
      rw [storeC1_dists_HS, Real.sin_sub, cos_aC1, sin_aC1, cosu7, sinu7]
      ring
    rw [hv, round6_eq_div (-(3511513 / 6250000) - 60114819 / 100000000 * Real.sqrt 3) (-1603061)
      (by push_cast; linarith [sqrt3_lb, sqrt3_ub])
      (by push_cast; linarith [sqrt3_lb, sqrt3_ub])]
    norm_num
  have hb12 : aC1 - 7 * π / 6 + turnDelta (⟨.L, 60, .HS⟩ : Move) = aC1 - 9 * π / 6 := by
    unfold turnDelta angleConst
    push_cast
    ring
  have hs12 : traceStep storeC1.dists (((3191737 / 1000000), (-1363373 / 1000000)), aC1 - 7 * π / 6)
      ⟨.L, 60, .HS⟩ = (((1202297 / 1000000), (-1603061 / 1000000)), aC1 - 9 * π / 6) :=
    traceStep_eval _ _ _ _ _ _ _ _ hx12 hy12 hb12
  have hx13 : round6 (1202297 / 1000000 + storeC1.dists DistClass.HS *
      Real.cos (aC1 - 9 * π / 6)) = 1 / 1000000 := by
    have hv : 1202297 / 1000000 + storeC1.dists DistClass.HS * Real.cos (aC1 - 9 * π / 6) =
        31 / 50000000 := by
      rw [storeC1_dists_HS, Real.cos_sub, cos_aC1, sin_aC1, cosu9, sinu9]
      ring
    rw [hv, round6_eq_div (31 / 50000000) (1)
      (by push_cast; linarith [sqrt3_lb, sqrt3_ub])
      (by push_cast; linarith [sqrt3_lb, sqrt3_ub])]
    norm_num
  have hy13 : round6 (-1603061 / 1000000 + storeC1.dists DistClass.HS *
      Real.sin (aC1 - 9 * π / 6)) = 1 / 1000000 := by
    have hv : -1603061 / 1000000 + storeC1.dists DistClass.HS * Real.sin (aC1 - 9 * π / 6) =
        21 / 25000000 := by
      rw [storeC1_dists_HS, Real.sin_sub, cos_aC1, sin_aC1, cosu9, sinu9]
      ring
    rw [hv, round6_eq_div (21 / 25000000) (1)
      (by push_cast; linarith [sqrt3_lb, sqrt3_ub])
      (by push_cast; linarith [sqrt3_lb, sqrt3_ub])]
    norm_num
  have hb13 : aC1 - 9 * π / 6 + turnDelta (⟨.L, 90, .HS⟩ : Move) = aC1 - 12 * π / 6 := by
    unfold turnDelta angleConst
    push_cast
    ring
  have hs13 : traceStep storeC1.dists (((1202297 / 1000000), (-1603061 / 1000000)), aC1 - 9 * π / 6)
      ⟨.L, 90, .HS⟩ = (((1 / 1000000), (1 / 1000000)), aC1 - 12 * π / 6) :=
    traceStep_eval _ _ _ _ _ _ _ _ hx13 hy13 hb13
  rw [show rotatedMoves Chirality.L 2 = [⟨.L, 60, .HH⟩, ⟨.R, 90, .HH⟩, ⟨.L, 60, .HS⟩, ⟨.L, 60, .FS⟩, ⟨.L, 90, .HS⟩, ⟨.R, 60, .HH⟩, ⟨.L, 90, .HH⟩, ⟨.R, 60, .HS⟩, ⟨.L, 90, .HS⟩, ⟨.L, 60, .HH⟩, ⟨.R, 90, .HH⟩, ⟨.L, 60, .HS⟩, ⟨.L, 90, .HS⟩] from rfl]
  rw [tracePts_cons, hs1]
  rw [tracePts_cons, hs2]
  rw [tracePts_cons, hs3]
  rw [tracePts_cons, hs4]
  rw [tracePts_cons, hs5]
  rw [tracePts_cons, hs6]
  rw [tracePts_cons, hs7]
  rw [tracePts_cons, hs8]
  rw [tracePts_cons, hs9]
  rw [tracePts_cons, hs10]
  rw [tracePts_cons, hs11]
  rw [tracePts_cons, hs12]
  rw [tracePts_cons, hs13]
  rfl

set_option maxHeartbeats 2000000 in
theorem ntxC1A : NoTieX storeC1.dists aC1 (rotatedMoves Chirality.L 2) := by
  rw [show rotatedMoves Chirality.L 2 = [⟨.L, 60, .HH⟩, ⟨.R, 90, .HH⟩, ⟨.L, 60, .HS⟩, ⟨.L, 60, .FS⟩, ⟨.L, 90, .HS⟩, ⟨.R, 60, .HH⟩, ⟨.L, 90, .HH⟩, ⟨.R, 60, .HS⟩, ⟨.L, 90, .HS⟩, ⟨.L, 60, .HH⟩, ⟨.R, 90, .HH⟩, ⟨.L, 60, .HS⟩, ⟨.L, 90, .HS⟩] from rfl]
  refine (NoTieX_cons _ _ _ _).mpr ⟨?_, ?_⟩
  · show Int.fract (storeC1.dists DistClass.HH * Real.cos (aC1) *
        1000000) ≠ 1 / 2
    have hv : storeC1.dists DistClass.HH * Real.cos (aC1) *
        1000000 = 28099382 / 25 := by
      rw [storeC1_dists_HH, cos_aC1]
      ring
    rw [hv]
    exact fract_ne_half_lt (1123975)
      (by push_cast; linarith [sqrt3_lb, sqrt3_ub])
      (by push_cast; linarith [sqrt3_lb, sqrt3_ub])
  rw [show aC1 + turnDelta (⟨.L, 60, .HH⟩ : Move) = aC1 - 2 * π / 6 by
    unfold turnDelta angleConst
    push_cast
    ring]
  refine (NoTieX_cons _ _ _ _).mpr ⟨?_, ?_⟩
  · show Int.fract (storeC1.dists DistClass.HH * Real.cos (aC1 - 2 * π / 6) *
        1000000) ≠ 1 / 2
    have hv : storeC1.dists DistClass.HH * Real.cos (aC1 - 2 * π / 6) *
        1000000 = 14049691 / 25 + 42149073 / 100 * Real.sqrt 3 := by
      rw [storeC1_dists_HH, Real.cos_sub, cos_aC1, sin_aC1, cosu2, sinu2]
      ring
    rw [hv]
    exact fract_ne_half_gt (1292030)
      (by push_cast; linarith [sqrt3_lb, sqrt3_ub])
      (by push_cast; linarith [sqrt3_lb, sqrt3_ub])
  rw [show aC1 - 2 * π / 6 + turnDelta (⟨.R, 90, .HH⟩ : Move) = aC1 + π / 6 by
    unfold turnDelta angleConst
    push_cast
    ring]
  refine (NoTieX_cons _ _ _ _).mpr ⟨?_, ?_⟩
  · show Int.fract (storeC1.dists DistClass.HS * Real.cos (aC1 + π / 6) *
        1000000) ≠ 1 / 2
    have hv : storeC1.dists DistClass.HS * Real.cos (aC1 + π / 6) *
        1000000 = -(60114819 / 100) + 20038273 / 25 * Real.sqrt 3 := by
      rw [storeC1_dists_HS, Real.cos_add, cos_aC1, sin_aC1, Real.cos_pi_div_six, Real.sin_pi_div_six]
      ring
    rw [hv]
    exact fract_ne_half_lt (787144)
      (by push_cast; linarith [sqrt3_lb, sqrt3_ub])
      (by push_cast; linarith [sqrt3_lb, sqrt3_ub])
  rw [show aC1 + π / 6 + turnDelta (⟨.L, 60, .HS⟩ : Move) = aC1 - 1 * π / 6 by
    unfold turnDelta angleConst
    push_cast
    ring]
  refine (NoTieX_cons _ _ _ _).mpr ⟨?_, ?_⟩
  · show Int.fract (storeC1.dists DistClass.FS * Real.cos (aC1 - 1 * π / 6) *
        1000000) ≠ 1 / 2
    have hv : storeC1.dists DistClass.FS * Real.cos (aC1 - 1 * π / 6) *
        1000000 = 60114819 / 50 + 40076546 / 25 * Real.sqrt 3 := by
      rw [storeC1_dists_FS, Real.cos_sub, cos_aC1, sin_aC1, cosu1, sinu1]
      ring
    rw [hv]
    exact fract_ne_half_gt (3978880)
      (by push_cast; linarith [sqrt3_lb, sqrt3_ub])
      (by push_cast; linarith [sqrt3_lb, sqrt3_ub])
  rw [show aC1 - 1 * π / 6 + turnDelta (⟨.L, 60, .FS⟩ : Move) = aC1 - 3 * π / 6 by
    unfold turnDelta angleConst
    push_cast
    ring]
  refine (NoTieX_cons _ _ _ _).mpr ⟨?_, ?_⟩
  · show Int.fract (storeC1.dists DistClass.HS * Real.cos (aC1 - 3 * π / 6) *
        1000000) ≠ 1 / 2
    have hv : storeC1.dists DistClass.HS * Real.cos (aC1 - 3 * π / 6) *
        1000000 = 60114819 / 50 := by
      rw [storeC1_dists_HS, Real.cos_sub, cos_aC1, sin_aC1, cosu3, sinu3]
      ring
    rw [hv]
    exact fract_ne_half_lt (1202296)
      (by push_cast; linarith [sqrt3_lb, sqrt3_ub])
      (by push_cast; linarith [sqrt3_lb, sqrt3_ub])
  rw [show aC1 - 3 * π / 6 + turnDelta (⟨.L, 90, .HS⟩ : Move) = aC1 - 6 * π / 6 by
    unfold turnDelta angleConst
    push_cast
    ring]
  refine (NoTieX_cons _ _ _ _).mpr ⟨?_, ?_⟩
  · show Int.fract (storeC1.dists DistClass.HH * Real.cos (aC1 - 6 * π / 6) *
        1000000) ≠ 1 / 2
    have hv : storeC1.dists DistClass.HH * Real.cos (aC1 - 6 * π / 6) *
        1000000 = -(28099382 / 25) := by
      rw [storeC1_dists_HH, Real.cos_sub, cos_aC1, sin_aC1, cosu6, sinu6]
      ring
    rw [hv]
    exact fract_ne_half_gt (-1123976)
      (by push_cast; linarith [sqrt3_lb, sqrt3_ub])
      (by push_cast; linarith [sqrt3_lb, sqrt3_ub])
  rw [show aC1 - 6 * π / 6 + turnDelta (⟨.R, 60, .HH⟩ : Move) = aC1 - 4 * π / 6 by
    unfold turnDelta angleConst
    push_cast
    ring]
  refine (NoTieX_cons _ _ _ _).mpr ⟨?_, ?_⟩
  · show Int.fract (storeC1.dists DistClass.HH * Real.cos (aC1 - 4 * π / 6) *
        1000000) ≠ 1 / 2
    have hv : storeC1.dists DistClass.HH * Real.cos (aC1 - 4 * π / 6) *
        1000000 = -(14049691 / 25) + 42149073 / 100 * Real.sqrt 3 := by
      rw [storeC1_dists_HH, Real.cos_sub, cos_aC1, sin_aC1, cosu4, sinu4]
      ring
    rw [hv]
    exact fract_ne_half_gt (168055)
      (by push_cast; linarith [sqrt3_lb, sqrt3_ub])
      (by push_cast; linarith [sqrt3_lb, sqrt3_ub])
  rw [show aC1 - 4 * π / 6 + turnDelta (⟨.L, 90, .HH⟩ : Move) = aC1 - 7 * π / 6 by
    unfold turnDelta angleConst
    push_cast
    ring]
  refine (NoTieX_cons _ _ _ _).mpr ⟨?_, ?_⟩
  · show Int.fract (storeC1.dists DistClass.HS * Real.cos (aC1 - 7 * π / 6) *
        1000000) ≠ 1 / 2
    have hv : storeC1.dists DistClass.HS * Real.cos (aC1 - 7 * π / 6) *
        1000000 = -(60114819 / 100) - 20038273 / 25 * Real.sqrt 3 := by
      rw [storeC1_dists_HS, Real.cos_sub, cos_aC1, sin_aC1, cosu7, sinu7]
      ring
    rw [hv]
    exact fract_ne_half_gt (-1989441)
      (by push_cast; linarith [sqrt3_lb, sqrt3_ub])
      (by push_cast; linarith [sqrt3_lb, sqrt3_ub])
  rw [show aC1 - 7 * π / 6 + turnDelta (⟨.R, 60, .HS⟩ : Move) = aC1 - 5 * π / 6 by
    unfold turnDelta angleConst
    push_cast
    ring]
  refine (NoTieX_cons _ _ _ _).mpr ⟨?_, ?_⟩
  · show Int.fract (storeC1.dists DistClass.HS * Real.cos (aC1 - 5 * π / 6) *
        1000000) ≠ 1 / 2
    have hv : storeC1.dists DistClass.HS * Real.cos (aC1 - 5 * π / 6) *
        1000000 = 60114819 / 100 - 20038273 / 25 * Real.sqrt 3 := by
      rw [storeC1_dists_HS, Real.cos_sub, cos_aC1, sin_aC1, cosu5, sinu5]
      ring
    rw [hv]
    exact fract_ne_half_gt (-787145)
      (by push_cast; linarith [sqrt3_lb, sqrt3_ub])
      (by push_cast; linarith [sqrt3_lb, sqrt3_ub])
  rw [show aC1 - 5 * π / 6 + turnDelta (⟨.L, 90, .HS⟩ : Move) = aC1 - 8 * π / 6 by
    unfold turnDelta angleConst
    push_cast
    ring]
  refine (NoTieX_cons _ _ _ _).mpr ⟨?_, ?_⟩
  · show Int.fract (storeC1.dists DistClass.HH * Real.cos (aC1 - 8 * π / 6) *
        1000000) ≠ 1 / 2
    have hv : storeC1.dists DistClass.HH * Real.cos (aC1 - 8 * π / 6) *
        1000000 = -(14049691 / 25) - 42149073 / 100 * Real.sqrt 3 := by
      rw [storeC1_dists_HH, Real.cos_sub, cos_aC1, sin_aC1, cosu8, sinu8]
      ring
    rw [hv]
    exact fract_ne_half_lt (-1292031)
      (by push_cast; linarith [sqrt3_lb, sqrt3_ub])
      (by push_cast; linarith [sqrt3_lb, sqrt3_ub])
  rw [show aC1 - 8 * π / 6 + turnDelta (⟨.L, 60, .HH⟩ : Move) = aC1 - 10 * π / 6 by
    unfold turnDelta angleConst
    push_cast
    ring]
  refine (NoTieX_cons _ _ _ _).mpr ⟨?_, ?_⟩
  · show Int.fract (storeC1.dists DistClass.HH * Real.cos (aC1 - 10 * π / 6) *
        1000000) ≠ 1 / 2
    have hv : storeC1.dists DistClass.HH * Real.cos (aC1 - 10 * π / 6) *
        1000000 = 14049691 / 25 - 42149073 / 100 * Real.sqrt 3 := by
      rw [storeC1_dists_HH, Real.cos_sub, cos_aC1, sin_aC1, cosu10, sinu10]
      ring
    rw [hv]
    exact fract_ne_half_lt (-168056)
      (by push_cast; linarith [sqrt3_lb, sqrt3_ub])
      (by push_cast; linarith [sqrt3_lb, sqrt3_ub])
  rw [show aC1 - 10 * π / 6 + turnDelta (⟨.R, 90, .HH⟩ : Move) = aC1 - 7 * π / 6 by
    unfold turnDelta angleConst
    push_cast
    ring]
  refine (NoTieX_cons _ _ _ _).mpr ⟨?_, ?_⟩
  · show Int.fract (storeC1.dists DistClass.HS * Real.cos (aC1 - 7 * π / 6) *
        1000000) ≠ 1 / 2
    have hv : storeC1.dists DistClass.HS * Real.cos (aC1 - 7 * π / 6) *
        1000000 = -(60114819 / 100) - 20038273 / 25 * Real.sqrt 3 := by
      rw [storeC1_dists_HS, Real.cos_sub, cos_aC1, sin_aC1, cosu7, sinu7]
      ring
    rw [hv]
    exact fract_ne_half_gt (-1989441)
      (by push_cast; linarith [sqrt3_lb, sqrt3_ub])
      (by push_cast; linarith [sqrt3_lb, sqrt3_ub])
  rw [show aC1 - 7 * π / 6 + turnDelta (⟨.L, 60, .HS⟩ : Move) = aC1 - 9 * π / 6 by
    unfold turnDelta angleConst
    push_cast
    ring]
  refine (NoTieX_cons _ _ _ _).mpr ⟨?_, ?_⟩
  · show Int.fract (storeC1.dists DistClass.HS * Real.cos (aC1 - 9 * π / 6) *
        1000000) ≠ 1 / 2
    have hv : storeC1.dists DistClass.HS * Real.cos (aC1 - 9 * π / 6) *
        1000000 = -(60114819 / 50) := by
      rw [storeC1_dists_HS, Real.cos_sub, cos_aC1, sin_aC1, cosu9, sinu9]
      ring
    rw [hv]
    exact fract_ne_half_gt (-1202297)
      (by push_cast; linarith [sqrt3_lb, sqrt3_ub])
      (by push_cast; linarith [sqrt3_lb, sqrt3_ub])
  exact trivial

set_option maxHeartbeats 2000000 in
theorem ntyC1A : NoTieY storeC1.dists aC1 (rotatedMoves Chirality.L 2) := by
  rw [show rotatedMoves Chirality.L 2 = [⟨.L, 60, .HH⟩, ⟨.R, 90, .HH⟩, ⟨.L, 60, .HS⟩, ⟨.L, 60, .FS⟩, ⟨.L, 90, .HS⟩, ⟨.R, 60, .HH⟩, ⟨.L, 90, .HH⟩, ⟨.R, 60, .HS⟩, ⟨.L, 90, .HS⟩, ⟨.L, 60, .HH⟩, ⟨.R, 90, .HH⟩, ⟨.L, 60, .HS⟩, ⟨.L, 90, .HS⟩] from rfl]
  refine (NoTieY_cons _ _ _ _).mpr ⟨?_, ?_⟩
  · show Int.fract (storeC1.dists DistClass.HH * Real.sin (aC1) *
        1000000) ≠ 1 / 2
    have hv : storeC1.dists DistClass.HH * Real.sin (aC1) *
        1000000 = 42149073 / 50 := by
      rw [storeC1_dists_HH, sin_aC1]
      ring
    rw [hv]
    exact fract_ne_half_lt (842981)
      (by push_cast; linarith [sqrt3_lb, sqrt3_ub])
      (by push_cast; linarith [sqrt3_lb, sqrt3_ub])
  rw [show aC1 + turnDelta (⟨.L, 60, .HH⟩ : Move) = aC1 - 2 * π / 6 by
    unfold turnDelta angleConst
    push_cast
    ring]
  refine (NoTieY_cons _ _ _ _).mpr ⟨?_, ?_⟩
  · show Int.fract (storeC1.dists DistClass.HH * Real.sin (aC1 - 2 * π / 6) *
        1000000) ≠ 1 / 2
    have hv : storeC1.dists DistClass.HH * Real.sin (aC1 - 2 * π / 6) *
        1000000 = 42149073 / 100 - 14049691 / 25 * Real.sqrt 3 := by
      rw [storeC1_dists_HH, Real.sin_sub, cos_aC1, sin_aC1, cosu2, sinu2]
      ring
    rw [hv]
    exact fract_ne_half_gt (-551901)
      (by push_cast; linarith [sqrt3_lb, sqrt3_ub])
      (by push_cast; linarith [sqrt3_lb, sqrt3_ub])
  rw [show aC1 - 2 * π / 6 + turnDelta (⟨.R, 90, .HH⟩ : Move) = aC1 + π / 6 by
    unfold turnDelta angleConst
    push_cast
    ring]
  refine (NoTieY_cons _ _ _ _).mpr ⟨?_, ?_⟩
  · show Int.fract (storeC1.dists DistClass.HS * Real.sin (aC1 + π / 6) *
        1000000) ≠ 1 / 2
    have hv : storeC1.dists DistClass.HS * Real.sin (aC1 + π / 6) *
        1000000 = 20038273 / 25 + 60114819 / 100 * Real.sqrt 3 := by
      rw [storeC1_dists_HS, Real.sin_add, cos_aC1, sin_aC1, Real.cos_pi_div_six, Real.sin_pi_div_six]
      ring
    rw [hv]
    exact fract_ne_half_lt (1842750)
      (by push_cast; linarith [sqrt3_lb, sqrt3_ub])
      (by push_cast; linarith [sqrt3_lb, sqrt3_ub])
  rw [show aC1 + π / 6 + turnDelta (⟨.L, 60, .HS⟩ : Move) = aC1 - 1 * π / 6 by
    unfold turnDelta angleConst
    push_cast
    ring]
  refine (NoTieY_cons _ _ _ _).mpr ⟨?_, ?_⟩
  · show Int.fract (storeC1.dists DistClass.FS * Real.sin (aC1 - 1 * π / 6) *
        1000000) ≠ 1 / 2
    have hv : storeC1.dists DistClass.FS * Real.sin (aC1 - 1 * π / 6) *
        1000000 = -(40076546 / 25) + 60114819 / 50 * Real.sqrt 3 := by
      rw [storeC1_dists_FS, Real.sin_sub, cos_aC1, sin_aC1, cosu1, sinu1]
      ring
    rw [hv]
    exact fract_ne_half_gt (479376)
      (by push_cast; linarith [sqrt3_lb, sqrt3_ub])
      (by push_cast; linarith [sqrt3_lb, sqrt3_ub])
  rw [show aC1 - 1 * π / 6 + turnDelta (⟨.L, 60, .FS⟩ : Move) = aC1 - 3 * π / 6 by
    unfold turnDelta angleConst
    push_cast
    ring]
  refine (NoTieY_cons _ _ _ _).mpr ⟨?_, ?_⟩
  · show Int.fract (storeC1.dists DistClass.HS * Real.sin (aC1 - 3 * π / 6) *
        1000000) ≠ 1 / 2
    have hv : storeC1.dists DistClass.HS * Real.sin (aC1 - 3 * π / 6) *
        1000000 = -(40076546 / 25) := by
      rw [storeC1_dists_HS, Real.sin_sub, cos_aC1, sin_aC1, cosu3, sinu3]
      ring
    rw [hv]
    exact fract_ne_half_lt (-1603062)
      (by push_cast; linarith [sqrt3_lb, sqrt3_ub])
      (by push_cast; linarith [sqrt3_lb, sqrt3_ub])
  rw [show aC1 - 3 * π / 6 + turnDelta (⟨.L, 90, .HS⟩ : Move) = aC1 - 6 * π / 6 by
    unfold turnDelta angleConst
    push_cast
    ring]
  refine (NoTieY_cons _ _ _ _).mpr ⟨?_, ?_⟩
  · show Int.fract (storeC1.dists DistClass.HH * Real.sin (aC1 - 6 * π / 6) *
        1000000) ≠ 1 / 2
    have hv : storeC1.dists DistClass.HH * Real.sin (aC1 - 6 * π / 6) *
        1000000 = -(42149073 / 50) := by
      rw [storeC1_dists_HH, Real.sin_sub, cos_aC1, sin_aC1, cosu6, sinu6]
      ring
    rw [hv]
    exact fract_ne_half_gt (-842982)
      (by push_cast; linarith [sqrt3_lb, sqrt3_ub])
      (by push_cast; linarith [sqrt3_lb, sqrt3_ub])
  rw [show aC1 - 6 * π / 6 + turnDelta (⟨.R, 60, .HH⟩ : Move) = aC1 - 4 * π / 6 by
    unfold turnDelta angleConst
    push_cast
    ring]
  refine (NoTieY_cons _ _ _ _).mpr ⟨?_, ?_⟩
  · show Int.fract (storeC1.dists DistClass.HH * Real.sin (aC1 - 4 * π / 6) *
        1000000) ≠ 1 / 2
    have hv : storeC1.dists DistClass.HH * Real.sin (aC1 - 4 * π / 6) *
        1000000 = -(42149073 / 100) - 14049691 / 25 * Real.sqrt 3 := by
      rw [storeC1_dists_HH, Real.sin_sub, cos_aC1, sin_aC1, cosu4, sinu4]
      ring
    rw [hv]
    exact fract_ne_half_lt (-1394882)
      (by push_cast; linarith [sqrt3_lb, sqrt3_ub])
      (by push_cast; linarith [sqrt3_lb, sqrt3_ub])
  rw [show aC1 - 4 * π / 6 + turnDelta (⟨.L, 90, .HH⟩ : Move) = aC1 - 7 * π / 6 by
    unfold turnDelta angleConst
    push_cast
    ring]
  refine (NoTieY_cons _ _ _ _).mpr ⟨?_, ?_⟩
  · show Int.fract (storeC1.dists DistClass.HS * Real.sin (aC1 - 7 * π / 6) *
        1000000) ≠ 1 / 2
    have hv : storeC1.dists DistClass.HS * Real.sin (aC1 - 7 * π / 6) *
        1000000 = 20038273 / 25 - 60114819 / 100 * Real.sqrt 3 := by
      rw [storeC1_dists_HS, Real.sin_sub, cos_aC1, sin_aC1, cosu7, sinu7]
      ring
    rw [hv]
    exact fract_ne_half_gt (-239689)
      (by push_cast; linarith [sqrt3_lb, sqrt3_ub])
      (by push_cast; linarith [sqrt3_lb, sqrt3_ub])
  rw [show aC1 - 7 * π / 6 + turnDelta (⟨.R, 60, .HS⟩ : Move) = aC1 - 5 * π / 6 by
    unfold turnDelta angleConst
    push_cast
    ring]
  refine (NoTieY_cons _ _ _ _).mpr ⟨?_, ?_⟩
  · show Int.fract (storeC1.dists DistClass.HS * Real.sin (aC1 - 5 * π / 6) *
        1000000) ≠ 1 / 2
    have hv : storeC1.dists DistClass.HS * Real.sin (aC1 - 5 * π / 6) *
        1000000 = -(20038273 / 25) - 60114819 / 100 * Real.sqrt 3 := by
      rw [storeC1_dists_HS, Real.sin_sub, cos_aC1, sin_aC1, cosu5, sinu5]
      ring
    rw [hv]
    exact fract_ne_half_gt (-1842751)
      (by push_cast; linarith [sqrt3_lb, sqrt3_ub])
      (by push_cast; linarith [sqrt3_lb, sqrt3_ub])
  rw [show aC1 - 5 * π / 6 + turnDelta (⟨.L, 90, .HS⟩ : Move) = aC1 - 8 * π / 6 by
    unfold turnDelta angleConst
    push_cast
    ring]
  refine (NoTieY_cons _ _ _ _).mpr ⟨?_, ?_⟩
  · show Int.fract (storeC1.dists DistClass.HH * Real.sin (aC1 - 8 * π / 6) *
        1000000) ≠ 1 / 2
    have hv : storeC1.dists DistClass.HH * Real.sin (aC1 - 8 * π / 6) *
        1000000 = -(42149073 / 100) + 14049691 / 25 * Real.sqrt 3 := by
      rw [storeC1_dists_HH, Real.sin_sub, cos_aC1, sin_aC1, cosu8, sinu8]
      ring
    rw [hv]
    exact fract_ne_half_lt (551900)
      (by push_cast; linarith [sqrt3_lb, sqrt3_ub])
      (by push_cast; linarith [sqrt3_lb, sqrt3_ub])
  rw [show aC1 - 8 * π / 6 + turnDelta (⟨.L, 60, .HH⟩ : Move) = aC1 - 10 * π / 6 by
    unfold turnDelta angleConst
    push_cast
    ring]
  refine (NoTieY_cons _ _ _ _).mpr ⟨?_, ?_⟩
  · show Int.fract (storeC1.dists DistClass.HH * Real.sin (aC1 - 10 * π / 6) *
        1000000) ≠ 1 / 2
    have hv : storeC1.dists DistClass.HH * Real.sin (aC1 - 10 * π / 6) *
        1000000 = 42149073 / 100 + 14049691 / 25 * Real.sqrt 3 := by
      rw [storeC1_dists_HH, Real.sin_sub, cos_aC1, sin_aC1, cosu10, sinu10]
      ring
    rw [hv]
    exact fract_ne_half_gt (1394881)
      (by push_cast; linarith [sqrt3_lb, sqrt3_ub])
      (by push_cast; linarith [sqrt3_lb, sqrt3_ub])
  rw [show aC1 - 10 * π / 6 + turnDelta (⟨.R, 90, .HH⟩ : Move) = aC1 - 7 * π / 6 by
    unfold turnDelta angleConst
    push_cast
    ring]
  refine (NoTieY_cons _ _ _ _).mpr ⟨?_, ?_⟩
  · show Int.fract (storeC1.dists DistClass.HS * Real.sin (aC1 - 7 * π / 6) *
        1000000) ≠ 1 / 2
    have hv : storeC1.dists DistClass.HS * Real.sin (aC1 - 7 * π / 6) *
        1000000 = 20038273 / 25 - 60114819 / 100 * Real.sqrt 3 := by
      rw [storeC1_dists_HS, Real.sin_sub, cos_aC1, sin_aC1, cosu7, sinu7]
      ring
    rw [hv]
    exact fract_ne_half_gt (-239689)
      (by push_cast; linarith [sqrt3_lb, sqrt3_ub])
      (by push_cast; linarith [sqrt3_lb, sqrt3_ub])
  rw [show aC1 - 7 * π / 6 + turnDelta (⟨.L, 60, .HS⟩ : Move) = aC1 - 9 * π / 6 by
    unfold turnDelta angleConst
    push_cast
    ring]
  refine (NoTieY_cons _ _ _ _).mpr ⟨?_, ?_⟩
  · show Int.fract (storeC1.dists DistClass.HS * Real.sin (aC1 - 9 * π / 6) *
        1000000) ≠ 1 / 2
    have hv : storeC1.dists DistClass.HS * Real.sin (aC1 - 9 * π / 6) *
        1000000 = 40076546 / 25 := by
      rw [storeC1_dists_HS, Real.sin_sub, cos_aC1, sin_aC1, cosu9, sinu9]
      ring
    rw [hv]
    exact fract_ne_half_gt (1603061)
      (by push_cast; linarith [sqrt3_lb, sqrt3_ub])
      (by push_cast; linarith [sqrt3_lb, sqrt3_ub])
  exact trivial


theorem placedC1W : Placed storeC1W.dists Chirality.L ptsC1W := by
  refine ⟨((0 : ℝ), (0 : ℝ)), (0 : ℝ), 0, by norm_num, ⟨0, by norm_num⟩,
    ⟨0, by norm_num⟩, ntxC1W0, ntyC1W0, ?_⟩
  unfold traceFrom
  rw [rearrange_zero, rotatedMoves_zero]
  rw [show MOVES Chirality.L = LEFT_HAT_MOVES from rfl]
  rw [ptsC1Wtrace]
  rfl

theorem getangC1W :
    get_angle ((1000000 / 1000000 : ℝ), (0 / 1000000 : ℝ))
      ((0 / 1000000 : ℝ), (0 / 1000000 : ℝ)) = .ok π := by
  unfold get_angle
  dsimp only
  rw [if_neg (by norm_num),
    if_neg (show ¬|(0 / 1000000 : ℝ) - 1000000 / 1000000| < 1 / 1000000 by
      rw [show ((0 / 1000000 : ℝ) - 1000000 / 1000000) = -1 by norm_num,
        abs_neg, abs_one]
      norm_num),
    if_neg (by norm_num)]
  rw [show ((0 / 1000000 : ℝ) - 0 / 1000000) /
      (0 / 1000000 - 1000000 / 1000000) = 0 by norm_num]
  rw [Real.arctan_zero, zero_add]

theorem resolveC1W : resolveStart storeC1W Chirality.L (some "LP")
    (some "A") = .ok (((1000000 / 1000000 : ℝ), (0 / 1000000 : ℝ)), π) := by
  have htile : storeC1W.tiles.lookup "A" = some tileC1W := rfl
  have hm : listIndex (EDGES tileC1W.chirality) "LP" = .ok 0 := rfl
  unfold resolveStart
  simp only [Option.getD_some, htile, hm]
  rw [if_pos (show Chirality.L = tileC1W.chirality from rfl)]
  rw [show get_angle (tileC1W.user_points.getD 0 (0, 0))
      (tileC1W.user_points.getD ((((0 : ℕ) : ℤ) - 1) % 13).toNat (0, 0)) =
      Except.ok π from getangC1W]
  rfl

theorem insertC1W : set_user_points storeC1W Chirality.L "LP" (some "LP")
    (some "A") = .ok (traceFrom storeC1W.dists Chirality.L 0
      ((1000000 / 1000000 : ℝ), (0 / 1000000 : ℝ)) π) := by
  unfold set_user_points
  rw [resolveC1W]
  rfl

/-- Witness for C1 (amended): in the unit-parameter store `storeC1W`, the
tile matched on edge `LP` of the placed tile `A` (same chirality, so the
matched edge's endpoints are picked up in reversed order) satisfies every
hypothesis of the amended edge-congruence bound, and its starting edge's
endpoints agree with the matched edge's endpoints within 2e-6. -/
theorem edge_congruence_within_two_millionths_witness :
    storeC1W.tiles.lookup "A" = some tileC1W ∧
    Placed storeC1W.dists tileC1W.chirality tileC1W.user_points ∧
    listIndex (EDGES tileC1W.chirality) "LP" = .ok 0 ∧
    listIndex (EDGES Chirality.L) "LP" = .ok 0 ∧
    0 ≤ storeC1W.dists (edgeClass tileC1W.chirality 0) ∧
    storeC1W.dists (edgeClass Chirality.L 0) =
      storeC1W.dists (edgeClass tileC1W.chirality 0) ∧
    NoTieX storeC1W.dists π (rotatedMoves Chirality.L 0) ∧
    NoTieY storeC1W.dists π (rotatedMoves Chirality.L 0) ∧
    set_user_points storeC1W Chirality.L "LP" (some "LP") (some "A") =
      .ok (traceFrom storeC1W.dists Chirality.L 0
        ((1000000 / 1000000 : ℝ), (0 / 1000000 : ℝ)) π) ∧
    ((Chirality.L = tileC1W.chirality →
      |((traceFrom storeC1W.dists Chirality.L 0
          ((1000000 / 1000000 : ℝ), (0 / 1000000 : ℝ)) π).getD 0 (0, 0)).1 -
        (tileC1W.user_points.getD (prevIdx 0) (0, 0)).1| ≤ 2 / 1000000 ∧
      |((traceFrom storeC1W.dists Chirality.L 0
          ((1000000 / 1000000 : ℝ), (0 / 1000000 : ℝ)) π).getD 0 (0, 0)).2 -
        (tileC1W.user_points.getD (prevIdx 0) (0, 0)).2| ≤ 2 / 1000000 ∧
      |((traceFrom storeC1W.dists Chirality.L 0
          ((1000000 / 1000000 : ℝ), (0 / 1000000 : ℝ)) π).getD (prevIdx 0)
          (0, 0)).1 -
        (tileC1W.user_points.getD 0 (0, 0)).1| ≤ 2 / 1000000 ∧
      |((traceFrom storeC1W.dists Chirality.L 0
          ((1000000 / 1000000 : ℝ), (0 / 1000000 : ℝ)) π).getD (prevIdx 0)
          (0, 0)).2 -
        (tileC1W.user_points.getD 0 (0, 0)).2| ≤ 2 / 1000000) ∧
    (Chirality.L ≠ tileC1W.chirality →
      |((traceFrom storeC1W.dists Chirality.L 0
          ((1000000 / 1000000 : ℝ), (0 / 1000000 : ℝ)) π).getD (prevIdx 0)
          (0, 0)).1 -
        (tileC1W.user_points.getD (prevIdx 0) (0, 0)).1| ≤ 2 / 1000000 ∧
      |((traceFrom storeC1W.dists Chirality.L 0
          ((1000000 / 1000000 : ℝ), (0 / 1000000 : ℝ)) π).getD (prevIdx 0)
          (0, 0)).2 -
        (tileC1W.user_points.getD (prevIdx 0) (0, 0)).2| ≤ 2 / 1000000 ∧
      |((traceFrom storeC1W.dists Chirality.L 0
          ((1000000 / 1000000 : ℝ), (0 / 1000000 : ℝ)) π).getD 0 (0, 0)).1 -
        (tileC1W.user_points.getD 0 (0, 0)).1| ≤ 2 / 1000000 ∧
      |((traceFrom storeC1W.dists Chirality.L 0
          ((1000000 / 1000000 : ℝ), (0 / 1000000 : ℝ)) π).getD 0 (0, 0)).2 -
        (tileC1W.user_points.getD 0 (0, 0)).2| ≤ 2 / 1000000)) := by
  have hlk : storeC1W.tiles.lookup "A" = some tileC1W := rfl
  have hpl : Placed storeC1W.dists tileC1W.chirality tileC1W.user_points :=
    placedC1W
  have hm : listIndex (EDGES tileC1W.chirality) "LP" = .ok 0 := rfl
  have hse : listIndex (EDGES Chirality.L) "LP" = .ok 0 := rfl
  have hd0 : (0 : ℝ) ≤ storeC1W.dists (edgeClass tileC1W.chirality 0) := by
    rw [show edgeClass tileC1W.chirality 0 = DistClass.HS from rfl,
      storeC1W_dists_HS]
    norm_num
  have hlen : storeC1W.dists (edgeClass Chirality.L 0) =
      storeC1W.dists (edgeClass tileC1W.chirality 0) := rfl
  have hnt : ∀ p0 θ, resolveStart storeC1W Chirality.L (some "LP")
      (some "A") = .ok (p0, θ) →
      NoTieX storeC1W.dists θ (rotatedMoves Chirality.L 0) ∧
      NoTieY storeC1W.dists θ (rotatedMoves Chirality.L 0) := by
    intro p0 θ h
    rw [resolveC1W] at h
    cases h
    exact ⟨ntxC1Wpi, ntyC1Wpi⟩
  have happ := edge_congruence_within_two_millionths storeC1W Chirality.L
    "LP" "LP" "A" tileC1W 0 0
    (traceFrom storeC1W.dists Chirality.L 0
      ((1000000 / 1000000 : ℝ), (0 / 1000000 : ℝ)) π)
    hlk hpl hm hse hd0 hlen hnt insertC1W
  exact ⟨hlk, hpl, hm, hse, hd0, hlen, ntxC1Wpi, ntyC1Wpi, insertC1W, happ⟩


theorem placedC1A : Placed storeC1.dists Chirality.L ptsC1A := by
  refine ⟨((0 : ℝ), (0 : ℝ)), aC1, 2, by norm_num, ⟨0, by norm_num⟩,
    ⟨0, by norm_num⟩, ntxC1A, ntyC1A, ?_⟩
  unfold traceFrom
  rw [ptsC1Atrace]
  rfl

theorem sqrtNC1_pos : (0 : ℝ) < Real.sqrt (493483208269 / 250000000000) :=
  Real.sqrt_pos.mpr (by norm_num)

theorem sqrtNC1_lb : (1756209 / 1250000 : ℝ) <
    Real.sqrt (493483208269 / 250000000000) :=
  (Real.lt_sqrt (by norm_num)).mpr (by norm_num)

theorem sqrtNC1_ub : Real.sqrt (493483208269 / 250000000000) <
    14049672000001 / 10000000000000 :=
  (Real.sqrt_lt' (by norm_num)).mpr (by norm_num)

theorem getangC1 :
    get_angle ((1123975 / 1000000 : ℝ), (842981 / 1000000 : ℝ))
      ((1 / 1000000 : ℝ), (1 / 1000000 : ℝ)) =
      .ok (Real.arctan (421490 / 561987) + π) := by
  unfold get_angle
  dsimp only
  rw [if_neg (by norm_num),
    if_neg (show ¬|(1 / 1000000 : ℝ) - 1123975 / 1000000| < 1 / 1000000 by
      rw [show ((1 / 1000000 : ℝ) - 1123975 / 1000000) = -(561987 / 500000)
        by norm_num, abs_neg,
        abs_of_nonneg (by norm_num : (0 : ℝ) ≤ 561987 / 500000)]
      norm_num),
    if_neg (by norm_num)]
  rw [show ((1 / 1000000 : ℝ) - 842981 / 1000000) /
      (1 / 1000000 - 1123975 / 1000000) = 421490 / 561987 by norm_num]

theorem resolveC1 : resolveStart storeC1 Chirality.L (some "LS")
    (some "A") = .ok (((1123975 / 1000000 : ℝ), (842981 / 1000000 : ℝ)),
      Real.arctan (421490 / 561987) + π) := by
  have htile : storeC1.tiles.lookup "A" = some tileC1A := rfl
  have hm : listIndex (EDGES tileC1A.chirality) "LS" = .ok 2 := rfl
  unfold resolveStart
  simp only [Option.getD_some, htile, hm]
  rw [if_pos (show Chirality.L = tileC1A.chirality from rfl)]
  rw [show get_angle (tileC1A.user_points.getD 2 (0, 0))
      (tileC1A.user_points.getD ((((2 : ℕ) : ℤ) - 1) % 13).toNat (0, 0)) =
      Except.ok (Real.arctan (421490 / 561987) + π) from getangC1]
  rfl

theorem insertC1 : set_user_points storeC1 Chirality.L "LS" (some "LS")
    (some "A") = .ok ptsC1B := by
  unfold set_user_points
  rw [resolveC1]
  rfl

set_option maxHeartbeats 1000000 in
theorem ptsC1B_first_x : ((ptsC1B).getD 2 (0, 0)).1 = -1 / 1000000 := by
  have hgE : Grid ((((1123975 / 1000000 : ℝ), (842981 / 1000000 : ℝ)) :
      Pt).1) := ⟨1123975, by norm_num⟩
  have hgS : Grid ((((1 / 1000000 : ℝ), (1 / 1000000 : ℝ)) : Pt).1) :=
    ⟨1, by norm_num⟩
  obtain ⟨hcosB, hsinB⟩ := get_angle_direction hgE hgS getangC1
  have hdistC1 : dist ((1123975 / 1000000 : ℝ), (842981 / 1000000 : ℝ))
      ((1 / 1000000 : ℝ), (1 / 1000000 : ℝ)) =
      Real.sqrt (493483208269 / 250000000000) := by
    unfold dist
    dsimp only
    rw [show ((1 / 1000000 : ℝ) - 842981 / 1000000) ^ 2 +
        ((1 / 1000000 : ℝ) - 1123975 / 1000000) ^ 2 =
        493483208269 / 250000000000 by norm_num]
  rw [show ptsC1B = traceFrom storeC1.dists Chirality.L 2
      ((1123975 / 1000000 : ℝ), (842981 / 1000000 : ℝ))
      (Real.arctan (421490 / 561987) + π) from rfl]
  rw [traceFrom_getD_start _ _ _ _ _ (by norm_num)]
  dsimp only
  rw [show edgeClass Chirality.L 2 = DistClass.HH from rfl, storeC1_dists_HH]
  rw [hcosB, hdistC1]
  dsimp only
  rw [show ((1 / 1000000 : ℝ) - 1123975 / 1000000) /
      Real.sqrt (493483208269 / 250000000000) =
      -(561987 / 500000) * (1 / Real.sqrt (493483208269 / 250000000000)) by
    rw [div_eq_mul_one_div]
    norm_num]
  have hinvlo : 1 / Real.sqrt (493483208269 / 250000000000) <
      1 / (1756209 / 1250000 : ℝ) :=
    one_div_lt_one_div_of_lt (by norm_num) sqrtNC1_lb
  have hinvhi : 1 / (14049672000001 / 10000000000000 : ℝ) <
      1 / Real.sqrt (493483208269 / 250000000000) :=
    one_div_lt_one_div_of_lt sqrtNC1_pos sqrtNC1_ub
  have hTlo : (-(561987 / 500000) : ℝ) * (1 / (1756209 / 1250000 : ℝ)) <
      -(561987 / 500000) * (1 / Real.sqrt (493483208269 / 250000000000)) :=
    mul_lt_mul_of_neg_left hinvlo (by norm_num)
  have hThi : (-(561987 / 500000) : ℝ) *
      (1 / Real.sqrt (493483208269 / 250000000000)) <
      -(561987 / 500000) * (1 / (14049672000001 / 10000000000000 : ℝ)) :=
    mul_lt_mul_of_neg_left hinvhi (by norm_num)
  rw [round6_eq_div (1123975 / 1000000 + 14049691 / 10000000 *
      (-(561987 / 500000) * (1 / Real.sqrt (493483208269 / 250000000000))))
      (-1) (by push_cast; linarith) (by push_cast; linarith)]
  norm_num

/-- C1 (counterexample): the spec's 1e-6 edge-congruence tolerance fails.
In `storeC1` (`p1 = 2.0038273`, `p2 = 1.4049691`, first-tile angle
`arctan(3/4)`) tile `A` is a genuinely placed first tile with starting
edge `LS`, and the matched edge `LS` is its seam edge (last vertex drawn
back to the first).  Inserting a same-chirality tile `B` matched on that
edge succeeds, and the x-coordinate of `B`'s starting-edge end vertex
differs from the matched edge's start vertex by exactly 2e-6 > 1e-6: the
resolved length `p2` differs from the distance between the stored
(rounded) seam endpoints by just under 2e-6, and the first traced point
rounds one full grid step past the matched vertex. -/
theorem edge_congruence_one_millionth_counterexample :
    storeC1.tiles.lookup "A" = some tileC1A ∧
    tileC1A.chirality = Chirality.L ∧
    Placed storeC1.dists Chirality.L tileC1A.user_points ∧
    listIndex (EDGES Chirality.L) "LS" = .ok 2 ∧
    0 < storeC1.dists (edgeClass Chirality.L 2) ∧
    set_user_points storeC1 Chirality.L "LS" (some "LS") (some "A") =
      .ok ptsC1B ∧
    1 / 1000000 <
      |(ptsC1B.getD 2 (0, 0)).1 -
        (tileC1A.user_points.getD (prevIdx 2) (0, 0)).1| := by
  refine ⟨rfl, rfl, placedC1A, rfl, ?_, insertC1, ?_⟩
  · rw [show edgeClass Chirality.L 2 = DistClass.HH from rfl,
      storeC1_dists_HH]
    norm_num
  · rw [ptsC1B_first_x]
    rw [show (tileC1A.user_points.getD (prevIdx 2) (0, 0)).1 =
        1 / 1000000 from rfl]
    rw [show (-1 / 1000000 : ℝ) - 1 / 1000000 = -(2 / 1000000) by norm_num,
      abs_neg, abs_of_nonneg (by norm_num : (0 : ℝ) ≤ 2 / 1000000)]
    norm_num

end ProgressTiles
